import Mathlib

/-! # DNS server stub (source4/dns_server/dns_server.c)

A shallow embedding of the query processor (`handle_question`, `compute_reply`,
`dns_process`), of the stream handler (`dns_tcp_accept`, `dns_tcp_call_loop`,
`dns_tcp_call_writev_done`), of the datagram handler (`dns_udp_call_loop`,
`dns_udp_call_sendto_done`) and of the socket setup (`dns_add_socket`,
`dns_startup_interfaces`), with a model of the message codec, which is not part of
the sources. The definitions of both parts of the development come first, the
theorems follow.

Conventions of the embedding.

* A C pointer to a talloc array is an `Option (List α)`: `none` is `NULL`, `some l`
  is an allocated array holding the elements of `l`.
* Everything the file calls but does not define (talloc, the NDR codec, tstream) is
  a field of an environment structure: the outcome of each allocation, the
  decoder and the encoder as functions, and the bytes found in memory that
  `talloc_realloc` hands out without initialising it.
* Machine integers are natural numbers, reduced modulo their width where the C
  code can wrap.
-/

namespace DnsServer

/-! ## Data model -/

/-- NT status codes used by dns_server.c; `other` stands for every further code. -/
inductive NTSTATUS
  | NT_STATUS_OK
  | NT_STATUS_NO_MEMORY
  | NT_STATUS_INVALID_PARAMETER
  | NT_STATUS_COULD_NOT_INTERPRET
  | NT_STATUS_INTERNAL_ERROR
  | other (code : Nat)
  deriving DecidableEq, Repr

open NTSTATUS

/-- The macro `NT_STATUS_IS_OK`. -/
def NT_STATUS_IS_OK (s : NTSTATUS) : Bool :=
  decide (s = NT_STATUS_OK)

/-- A `DATA_BLOB`: `data` is the memory from the pointer on, `length` the length field. -/
structure DATA_BLOB where
  data : List Nat
  length : Nat
  deriving DecidableEq, Repr

/-- Modelled from the spec: `struct dns_name_question` is declared in the generated
NDR header, which is not part of the sources; the fields are those of the spec's
Question `{name, query_type, query_class}`. -/
structure dns_name_question where
  name : String
  question_type : Nat
  question_class : Nat
  deriving DecidableEq, Repr

/-- Modelled from the spec: `union dns_rdata` is declared in the generated NDR header,
which is not part of the sources. Only the IPv4 member is written by this file; it
is a C string pointer (`none` is `NULL`). `raw` is any other content of the union. -/
inductive dns_rdata
  | ipv4_record (addr : Option String)
  | raw (bytes : List Nat)
  deriving DecidableEq, Repr

/-- Modelled from the spec: `struct dns_res_rec` is declared in the generated NDR
header, which is not part of the sources; the fields are those of the spec's
ResourceRecord `{name, type, class, ttl, rdata}`. `name` is a C string pointer. -/
structure dns_res_rec where
  name : Option String
  rr_type : Nat
  rr_class : Nat
  ttl : Nat
  rdata : dns_rdata
  deriving DecidableEq, Repr

/-- Modelled from the spec: `struct dns_name_packet` is declared in the generated NDR
header, which is not part of the sources; the fields are those dns_server.c reads
and writes (header, four counts, four array pointers). -/
structure dns_name_packet where
  id : Nat
  operation : Nat
  qdcount : Nat
  ancount : Nat
  nscount : Nat
  arcount : Nat
  questions : Option (List dns_name_question)
  answers : Option (List dns_res_rec)
  nsrecs : Option (List dns_res_rec)
  additional : Option (List dns_res_rec)
  deriving DecidableEq, Repr

/-- Modelled from the spec: the flag constants come from dns.idl, which is not part
of the sources; the value is the QR bit of the DNS header flags word. -/
def DNS_FLAG_REPLY : Nat := 0x8000

/-- Modelled from the spec: the flag constants come from dns.idl, which is not part
of the sources; the value is the AA bit of the DNS header flags word. -/
def DNS_FLAG_AUTHORITATIVE : Nat := 0x0400

/-- Modelled from the spec: record type A, from dns.idl, which is not part of the
sources. -/
def DNS_QTYPE_A : Nat := 1

/-- Modelled from the spec: record class IN, from dns.idl, which is not part of the
sources. -/
def DNS_QCLASS_IP : Nat := 1

/-- Number of elements behind an array pointer, a `NULL` pointer counting as empty. -/
def array_length {α : Type} (p : Option (List α)) : Nat :=
  match p with
  | none => 0
  | some l => l.length

/-! ## Environment of the query processor -/

/-- What `dns_process` and the functions below it obtain from outside the file. -/
structure dns_env where
  /-- `talloc(mem_ctx, struct dns_name_packet)` for `in_packet` returned memory -/
  in_packet_ok : Bool
  /-- `talloc(mem_ctx, struct dns_name_packet)` for `out_packet` returned memory -/
  out_packet_ok : Bool
  /-- `ndr_pull_struct_blob` with `ndr_pull_dns_name_packet`; `none` is an NDR error -/
  ndr_pull : DATA_BLOB → Option dns_name_packet
  /-- `ndr_push_struct_blob` with `ndr_push_dns_name_packet`; `none` is an NDR error -/
  ndr_push : dns_name_packet → Option (List Nat)
  /-- `talloc_array(mem_ctx, struct dns_res_rec, 0)` returned memory -/
  array_ok : Bool
  /-- `talloc_realloc` for question `i` returned memory -/
  realloc_ok : Nat → Bool
  /-- `talloc_strdup` of the record name for question `i` returned memory -/
  strdup_name_ok : Nat → Bool
  /-- `talloc_strdup` of the address for question `i` returned memory -/
  strdup_rdata_ok : Nat → Bool
  /-- Content of slot `k` of the memory that the realloc for question `i` adds -/
  junk : Nat → Nat → dns_res_rec

/-- The function `talloc_strdup`: a copy of the string, or `NULL`. -/
def talloc_strdup (ok : Bool) (s : String) : Option String :=
  if ok then some s else none

/-- The function `talloc_realloc(NULL, ptr, struct dns_res_rec, count)`: `NULL` for a
count of zero or on failure; otherwise an array of `count` elements that keeps the old
elements and leaves the added ones as they are found in memory. -/
def talloc_realloc (E : dns_env) (i : Nat) (ptr : Option (List dns_res_rec))
    (count : Nat) : Option (List dns_res_rec) :=
  if count = 0 then none
  else if E.realloc_ok i then
    let old := (ptr.getD []).take count
    some (old ++ (List.range (count - old.length)).map (fun k => E.junk i (old.length + k)))
  else none

/-! ## The query processor -/

/-- The function `handle_question`, for the question with index `i`: the status and
the new values of `*answers` and `*ancount`. -/
def handle_question (E : dns_env) (i : Nat) (_question : Option dns_name_question)
    (answers : Option (List dns_res_rec)) (ancount : Nat) :
    NTSTATUS × Option (List dns_res_rec) × Nat :=
  let count := (ancount + 1) % 65536
  match talloc_realloc E i answers count with
  | none => (NT_STATUS_NO_MEMORY, answers, ancount)
  | some ans =>
    -- the five assignments to `ans[0]`
    let ans := ans.modifyHead (fun r =>
      { r with
        name := talloc_strdup (E.strdup_name_ok i) "example.com"
        rr_type := DNS_QTYPE_A
        rr_class := DNS_QCLASS_IP
        ttl := 0
        rdata := dns_rdata.ipv4_record (talloc_strdup (E.strdup_rdata_ok i) "127.0.0.1") })
    (NT_STATUS_OK, some ans, count)

/-- The loop of `compute_reply`: `todo` iterations remain, the next index is `i`. -/
def compute_reply_loop (E : dns_env) (inp : dns_name_packet) :
    Nat → Nat → Option (List dns_res_rec) → Nat → NTSTATUS × Option (List dns_res_rec) × Nat
  | 0, _, ans, num_answers => (NT_STATUS_OK, ans, num_answers)
  | todo + 1, i, ans, num_answers =>
    match handle_question E i ((inp.questions.getD [])[i]?) ans num_answers with
    | (NT_STATUS_OK, ans1, num1) => compute_reply_loop E inp todo (i + 1) ans1 num1
    | (status, ans1, num1) => (status, ans1, num1)

/-- What `compute_reply` stores through its six output pointers. -/
structure reply_sections where
  answers : Option (List dns_res_rec)
  ancount : Nat
  nsrecs : Option (List dns_res_rec)
  nscount : Nat
  additional : Option (List dns_res_rec)
  arcount : Nat
  deriving DecidableEq, Repr

/-- The function `compute_reply`: an error status, with nothing stored, or what it
stored. The test `answers == NULL` looks at the output pointer, which the only caller
sets to the address of a local, so it never holds and a failed `talloc_array` leaves
`ans` as `NULL`. -/
def compute_reply (E : dns_env) (inp : dns_name_packet) : Except NTSTATUS reply_sections :=
  let ans : Option (List dns_res_rec) := if E.array_ok then some [] else none
  let answers_is_null := false
  if answers_is_null then Except.error NT_STATUS_NO_MEMORY
  else
    match compute_reply_loop E inp inp.qdcount 0 ans 0 with
    | (NT_STATUS_OK, ans1, num_answers) =>
      Except.ok
        { answers := ans1, ancount := num_answers
          nsrecs := none, nscount := 0
          additional := none, arcount := 0 }
    | (status, _, _) => Except.error status

/-- What one run of `dns_process` did. -/
structure dns_process_result where
  /-- the returned status -/
  status : NTSTATUS
  /-- the blob handed to `ndr_pull_struct_blob`, when it was called -/
  pulled : Option DATA_BLOB
  /-- the result of `compute_reply`, when it was called -/
  reply : Option (Except NTSTATUS reply_sections)
  /-- the packet handed to `ndr_push_struct_blob`, when it was called -/
  pushed : Option dns_name_packet
  /-- the blob stored in `*out`, when it was written -/
  out : Option DATA_BLOB

/-- The function `dns_process`. `none` is the undefined behaviour of storing through
`out_packet` when its allocation failed (the code tests `in_packet` only). -/
def dns_process (E : dns_env) (inp : DATA_BLOB) : Option dns_process_result :=
  if E.in_packet_ok = false then
    some { status := NT_STATUS_INVALID_PARAMETER, pulled := none, reply := none,
           pushed := none, out := none }
  else
    match E.ndr_pull inp with
    | none =>
      some { status := NT_STATUS_COULD_NOT_INTERPRET, pulled := some inp, reply := none,
             pushed := none, out := none }
    | some in_packet =>
      if E.out_packet_ok = false then none
      else
        let out_packet : dns_name_packet :=
          { id := in_packet.id
            operation := DNS_FLAG_REPLY ||| DNS_FLAG_AUTHORITATIVE
            qdcount := in_packet.qdcount
            questions := in_packet.questions
            ancount := 0, answers := none
            nscount := 0, nsrecs := none
            arcount := 0, additional := none }
        let ret := compute_reply E in_packet
        let out_packet : dns_name_packet :=
          match ret with
          | Except.ok r =>
            { out_packet with
              ancount := r.ancount, answers := r.answers
              nscount := r.nscount, nsrecs := r.nsrecs
              arcount := r.arcount, additional := r.additional }
          | Except.error _ => out_packet
        match E.ndr_push out_packet with
        | none =>
          some { status := NT_STATUS_INTERNAL_ERROR, pulled := some inp, reply := some ret,
                 pushed := some out_packet, out := none }
        | some bytes =>
          some { status := NT_STATUS_OK, pulled := some inp, reply := some ret,
                 pushed := some out_packet,
                 out := some { data := bytes, length := bytes.length } }

/-! ## The stream handler -/

/-- A `struct iovec`: `iov_base` is the memory from the pointer on. -/
structure iovec where
  iov_base : List Nat
  iov_len : Nat
  deriving DecidableEq, Repr

/-- Number of values of a `size_t` (64 bits). -/
def SIZE_T_RANGE : Nat := 2 ^ 64

/-- Modelled from the spec: the byte order macros are defined in byteorder.h, which is
not part of the sources. `RSIVAL(buf, 0, val)` stores the low 32 bits of `val` in
`buf[0..3]`, most significant byte first (the spec's 4-byte big-endian length). -/
def RSIVAL (val : Nat) : List Nat :=
  let v := val % 2 ^ 32
  [v / 2 ^ 24 % 256, v / 2 ^ 16 % 256, v / 2 ^ 8 % 256, v % 256]

/-- The two statements under the comment `skip length header` of `dns_tcp_call_loop`:
`call->in.data += 4; call->in.length -= 4;`. -/
def skip_length_header (b : DATA_BLOB) : DATA_BLOB :=
  { data := b.data.drop 4
    length := (b.length + SIZE_T_RANGE - 4) % SIZE_T_RANGE }

/-- The calls that `dns_tcp_call_loop` makes, in program order. -/
inductive tcp_action
  | terminate_connection (reason : String)
  | process (inp : DATA_BLOB)
  | writev_queue_send (iov : List iovec)
  | set_callback_writev_done
  | read_pdu_blob_send (initial_read_size : Nat)
  | set_callback_call_loop
  deriving DecidableEq, Repr

/-- What `dns_tcp_call_loop` obtains from outside the file. -/
structure tcp_env where
  /-- `talloc(dns_conn, struct dns_tcp_call)` returned memory -/
  call_ok : Bool
  /-- status of `tstream_read_pdu_blob_recv` -/
  recv_status : NTSTATUS
  /-- the blob that `tstream_read_pdu_blob_recv` stored in `call->in` -/
  recv_blob : DATA_BLOB
  /-- `talloc_asprintf` of the termination reason returned memory -/
  asprintf_ok : Bool
  /-- the function `nt_errstr` -/
  nt_errstr : NTSTATUS → String
  /-- the environment of `dns_process` -/
  dns : dns_env
  /-- `tstream_writev_queue_send` returned a request -/
  writev_send_ok : Bool
  /-- `tstream_read_pdu_blob_send` returned a request -/
  read_send_ok : Bool

open tcp_action in
/-- The function `dns_tcp_call_loop`: the calls it makes. `none` is undefined behaviour
(inherited from `dns_process`, or reading `call->out` when it was not written). -/
def dns_tcp_call_loop (T : tcp_env) : Option (List tcp_action) :=
  if T.call_ok = false then
    some [terminate_connection "dns_tcp_call_loop: no memory for dns_tcp_call"]
  else if NT_STATUS_IS_OK T.recv_status = false then
    let reason :=
      if T.asprintf_ok then
        "dns_tcp_call_loop: tstream_read_pdu_blob_recv() - " ++ T.nt_errstr T.recv_status
      else T.nt_errstr T.recv_status
    some [terminate_connection reason]
  else
    let call_in := skip_length_header T.recv_blob
    match dns_process T.dns call_in with
    | none => none
    | some r =>
      if NT_STATUS_IS_OK r.status = false then
        some [process call_in,
              terminate_connection "dns_tcp_call_loop: process function failed"]
      else
        match r.out with
        | none => none
        | some call_out =>
          let out_hdr := RSIVAL call_out.length
          let out_iov : List iovec :=
            [ { iov_base := out_hdr, iov_len := 4 },
              { iov_base := call_out.data, iov_len := call_out.length } ]
          let done := [process call_in, writev_queue_send (out_iov.take 2)]
          if T.writev_send_ok = false then
            some (done ++ [terminate_connection
              "dns_tcp_call_loop: no memory for tstream_writev_queue_send"])
          else
            let done := done ++ [set_callback_writev_done, read_pdu_blob_send 4]
            if T.read_send_ok = false then
              some (done ++ [terminate_connection
                "dns_tcp_call_loop: no memory for tstream_read_pdu_blob_send"])
            else some (done ++ [set_callback_call_loop])

/-! ## Observations on the calls of the stream handler -/

/-- The I/O vectors of the `tstream_writev_queue_send` calls among `acts`. -/
def writev_calls : List tcp_action → List (List iovec)
  | [] => []
  | tcp_action.writev_queue_send iov :: rest => iov :: writev_calls rest
  | _ :: rest => writev_calls rest

/-- The blobs of the `dns_process` calls among `acts`. -/
def process_calls : List tcp_action → List DATA_BLOB
  | [] => []
  | tcp_action.process b :: rest => b :: process_calls rest
  | _ :: rest => process_calls rest

/-- The number of `tstream_read_pdu_blob_send` calls among `acts`. -/
def read_calls : List tcp_action → Nat
  | [] => 0
  | tcp_action.read_pdu_blob_send _ :: rest => read_calls rest + 1
  | _ :: rest => read_calls rest

/-- The number of `dns_tcp_terminate_connection` calls among `acts`. -/
def terminate_calls : List tcp_action → Nat
  | [] => 0
  | tcp_action.terminate_connection _ :: rest => terminate_calls rest + 1
  | _ :: rest => terminate_calls rest

/-- The number that a byte sequence denotes when read most significant byte first. -/
def big_endian_value (bytes : List Nat) : Nat :=
  bytes.foldl (fun acc b => acc * 256 + b) 0


/-! ## Completion of a queued write, and accepting a stream connection -/

/-- What `dns_tcp_call_writev_done` obtains from outside the file. -/
structure writev_done_env where
  /-- the result of `tstream_writev_queue_recv` -/
  rc : Int
  /-- the value it stored in `sys_errno` -/
  sys_errno : Int
  /-- the function `strerror` -/
  strerror : Int → String
  /-- `talloc_asprintf` of the termination reason returned memory -/
  asprintf_ok : Bool

/-- The function `dns_tcp_call_writev_done`: the calls it makes. Releasing memory
(`TALLOC_FREE(subreq)`, `talloc_free(call)`) is not among the recorded calls, as in
`dns_tcp_call_loop`. -/
def dns_tcp_call_writev_done (W : writev_done_env) : List tcp_action :=
  if W.rc = -1 then
    let reason :=
      if W.asprintf_ok then
        "dns_tcp_call_writev_done: tstream_writev_queue_recv() - " ++ toString W.sys_errno
          ++ ":" ++ W.strerror W.sys_errno
      else "dns_tcp_call_writev_done: tstream_writev_queue_recv() failed"
    [tcp_action.terminate_connection reason]
  else []

/-- The calls that `dns_tcp_accept` makes, in program order. -/
inductive accept_action
  | terminate_connection (reason : String)
  | queue_create (name : String)
  | bsd_existing_socket
  | read_pdu_blob_send (initial_read_size : Nat)
  | set_callback_call_loop
  deriving DecidableEq, Repr

/-- What `dns_tcp_accept` obtains from outside the file. -/
structure accept_env where
  /-- `talloc_zero(conn, struct dns_tcp_connection)` returned memory -/
  dns_conn_ok : Bool
  /-- `tevent_queue_create` returned a queue -/
  queue_ok : Bool
  /-- the result of `tstream_bsd_existing_socket` -/
  existing_socket_rc : Int
  /-- `tstream_read_pdu_blob_send` returned a request -/
  read_send_ok : Bool

open accept_action in
/-- The function `dns_tcp_accept`: the calls it makes. -/
def dns_tcp_accept (A : accept_env) : List accept_action :=
  if A.dns_conn_ok = false then
    [terminate_connection "dns_tcp_accept: out of memory"]
  else
    let done := [queue_create "dns_tcp_accept"]
    if A.queue_ok = false then
      done ++ [terminate_connection "dns_tcp_accept: out of memory"]
    else
      let done := done ++ [bsd_existing_socket]
      if A.existing_socket_rc < 0 then
        done ++ [terminate_connection "dns_tcp_accept: out of memory"]
      else
        let done := done ++ [read_pdu_blob_send 4]
        if A.read_send_ok = false then
          done ++ [terminate_connection
            "dns_tcp_accept: no memory for tstream_read_pdu_blob_send"]
        else done ++ [set_callback_call_loop]

/-! ## One stream connection over time -/

/-- Modelled from the spec: the event loop and the send queue (tevent, tstream) are not
part of the sources. A connection is what the calls of `dns_tcp_accept` and
`dns_tcp_call_loop` leave behind: the number of send queues created for it, the I/O
vectors handed to `tstream_writev_queue_send` on `dns_conn->send_queue`, oldest first,
the number of reads requested and not yet completed, and whether it was terminated. -/
structure tcp_connection where
  queues_created : Nat
  send_queue : List (List iovec)
  reads_pending : Nat
  terminated : Bool
  deriving DecidableEq, Repr

/-- The effect of one call of `dns_tcp_accept` on the connection. -/
def tcp_connection.after_accept (c : tcp_connection) : accept_action → tcp_connection
  | accept_action.terminate_connection _ => { c with terminated := true }
  | accept_action.queue_create _ => { c with queues_created := c.queues_created + 1 }
  | accept_action.read_pdu_blob_send _ => { c with reads_pending := c.reads_pending + 1 }
  | _ => c

/-- The effect of one call of `dns_tcp_call_loop` on the connection. -/
def tcp_connection.after_call (c : tcp_connection) : tcp_action → tcp_connection
  | tcp_action.terminate_connection _ => { c with terminated := true }
  | tcp_action.writev_queue_send iov => { c with send_queue := c.send_queue ++ [iov] }
  | tcp_action.read_pdu_blob_send _ => { c with reads_pending := c.reads_pending + 1 }
  | _ => c

/-- The connection that `dns_tcp_accept` sets up. -/
def tcp_connection_accepted (A : accept_env) : tcp_connection :=
  (dns_tcp_accept A).foldl tcp_connection.after_accept
    { queues_created := 0, send_queue := [], reads_pending := 0, terminated := false }

/-- Modelled from the spec: the event loop is not part of the sources. Each completed
read, in order, runs `dns_tcp_call_loop` once, as long as the connection is not
terminated and a read is pending; `Ts` holds what each run finds. `none` is undefined
behaviour in one of the runs. -/
def tcp_connection_run (c : tcp_connection) : List tcp_env → Option tcp_connection
  | [] => some c
  | T :: rest =>
    if c.terminated = true ∨ c.reads_pending = 0 then some c
    else
      match dns_tcp_call_loop T with
      | none => none
      | some acts =>
        tcp_connection_run
          (acts.foldl tcp_connection.after_call { c with reads_pending := c.reads_pending - 1 })
          rest

/-- The bytes of one I/O vector element. -/
def iovec.bytes (v : iovec) : List Nat :=
  v.iov_base.take v.iov_len

/-- Modelled from the spec: the send queue is not part of the sources. A FIFO queue
that writes each entry completely before the next puts on the wire the bytes of its
entries, segment after segment, in the order in which they were enqueued. -/
def fifo_wire (queue : List (List iovec)) : List Nat :=
  (queue.map (fun entry => (entry.map iovec.bytes).flatten)).flatten

/-- The I/O vectors that one run of `dns_tcp_call_loop` hands to
`tstream_writev_queue_send`. -/
def tcp_writes (T : tcp_env) : List (List iovec) :=
  match dns_tcp_call_loop T with
  | none => []
  | some acts => writev_calls acts

/-- One run of `dns_tcp_call_loop` in which nothing fails: the call is allocated, the
read completed without error, `dns_process` returned `NT_STATUS_OK`, and both the write
request and the next read request were created. -/
def tcp_run_succeeds (T : tcp_env) : Bool :=
  T.call_ok && NT_STATUS_IS_OK T.recv_status &&
    (match dns_process T.dns (skip_length_header T.recv_blob) with
     | none => false
     | some r => NT_STATUS_IS_OK r.status) &&
    T.writev_send_ok && T.read_send_ok

/-- An accept in which nothing fails. -/
def accept_succeeds (A : accept_env) : Bool :=
  A.dns_conn_ok && A.queue_ok && decide (0 ≤ A.existing_socket_rc) && A.read_send_ok

/-! ## The datagram handler -/

/-- The calls that `dns_udp_call_loop` and `dns_udp_call_sendto_done` make, in program
order. `dgram` identifies the datagram socket a receive is requested on. -/
inductive udp_action
  | talloc_free_call
  | process (inp : DATA_BLOB)
  | sendto_queue_send (data : List Nat) (length : Nat) (dst : String)
  | set_callback_sendto_done
  | recvfrom_send (dgram : Nat)
  | task_server_terminate (reason : String) (fatal : Bool)
  | set_callback_call_loop
  deriving DecidableEq, Repr

/-- What `dns_udp_call_loop` obtains from outside the file. -/
structure udp_env where
  /-- the datagram socket `sock->dgram` on which the completed receive was requested -/
  dgram : Nat
  /-- `talloc(sock, struct dns_udp_call)` returned memory -/
  call_ok : Bool
  /-- the result of `tdgram_recvfrom_recv`: -1 or the length of the datagram -/
  recv_len : Int
  /-- the buffer it returned -/
  recv_buf : List Nat
  /-- the source address it stored in `call->src` -/
  recv_src : String
  /-- the environment of `dns_process` -/
  dns : dns_env
  /-- `tdgram_sendto_queue_send` returned a request -/
  sendto_ok : Bool
  /-- `tdgram_recvfrom_send` returned a request -/
  recvfrom_ok : Bool

open udp_action in
/-- The statements of `dns_udp_call_loop` after the label `done`. -/
def dns_udp_call_loop_done (U : udp_env) : List udp_action :=
  if U.recvfrom_ok = false then
    [recvfrom_send U.dgram,
     task_server_terminate "no memory for tdgram_recvfrom_send" true]
  else [recvfrom_send U.dgram, set_callback_call_loop]

/-- The blob that `dns_udp_call_loop` builds from the received datagram:
`call->in.data = buf; call->in.length = len;` (a `ssize_t` stored in a `size_t`). -/
def udp_call_in (U : udp_env) : DATA_BLOB :=
  { data := U.recv_buf
    length := (U.recv_len % (SIZE_T_RANGE : Int)).toNat }

open udp_action in
/-- The function `dns_udp_call_loop`: the calls it makes. `none` is undefined behaviour
(inherited from `dns_process`, or reading `call->out` when it was not written). -/
def dns_udp_call_loop (U : udp_env) : Option (List udp_action) :=
  if U.call_ok = false then
    some ([talloc_free_call] ++ dns_udp_call_loop_done U)
  else if U.recv_len = -1 then
    some ([talloc_free_call] ++ dns_udp_call_loop_done U)
  else
    let call_in := udp_call_in U
    match dns_process U.dns call_in with
    | none => none
    | some r =>
      if NT_STATUS_IS_OK r.status = false then
        some ([process call_in, talloc_free_call] ++ dns_udp_call_loop_done U)
      else
        match r.out with
        | none => none
        | some call_out =>
          let done :=
            [process call_in, sendto_queue_send call_out.data call_out.length U.recv_src]
          if U.sendto_ok = false then
            some (done ++ [talloc_free_call] ++ dns_udp_call_loop_done U)
          else
            some (done ++ [set_callback_sendto_done] ++ dns_udp_call_loop_done U)

/-- The function `dns_udp_call_sendto_done`: `ret` and `sys_errno` are what
`tdgram_sendto_queue_recv` returned; the function does not look at them. -/
def dns_udp_call_sendto_done (_ret : Int) (_sys_errno : Int) : List udp_action :=
  [udp_action.talloc_free_call]

/-! ## Observations on the calls of the datagram handler -/

/-- The arguments of the `tdgram_sendto_queue_send` calls among `acts`. -/
def sendto_calls : List udp_action → List (List Nat × Nat × String)
  | [] => []
  | udp_action.sendto_queue_send d n a :: rest => (d, n, a) :: sendto_calls rest
  | _ :: rest => sendto_calls rest

/-- The sockets of the `tdgram_recvfrom_send` calls among `acts`. -/
def recvfrom_calls : List udp_action → List Nat
  | [] => []
  | udp_action.recvfrom_send s :: rest => s :: recvfrom_calls rest
  | _ :: rest => recvfrom_calls rest

/-- The number of `task_server_terminate` calls among `acts`. -/
def task_terminate_calls : List udp_action → Nat
  | [] => 0
  | udp_action.task_server_terminate _ _ :: rest => task_terminate_calls rest + 1
  | _ :: rest => task_terminate_calls rest

/-- The number of times `dns_udp_call_loop` is set as a completion callback among
`acts`. -/
def callback_call_loop_calls : List udp_action → Nat
  | [] => 0
  | udp_action.set_callback_call_loop :: rest => callback_call_loop_calls rest + 1
  | _ :: rest => callback_call_loop_calls rest

/-- The blobs of the `dns_process` calls among `acts`. -/
def udp_process_calls : List udp_action → List DATA_BLOB
  | [] => []
  | udp_action.process b :: rest => b :: udp_process_calls rest
  | _ :: rest => udp_process_calls rest

/-! ## Socket setup -/

/-- Modelled from the spec: the constant is defined in dns_server.h, which is not part
of the sources; the value is the standard port of the name-resolution service. -/
def DNS_SERVICE_PORT : Nat := 53

/-- The calls that `dns_add_socket` makes, in program order. An address is a C string
pointer (`none` is `NULL`); a socket address is the address and port it was built
from. -/
inductive add_socket_action
  | address_inet_from_strings (address : Option String) (port : Nat)
  | stream_setup_socket (address : Option String) (port : Nat)
  | talloc_free_dns_socket
  | inet_udp_socket (local_address : Option String × Nat)
  | queue_create (name : String)
  | recvfrom_send
  | set_callback_udp_call_loop
  deriving DecidableEq, Repr

/-- What `dns_add_socket` obtains from outside the file. -/
structure add_socket_env where
  /-- `talloc(dns, struct dns_socket)` returned memory -/
  dns_socket_ok : Bool
  /-- the result of `tsocket_address_inet_from_strings` -/
  address_ret : Int
  /-- the value of `errno` after it -/
  address_errno : Int
  /-- the function `map_nt_error_from_unix` -/
  map_nt_error_from_unix : Int → NTSTATUS
  /-- the result of `stream_setup_socket` -/
  stream_status : NTSTATUS
  /-- `talloc(dns_socket, struct dns_udp_socket)` returned memory -/
  udp_socket_ok : Bool
  /-- the result of `tdgram_inet_udp_socket` -/
  bind_ret : Int
  /-- the value of `errno` after it -/
  bind_errno : Int
  /-- `tevent_queue_create` returned a queue -/
  queue_ok : Bool
  /-- `tdgram_recvfrom_send` returned a request -/
  recvfrom_ok : Bool

open add_socket_action in
/-- The function `dns_add_socket`: the returned status and the calls it makes. -/
def dns_add_socket (S : add_socket_env) (address : Option String) (port : Nat) :
    NTSTATUS × List add_socket_action :=
  if S.dns_socket_ok = false then (NT_STATUS_NO_MEMORY, [])
  else
    let done := [address_inet_from_strings address port]
    if S.address_ret ≠ 0 then (S.map_nt_error_from_unix S.address_errno, done)
    else
      let done := done ++ [stream_setup_socket address port]
      if NT_STATUS_IS_OK S.stream_status = false then
        (S.stream_status, done ++ [talloc_free_dns_socket])
      else if S.udp_socket_ok = false then (NT_STATUS_NO_MEMORY, done)
      else
        let done := done ++ [inet_udp_socket (address, port)]
        if S.bind_ret ≠ 0 then (S.map_nt_error_from_unix S.bind_errno, done)
        else
          let done := done ++ [queue_create "dns_udp_send_queue"]
          if S.queue_ok = false then (NT_STATUS_NO_MEMORY, done)
          else
            let done := done ++ [recvfrom_send]
            if S.recvfrom_ok = false then (NT_STATUS_NO_MEMORY, done)
            else (NT_STATUS_OK, done ++ [set_callback_udp_call_loop])

/-- One call of `dns_add_socket` made by `dns_startup_interfaces`: its arguments, the
status it returned and the calls it made. -/
structure add_socket_call where
  address : Option String
  port : Nat
  status : NTSTATUS
  actions : List add_socket_action
  deriving DecidableEq, Repr

/-- What `dns_startup_interfaces` obtains from outside the file. -/
structure startup_env where
  /-- `process_model_startup` found the `single` process model -/
  model_ops_found : Bool
  /-- the addresses `iface_n_ip(ifaces, i)`, for `i` below `iface_count(ifaces)` -/
  ifaces : List String
  /-- `talloc_strdup` of the address with index `i` returned memory -/
  strdup_ok : Nat → Bool
  /-- the environment of the call of `dns_add_socket` for the address with index `i` -/
  socket : Nat → add_socket_env

/-- The call of `dns_add_socket` in the loop body of `dns_startup_interfaces`, for the
interface with index `i` and address `ip`. -/
def startup_call (E : startup_env) (i : Nat) (ip : String) : add_socket_call :=
  let address := talloc_strdup (E.strdup_ok i) ip
  let r := dns_add_socket (E.socket i) address DNS_SERVICE_PORT
  { address := address, port := DNS_SERVICE_PORT, status := r.1, actions := r.2 }

/-- The loop of `dns_startup_interfaces` over the addresses that remain, the next index
being `i`. -/
def dns_startup_interfaces_loop (E : startup_env) :
    List String → Nat → NTSTATUS × List add_socket_call
  | [], _ => (NT_STATUS_OK, [])
  | ip :: rest, i =>
    let call := startup_call E i ip
    if NT_STATUS_IS_OK call.status = false then (call.status, [call])
    else
      let r := dns_startup_interfaces_loop E rest (i + 1)
      (r.1, call :: r.2)

/-- The function `dns_startup_interfaces`: the returned status and the calls of
`dns_add_socket` it makes. -/
def dns_startup_interfaces (E : startup_env) : NTSTATUS × List add_socket_call :=
  if E.model_ops_found = false then (NT_STATUS_INTERNAL_ERROR, [])
  else dns_startup_interfaces_loop E E.ifaces 0

/-- One call of `dns_add_socket` for every configured interface address, in index
order: what `dns_startup_interfaces` does when no call fails. -/
def startup_calls_all (E : startup_env) : List add_socket_call :=
  (E.ifaces.enumFrom 0).map (fun p => startup_call E p.1 p.2)

/-! ## The message codec -/

/-- Modelled from the spec: the generated NDR codec (`ndr_pull_dns_name_packet`,
`ndr_push_dns_name_packet`) is not part of the sources, and the spec leaves the wire
form of two kinds of field to the implementation: domain names (label sequences,
written uncompressed) and rdata (a variant chosen by the record type). These are the
writers and readers of those fields; a reader returns the value and the bytes that
follow it, or fails. -/
structure field_codec where
  put_name : String → List Nat
  get_name : List Nat → Option (String × List Nat)
  put_rdata : Nat → dns_rdata → List Nat
  get_rdata : Nat → List Nat → Option (dns_rdata × List Nat)

/-- Modelled from the spec: a 16-bit field (ids, flags, counts, types, classes), most
significant byte first. -/
def put_u16 (v : Nat) : List Nat :=
  [v / 256 % 256, v % 256]

/-- Modelled from the spec: reading a 16-bit field; fails (truncated) when fewer than
two bytes remain. -/
def get_u16 : List Nat → Option (Nat × List Nat)
  | a :: b :: rest => some (a % 256 * 256 + b % 256, rest)
  | _ => none

/-- Modelled from the spec: the 32-bit TTL, most significant byte first. -/
def put_u32 (v : Nat) : List Nat :=
  [v / 2 ^ 24 % 256, v / 2 ^ 16 % 256, v / 2 ^ 8 % 256, v % 256]

/-- Modelled from the spec: reading the 32-bit TTL; fails (truncated) when fewer than
four bytes remain. -/
def get_u32 : List Nat → Option (Nat × List Nat)
  | a :: b :: c :: d :: rest =>
    some (((a % 256 * 256 + b % 256) * 256 + c % 256) * 256 + d % 256, rest)
  | _ => none

/-- Modelled from the spec: a question on the wire is its name, type and class. -/
def put_question (F : field_codec) (q : dns_name_question) : List Nat :=
  F.put_name q.name ++ (put_u16 q.question_type ++ put_u16 q.question_class)

/-- Modelled from the spec: reading one question. -/
def get_question (F : field_codec) (bytes : List Nat) :
    Option (dns_name_question × List Nat) :=
  match F.get_name bytes with
  | none => none
  | some (name, b1) =>
    match get_u16 b1 with
    | none => none
    | some (qtype, b2) =>
      match get_u16 b2 with
      | none => none
      | some (qclass, b3) =>
        some ({ name := name, question_type := qtype, question_class := qclass }, b3)

/-- Modelled from the spec: a resource record on the wire is its name, type, class,
TTL and the rdata variant of its type. A `NULL` name is written as the empty name. -/
def put_res_rec (F : field_codec) (r : dns_res_rec) : List Nat :=
  F.put_name (r.name.getD "") ++
    (put_u16 r.rr_type ++ (put_u16 r.rr_class ++ (put_u32 r.ttl ++
      F.put_rdata r.rr_type r.rdata)))

/-- Modelled from the spec: reading one resource record. -/
def get_res_rec (F : field_codec) (bytes : List Nat) : Option (dns_res_rec × List Nat) :=
  match F.get_name bytes with
  | none => none
  | some (name, b1) =>
    match get_u16 b1 with
    | none => none
    | some (rtype, b2) =>
      match get_u16 b2 with
      | none => none
      | some (rclass, b3) =>
        match get_u32 b3 with
        | none => none
        | some (ttl, b4) =>
          match F.get_rdata rtype b4 with
          | none => none
          | some (rdata, b5) =>
            some ({ name := some name, rr_type := rtype, rr_class := rclass, ttl := ttl,
                    rdata := rdata }, b5)

/-- Modelled from the spec: writing a section, element after element. -/
def put_many {α : Type} (put : α → List Nat) (xs : List α) : List Nat :=
  (xs.map put).flatten

/-- Modelled from the spec: reading a section of `n` elements; fails when the declared
count cannot be satisfied by the remaining bytes. -/
def get_many {α : Type} (get : List Nat → Option (α × List Nat)) :
    Nat → List Nat → Option (List α × List Nat)
  | 0, bytes => some ([], bytes)
  | n + 1, bytes =>
    match get bytes with
    | none => none
    | some (x, b1) =>
      match get_many get n b1 with
      | none => none
      | some (xs, b2) => some (x :: xs, b2)

/-- Modelled from the spec: `encode`, the function `ndr_push_dns_name_packet`, which is
not part of the sources. The header (id, flags and the four counts, each the length of
its section) is followed by the question section and the three resource-record
sections. -/
def ndr_push_dns_name_packet (F : field_codec) (m : dns_name_packet) : List Nat :=
  put_u16 m.id ++ (put_u16 m.operation ++
    (put_u16 (array_length m.questions) ++ (put_u16 (array_length m.answers) ++
    (put_u16 (array_length m.nsrecs) ++ (put_u16 (array_length m.additional) ++
    (put_many (put_question F) (m.questions.getD []) ++
    (put_many (put_res_rec F) (m.answers.getD []) ++
    (put_many (put_res_rec F) (m.nsrecs.getD []) ++
     put_many (put_res_rec F) (m.additional.getD [])))))))))

/-- Modelled from the spec: `decode`, the function `ndr_pull_dns_name_packet`, which is
not part of the sources. It reads the header, then as many questions and as many
records of each section as the header declares; `none` is a decode error. -/
def ndr_pull_dns_name_packet (F : field_codec) (bytes : List Nat) : Option dns_name_packet :=
  match get_u16 bytes with
  | none => none
  | some (id, b1) =>
    match get_u16 b1 with
    | none => none
    | some (operation, b2) =>
      match get_u16 b2 with
      | none => none
      | some (qdcount, b3) =>
        match get_u16 b3 with
        | none => none
        | some (ancount, b4) =>
          match get_u16 b4 with
          | none => none
          | some (nscount, b5) =>
            match get_u16 b5 with
            | none => none
            | some (arcount, b6) =>
              match get_many (get_question F) qdcount b6 with
              | none => none
              | some (questions, b7) =>
                match get_many (get_res_rec F) ancount b7 with
                | none => none
                | some (answers, b8) =>
                  match get_many (get_res_rec F) nscount b8 with
                  | none => none
                  | some (nsrecs, b9) =>
                    match get_many (get_res_rec F) arcount b9 with
                    | none => none
                    | some (additional, _) =>
                      some { id := id, operation := operation, qdcount := qdcount,
                             ancount := ancount, nscount := nscount, arcount := arcount,
                             questions := some questions, answers := some answers,
                             nsrecs := some nsrecs, additional := some additional }

/-- Modelled from the spec: the round-trip law of §4.1 for the name codec: a name that was read is read back from what
is written for it. -/
def name_round_trip (F : field_codec) : Prop :=
  ∀ bytes name rest, F.get_name bytes = some (name, rest) →
    ∀ rest1, F.get_name (F.put_name name ++ rest1) = some (name, rest1)

/-- Modelled from the spec: the round-trip law of §4.1 for the rdata codec, for every record type. -/
def rdata_round_trip (F : field_codec) : Prop :=
  ∀ rtype bytes rdata rest, F.get_rdata rtype bytes = some (rdata, rest) →
    ∀ rest1, F.get_rdata rtype (F.put_rdata rtype rdata ++ rest1) = some (rdata, rest1)

/-! ## Concrete environments -/

/-- The record that `handle_question` writes when both string copies succeed. -/
def fixed_record : dns_res_rec :=
  { name := some "example.com", rr_type := DNS_QTYPE_A, rr_class := DNS_QCLASS_IP, ttl := 0,
    rdata := dns_rdata.ipv4_record (some "127.0.0.1") }

/-- A record slot whose memory holds zero bytes. -/
def zero_record : dns_res_rec :=
  { name := none, rr_type := 0, rr_class := 0, ttl := 0, rdata := dns_rdata.raw [0, 0, 0, 0] }

/-- A question for `example.com`, type A, class IN. -/
def sample_question : dns_name_question :=
  { name := "example.com", question_type := DNS_QTYPE_A, question_class := DNS_QCLASS_IP }

/-- A request with transaction id 0x1234 that asks `sample_question` `n` times. -/
def sample_request (n : Nat) : dns_name_packet :=
  { id := 0x1234, operation := 0x0100, qdcount := n, ancount := 0, nscount := 0, arcount := 0
    questions := some (List.replicate n sample_question)
    answers := none, nsrecs := none, additional := none }

/-- An environment in which every allocation succeeds except the reallocs that
`realloc_ok` refuses. Its decoder reads a one-byte question count followed by one byte
for each question and rejects a buffer that is empty or holds fewer question bytes than
the count says; its encoder writes the id and the four counts. Fresh memory holds zero
bytes. -/
def sample_env (realloc_ok : Nat → Bool) : dns_env :=
  { in_packet_ok := true, out_packet_ok := true
    ndr_pull := fun b =>
      match b.data.take b.length with
      | [] => none
      | n :: rest => if rest.length < n then none else some (sample_request n)
    ndr_push := fun pk =>
      some [pk.id / 256, pk.id % 256, pk.qdcount, pk.ancount, pk.nscount, pk.arcount]
    array_ok := true
    realloc_ok := realloc_ok
    strdup_name_ok := fun _ => true
    strdup_rdata_ok := fun _ => true
    junk := fun _ _ => zero_record }

/-- A buffer that `sample_env` decodes into a request with `n` questions. -/
def sample_blob (n : Nat) : DATA_BLOB :=
  { data := n :: List.replicate n 0, length := n + 1 }

/-- A stream environment around `sample_env` in which the read delivered `pdu` and every
allocation succeeds. -/
def sample_tcp_env (pdu : List Nat) : tcp_env :=
  { call_ok := true
    recv_status := NT_STATUS_OK
    recv_blob := { data := pdu, length := pdu.length }
    asprintf_ok := true
    nt_errstr := fun _ => "NT_STATUS"
    dns := sample_env (fun _ => true)
    writev_send_ok := true
    read_send_ok := true }

/-- A stream environment in which the read completed with the error `status`. -/
def sample_tcp_read_error (status : NTSTATUS) : tcp_env :=
  { sample_tcp_env [] with recv_status := status }

/-- A write completion with result `rc` and error number 104. -/
def sample_writev_done (rc : Int) : writev_done_env :=
  { rc := rc, sys_errno := 104, strerror := fun _ => "Connection reset by peer",
    asprintf_ok := true }

/-- An accept in which every allocation succeeds. -/
def sample_accept : accept_env :=
  { dns_conn_ok := true, queue_ok := true, existing_socket_rc := 0, read_send_ok := true }

/-- A datagram environment around `sample_env`: the receive on socket 7 returned `len`
and the buffer `buf` from `192.0.2.1`; the next receive request is allocated exactly
when `recvfrom_ok` says so, every other allocation succeeds. -/
def sample_udp_env (buf : List Nat) (len : Int) (recvfrom_ok : Bool) : udp_env :=
  { dgram := 7
    call_ok := true
    recv_len := len
    recv_buf := buf
    recv_src := "192.0.2.1"
    dns := sample_env (fun _ => true)
    sendto_ok := true
    recvfrom_ok := recvfrom_ok }

/-- A socket setup in which every step succeeds. -/
def sample_add_socket_env : add_socket_env :=
  { dns_socket_ok := true
    address_ret := 0
    address_errno := 0
    map_nt_error_from_unix := fun _ => NTSTATUS.other 0xC0000001
    stream_status := NT_STATUS_OK
    udp_socket_ok := true
    bind_ret := 0
    bind_errno := 0
    queue_ok := true
    recvfrom_ok := true }

/-- A startup over three interface addresses in which the stream listener of the
address with index `bad` cannot be set up (none, when `bad` is 3 or more). -/
def sample_startup_env (model_ops_found : Bool) (bad : Nat) : startup_env :=
  { model_ops_found := model_ops_found
    ifaces := ["192.0.2.1", "192.0.2.2", "192.0.2.3"]
    strdup_ok := fun _ => true
    socket := fun i =>
      if i = bad then { sample_add_socket_env with stream_status := NTSTATUS.other 0xC000000A }
      else sample_add_socket_env }

/-- For the examples: the decimal digits of a byte, as character codes. -/
def fmt_byte (n : Nat) : List Nat :=
  if n < 10 then [48 + n]
  else if n < 100 then [48 + n / 10, 48 + n % 10]
  else [48 + n / 100, 48 + n / 10 % 10, 48 + n % 10]

/-- For the examples: the number that a non-empty sequence of decimal digits denotes. -/
def parse_dec : List Nat → Option Nat
  | [] => none
  | d :: ds =>
    (d :: ds).foldl
      (fun acc c =>
        match acc with
        | none => none
        | some a => if 48 ≤ c ∧ c ≤ 57 then some (a * 10 + (c - 48)) else none)
      (some 0)

/-- For the examples: the pieces of a sequence between the occurrences of `sep`. -/
def split_on (sep : Nat) : List Nat → List (List Nat)
  | [] => [[]]
  | x :: xs =>
    if x = sep then [] :: split_on sep xs
    else
      match split_on sep xs with
      | [] => [[x]]
      | l :: ls => (x :: l) :: ls

/-- For the examples: the pieces put together again, with `sep` between them. -/
def join_with (sep : Nat) : List (List Nat) → List Nat
  | [] => []
  | [l] => l
  | l :: l1 :: ls => l ++ sep :: join_with sep (l1 :: ls)

/-- For the examples: the dotted-quad text of an IPv4 address, as character codes. -/
def fmt_quad (a b c d : Nat) : List Nat :=
  fmt_byte a ++ 46 :: (fmt_byte b ++ 46 :: (fmt_byte c ++ 46 :: fmt_byte d))

/-- For the examples: the four bytes of an IPv4 address given as dotted-quad text. -/
def parse_quad (cs : List Nat) : Option (List Nat) :=
  match split_on 46 cs with
  | [x1, x2, x3, x4] =>
    match parse_dec x1, parse_dec x2, parse_dec x3, parse_dec x4 with
    | some a, some b, some c, some d =>
      if a < 256 ∧ b < 256 ∧ c < 256 ∧ d < 256 then some [a, b, c, d] else none
    | _, _, _, _ => none
  | _ => none

/-- For the examples: reading a domain name as a sequence of labels, each a length byte
followed by that many bytes, up to the zero length that ends the name. A label that
runs past the end of the buffer or contains a dot is rejected. `fuel` bounds the number
of labels. -/
def get_labels : Nat → List Nat → Option (List (List Nat) × List Nat)
  | 0, _ => none
  | _ + 1, [] => none
  | fuel + 1, n :: rest =>
    if n % 256 = 0 then some ([], rest)
    else if rest.length < n % 256 then none
    else if 46 ∈ (rest.take (n % 256)).map (fun b => b % 256) then none
    else
      match get_labels fuel (rest.drop (n % 256)) with
      | none => none
      | some (ls, r) => some ((rest.take (n % 256)).map (fun b => b % 256) :: ls, r)

/-- For the examples: writing a sequence of labels, ended by a zero length. -/
def put_labels (ls : List (List Nat)) : List Nat :=
  (ls.map (fun l => l.length :: l)).flatten ++ [0]

/-- For the examples: a label as `get_labels` accepts it: not empty, shorter than 256
bytes, without a dot, made of bytes. -/
def label_ok (l : List Nat) : Prop :=
  l ≠ [] ∧ l.length < 256 ∧ 46 ∉ l ∧ ∀ x ∈ l, x < 256

/-- A field codec for the examples, in the uncompressed form of the DNS wire format: a
name is the sequence of its labels (the pieces between the dots), each written as a
length byte and its bytes, ended by a zero byte; rdata is a 16-bit length followed by
that many bytes, which for a record of type A are the four bytes of the address, held as
dotted-quad text, and for every other type are kept as raw bytes. -/
def sample_field_codec : field_codec :=
  { put_name := fun s =>
      put_labels (if s.toList = [] then [] else split_on 46 (s.toList.map Char.toNat))
    get_name := fun bytes =>
      match get_labels bytes.length bytes with
      | none => none
      | some (ls, r) => some (String.mk ((join_with 46 ls).map Char.ofNat), r)
    put_rdata := fun _ d =>
      match d with
      | dns_rdata.raw l => put_u16 l.length ++ l
      | dns_rdata.ipv4_record none => put_u16 0
      | dns_rdata.ipv4_record (some s) =>
        match parse_quad (s.toList.map Char.toNat) with
        | none => put_u16 0
        | some l => put_u16 4 ++ l
    get_rdata := fun rtype bytes =>
      match get_u16 bytes with
      | none => none
      | some (len, rest) =>
        if rest.length < len then none
        else if rtype = DNS_QTYPE_A then
          match (rest.take len).map (fun b => b % 256) with
          | [a, b, c, d] =>
            some (dns_rdata.ipv4_record (some (String.mk ((fmt_quad a b c d).map Char.ofNat))),
                  rest.drop len)
          | _ => none
        else some (dns_rdata.raw ((rest.take len).map (fun b => b % 256)), rest.drop len) }

/-- The bytes of a response with id 0x1234: the question for `example.com`, type A,
class IN, and one answer for `example.com`, type A, class IN, TTL 0, address
127.0.0.1. -/
def sample_response_bytes : List Nat :=
  [0x12, 0x34, 0x84, 0x00, 0, 1, 0, 1, 0, 0, 0, 0,
   7, 101, 120, 97, 109, 112, 108, 101, 3, 99, 111, 109, 0, 0, 1, 0, 1,
   7, 101, 120, 97, 109, 112, 108, 101, 3, 99, 111, 109, 0, 0, 1, 0, 1,
   0, 0, 0, 0, 0, 4, 127, 0, 0, 1]

end DnsServer

/-! # The internal SAM backend of winbindd (source3/winbindd/winbindd_samr.c)

A shallow embedding of the pipe cache (`open_internal_samr_pipe`,
`open_internal_lsa_pipe`), of the connection helpers and of `sam_trusted_domains` and
`sam_lookup_groupmem`. The conventions are those of the DNS server above; a pointer to
a pipe is an `Option Nat`, the number naming the pipe.
-/

namespace WinbinddSamr

open DnsServer DnsServer.NTSTATUS

/-- The status `STATUS_MORE_ENTRIES`. -/
def STATUS_MORE_ENTRIES : NTSTATUS := NTSTATUS.other 0x00000105

/-- The status `STATUS_SOME_UNMAPPED`. -/
def STATUS_SOME_UNMAPPED : NTSTATUS := NTSTATUS.other 0x00000107

/-- The status `NT_STATUS_UNSUCCESSFUL`. -/
def NT_STATUS_UNSUCCESSFUL : NTSTATUS := NTSTATUS.other 0xC0000001

/-- The value `SID_NAME_UNKNOWN` of `enum lsa_SidType`, declared in the generated LSA
header, which is not part of the sources. -/
def SID_NAME_UNKNOWN : Nat := 8

/-- The macro `NT_STATUS_EQUAL`. -/
def NT_STATUS_EQUAL (a b : NTSTATUS) : Bool :=
  decide (a = b)

/-! ## The pipe cache -/

/-- The calls that the two pipe openers make; `interface` is the RPC interface whose
syntax id and dispatch function are passed (`samr` or `lsarpc`). -/
inductive pipe_call
  | make_server_info_system
  | rpc_pipe_open_internal (interface : String)
  deriving DecidableEq, Repr

/-- What one call of a pipe opener obtains from outside the file. -/
structure pipe_env where
  /-- the result of `make_server_info_system` -/
  server_info_status : NTSTATUS
  /-- the result of `rpc_pipe_open_internal` -/
  open_status : NTSTATUS
  /-- the value of `cli` after `rpc_pipe_open_internal`, which is given its address -/
  open_cli : Option Nat

/-- What one call of a pipe opener did. -/
structure pipe_result where
  /-- the returned status -/
  status : NTSTATUS
  /-- the static variable `cli` after the call -/
  cli : Option Nat
  /-- the pointer stored through the output parameter, when it was written -/
  out : Option (Option Nat)
  /-- the calls made -/
  calls : List pipe_call
  deriving DecidableEq, Repr

/-- The common text of `open_internal_samr_pipe` and `open_internal_lsa_pipe`, which
differ in the interface only. `cli` is the static variable before the call and
`out_ptr` tells whether the output parameter is non-`NULL`. The local `server_info` is
`NULL` when it is tested, so `make_server_info_system` is always called on this path. -/
def open_internal_pipe (interface : String) (cli : Option Nat) (E : pipe_env)
    (out_ptr : Bool) : pipe_result :=
  match cli with
  | some p =>
    { status := NT_STATUS_OK, cli := some p
      out := if out_ptr then some (some p) else none
      calls := [] }
  | none =>
    if NT_STATUS_IS_OK E.server_info_status = false then
      { status := E.server_info_status, cli := none, out := none
        calls := [pipe_call.make_server_info_system] }
    else if NT_STATUS_IS_OK E.open_status = false then
      { status := E.open_status, cli := E.open_cli, out := none
        calls := [pipe_call.make_server_info_system,
                  pipe_call.rpc_pipe_open_internal interface] }
    else
      { status := NT_STATUS_OK, cli := E.open_cli
        out := if out_ptr then some E.open_cli else none
        calls := [pipe_call.make_server_info_system,
                  pipe_call.rpc_pipe_open_internal interface] }

/-- The function `open_internal_samr_pipe`. -/
def open_internal_samr_pipe (cli : Option Nat) (E : pipe_env) (samr_pipe : Bool) :
    pipe_result :=
  open_internal_pipe "samr" cli E samr_pipe

/-- The function `open_internal_lsa_pipe`. -/
def open_internal_lsa_pipe (cli : Option Nat) (E : pipe_env) (lsa_pipe : Bool) :
    pipe_result :=
  open_internal_pipe "lsarpc" cli E lsa_pipe

/-- A sequence of calls of one pipe opener in one process: the static variable that a
call leaves is the one that the next call finds. Each element of `calls` is the
environment of a call and whether its output parameter is non-`NULL`. -/
def pipe_calls_run (opener : Option Nat → pipe_env → Bool → pipe_result) :
    Option Nat → List (pipe_env × Bool) → List pipe_result
  | _, [] => []
  | cli, (E, out_ptr) :: rest =>
    let r := opener cli E out_ptr
    r :: pipe_calls_run opener r.cli rest

/-- The contract of `rpc_pipe_open_internal`, which is not part of the sources: when it
returns `NT_STATUS_OK` it has stored a pipe. -/
def pipe_env.stores_pipe (E : pipe_env) : Prop :=
  E.open_status = NT_STATUS_OK → E.open_cli ≠ none

/-! ## Connections -/

/-- What `open_internal_samr_conn` and `open_internal_lsa_conn` obtain from outside
the file. -/
structure conn_env where
  /-- the environment of the pipe opener -/
  pipe : pipe_env
  /-- the result of `rpccli_samr_Connect2` (not used for LSA) -/
  connect_status : NTSTATUS
  /-- the result of `rpccli_samr_OpenDomain`, or of `rpccli_lsa_open_policy` -/
  open_status : NTSTATUS

/-- The function `open_internal_samr_conn`: the status, the static `cli` of
`open_internal_samr_pipe` after the call, and the pipe handed out. `none` is undefined
behaviour: the opener returned `NT_STATUS_OK` and stored `NULL`, and the argument
`(*samr_pipe)->desthost` of `rpccli_samr_Connect2` reads through it. -/
def open_internal_samr_conn (cli : Option Nat) (E : conn_env) :
    Option (NTSTATUS × Option Nat × Option Nat) :=
  let r := open_internal_samr_pipe cli E.pipe true
  if NT_STATUS_IS_OK r.status = false then some (r.status, r.cli, none)
  else
    match r.cli with
    | none => none
    | some p =>
      if NT_STATUS_IS_OK E.connect_status = false then
        some (E.connect_status, some p, some p)
      else some (E.open_status, some p, some p)

/-- The function `open_internal_lsa_conn`: the status, the static `cli` of
`open_internal_lsa_pipe` after the call, and the pipe handed out. The pipe is passed
on to `rpccli_lsa_open_policy` and not read here. -/
def open_internal_lsa_conn (cli : Option Nat) (E : conn_env) :
    NTSTATUS × Option Nat × Option Nat :=
  let r := open_internal_lsa_pipe cli E.pipe true
  if NT_STATUS_IS_OK r.status = false then (r.status, r.cli, none)
  else (E.open_status, r.cli, r.cli)

/-! ## Trusted domains -/

/-- A `struct dom_sid`, reduced to its list of authorities; the zeroed structure has
none. The type is declared outside the sources. -/
structure dom_sid where
  auths : List Nat
  deriving DecidableEq, Repr

/-- One entry of a `struct lsa_DomainList`: `name.string` (a pointer) and the SID that
`sid` points to. The type is declared outside the sources. -/
structure lsa_DomainInfo where
  name : Option String
  sid : dom_sid
  deriving DecidableEq, Repr

/-- A `struct netr_DomainTrust`; `sid` is a pointer. The type is declared outside the
sources; the fields are those of the netlogon interface. -/
structure netr_DomainTrust where
  netbios_name : Option String
  dns_name : Option String
  trust_flags : Nat
  parent_index : Nat
  trust_type : Nat
  trust_attributes : Nat
  sid : Option dom_sid
  guid : Nat
  deriving DecidableEq, Repr

/-- One answer of `rpccli_lsa_EnumTrustDom`: its status and the page `dom_list`. -/
structure trust_page where
  status : NTSTATUS
  domains : List lsa_DomainInfo
  deriving DecidableEq, Repr

/-- What `sam_trusted_domains` obtains from outside the file. -/
structure trusted_env where
  /-- `talloc_stackframe` returned memory -/
  tmp_ctx_ok : Bool
  /-- the environment of `open_internal_lsa_conn` -/
  conn : conn_env
  /-- the answers of the successive calls of `rpccli_lsa_EnumTrustDom` -/
  pages : List trust_page
  /-- `talloc_realloc` in the iteration for page `k` returned memory -/
  realloc_ok : Nat → Bool
  /-- content of slot `i` of the memory that the realloc for page `k` adds -/
  junk : Nat → Nat → netr_DomainTrust
  /-- `talloc(array, struct dom_sid)` for entry `i` of page `k` returned memory -/
  sid_ok : Nat → Nat → Bool
  /-- the output parameter `trusts` is non-`NULL` -/
  trusts_ptr : Bool

/-- The function `talloc_realloc(tmp_ctx, array, struct netr_DomainTrust, count)`:
`NULL` for a count of zero or on failure; otherwise an array of `count` elements that
keeps the old elements and leaves the added ones as they are found in memory. -/
def talloc_realloc_trusts (E : trusted_env) (k : Nat) (array : Option (List netr_DomainTrust))
    (count : Nat) : Option (List netr_DomainTrust) :=
  if count = 0 then none
  else if E.realloc_ok k then
    let old := (array.getD []).take count
    some (old ++ (List.range (count - old.length)).map (fun i => E.junk k (old.length + i)))
  else none

/-- The inner loop of `sam_trusted_domains` over the entries of page `k` that remain,
the next index being `i`: `&array[i]` is zeroed and filled. The outer `none` is
undefined behaviour (a slot beyond the array), `Except.error` is the jump to `error`. -/
def sam_trusted_domains_fill (E : trusted_env) (k : Nat) :
    List lsa_DomainInfo → Nat → List netr_DomainTrust →
      Option (Except NTSTATUS (List netr_DomainTrust))
  | [], _, array => some (Except.ok array)
  | d :: rest, i, array =>
    if array.length ≤ i then none
    else if E.sid_ok k i = false then
      some (Except.error NT_STATUS_NO_MEMORY)
    else
      let trust : netr_DomainTrust :=
        { netbios_name := d.name, dns_name := none, trust_flags := 0, parent_index := 0,
          trust_type := 0, trust_attributes := 0, sid := some d.sid, guid := 0 }
      sam_trusted_domains_fill E k rest (i + 1) (array.set i trust)

/-- The do-while loop of `sam_trusted_domains`: `pages` are the answers still to come,
`k` is the number of the next one. The result is the status with which the loop is
left, and `array` and `count` at that point. `none` is undefined behaviour
(`start_idx = trusts->count` with `trusts` being `NULL`, or a slot beyond the array), or
a request for more entries that the environment does not answer. -/
def sam_trusted_domains_loop (E : trusted_env) :
    List trust_page → Nat → Option (List netr_DomainTrust) → Nat →
      Option (NTSTATUS × Option (List netr_DomainTrust) × Nat)
  | [], _, _, _ => none
  | page :: rest, k, array, count =>
    if NT_STATUS_IS_OK page.status = false ∧ NT_STATUS_EQUAL page.status STATUS_MORE_ENTRIES = false
    then some (page.status, array, count)
    else if E.trusts_ptr = false then none
    else
      let count := (count + page.domains.length) % 2 ^ 32
      match talloc_realloc_trusts E k array count with
      | none => some (NT_STATUS_NO_MEMORY, none, count)
      | some array1 =>
        match sam_trusted_domains_fill E k page.domains 0 array1 with
        | none => none
        | some (Except.error status) => some (status, some array1, count)
        | some (Except.ok array2) =>
          if NT_STATUS_EQUAL page.status STATUS_MORE_ENTRIES then
            sam_trusted_domains_loop E rest (k + 1) (some array2) count
          else some (page.status, some array2, count)

/-- What one call of `sam_trusted_domains` did. -/
structure trusted_result where
  /-- the returned status -/
  status : NTSTATUS
  /-- `trusts->count` and `trusts->array`, when they were written -/
  trusts : Option (Nat × Option (List netr_DomainTrust))
  /-- the static `cli` of `open_internal_lsa_pipe` after the call -/
  cli : Option Nat
  deriving DecidableEq, Repr

/-- The function `sam_trusted_domains`; `cli` is the static variable of
`open_internal_lsa_pipe` before the call. `none` is inherited from the loop. -/
def sam_trusted_domains (cli : Option Nat) (E : trusted_env) : Option trusted_result :=
  if E.tmp_ctx_ok = false then
    some { status := NT_STATUS_NO_MEMORY, trusts := none, cli := cli }
  else
    let c := open_internal_lsa_conn cli E.conn
    if NT_STATUS_IS_OK c.1 = false then
      some { status := c.1, trusts := none, cli := c.2.1 }
    else
      match sam_trusted_domains_loop E E.pages 0 none 0 with
      | none => none
      | some (status, array, count) =>
        if NT_STATUS_IS_OK status = false then
          some { status := status, trusts := none, cli := c.2.1 }
        else if E.trusts_ptr then
          some { status := status, trusts := some (count, array), cli := c.2.1 }
        else some { status := status, trusts := none, cli := c.2.1 }

/-! ## Group members -/

/-- What `sam_lookup_groupmem` obtains from outside the file. -/
structure groupmem_env where
  /-- the SID and the name of the domain (`domain->sid`, `domain->name`) -/
  domain_sid : dom_sid
  domain_name : String
  /-- the result of `sid_peek_check_rid`: the RID of the group, or `none` for false -/
  group_rid : Option Nat
  /-- `talloc_stackframe` returned memory -/
  tmp_ctx_ok : Bool
  /-- the environment of `open_internal_samr_conn` -/
  conn : conn_env
  /-- the result of `rpccli_samr_OpenGroup` -/
  open_group_status : NTSTATUS
  /-- the result of `rpccli_samr_QueryGroupMember` -/
  query_status : NTSTATUS
  /-- the array `rids->rids` of `rids->count` members, or `none` when `rids` is `NULL` -/
  rids : Option (List Nat)
  /-- the three `TALLOC_ZERO_ARRAY` calls returned memory -/
  names_ok : Bool
  name_types_ok : Bool
  sid_mem_ok : Bool
  /-- the function `sid_compose`, as a function of the domain SID and the RID -/
  sid_compose : dom_sid → Nat → dom_sid
  /-- the result of `rpccli_samr_LookupRids` -/
  lookup_status : NTSTATUS
  /-- the strings `tmp_names.names[r].string`, `tmp_names.count` of them -/
  tmp_names : List (Option String)
  /-- the types `tmp_types.ids[r]`, `tmp_types.count` of them -/
  tmp_types : List Nat
  /-- the function `fill_domain_username_talloc`, of the domain name and the user name -/
  fill_domain_username : String → Option String → Option String

/-- The output parameters of `sam_lookup_groupmem` that are non-`NULL`. -/
structure groupmem_ptrs where
  pnum_names : Bool
  psid_mem : Bool
  pnames : Bool
  pname_types : Bool

/-- What one call of `sam_lookup_groupmem` did: the returned status, what was stored
through each output parameter (`none` when nothing was stored through it), and the
static `cli` of `open_internal_samr_pipe` after the call. -/
structure groupmem_result where
  status : NTSTATUS
  num_names : Option Nat
  sid_mem : Option (List dom_sid)
  names : Option (List (Option String))
  name_types : Option (List Nat)
  cli : Option Nat
  deriving DecidableEq, Repr

/-- The copy loop of `sam_lookup_groupmem` over the lookup results that remain (name
and type of the RID with the next index): an entry of type `SID_NAME_UNKNOWN` is
skipped, every other one is stored in slot `total_names` of `names` and `name_types`.
`none` is undefined behaviour (a slot beyond the arrays). -/
def sam_lookup_groupmem_copy (G : groupmem_env) :
    List (Option String × Nat) → List (Option String) → List Nat → Nat →
      Option (List (Option String) × List Nat × Nat)
  | [], names, name_types, total_names => some (names, name_types, total_names)
  | (name, type) :: rest, names, name_types, total_names =>
    if type = SID_NAME_UNKNOWN then
      sam_lookup_groupmem_copy G rest names name_types total_names
    else if names.length ≤ total_names ∨ name_types.length ≤ total_names then none
    else
      sam_lookup_groupmem_copy G rest
        (names.set total_names (G.fill_domain_username G.domain_name name))
        (name_types.set total_names type)
        (total_names + 1)

/-- The function `sam_lookup_groupmem`; `cli` is the static variable of
`open_internal_samr_pipe` before the call. The assignments `pnum_names = 0`,
`pnames = NULL`, ... change the parameters, which are local pointers, not what they
point to. `none` is undefined behaviour, inherited from `open_internal_samr_conn` or
from the copy loop. -/
def sam_lookup_groupmem (cli : Option Nat) (G : groupmem_env) (P : groupmem_ptrs) :
    Option groupmem_result :=
  -- if (pnum_names) { pnum_names = 0; }
  let pnum_names : Bool := if P.pnum_names then false else P.pnum_names
  match G.group_rid with
  | none =>
    some { status := NT_STATUS_UNSUCCESSFUL, num_names := none, sid_mem := none,
           names := none, name_types := none, cli := cli }
  | some _ =>
    if G.tmp_ctx_ok = false then
      some { status := NT_STATUS_NO_MEMORY, num_names := none, sid_mem := none,
             names := none, name_types := none, cli := cli }
    else
      match open_internal_samr_conn cli G.conn with
      | none => none
      | some c =>
        -- the jump to the label `error`: nothing is stored through the output parameters
        let leave (status : NTSTATUS) : Option groupmem_result :=
          some { status := status, num_names := none, sid_mem := none, names := none,
                 name_types := none, cli := c.2.1 }
        if NT_STATUS_IS_OK c.1 = false then leave c.1
        else if NT_STATUS_IS_OK G.open_group_status = false then leave G.open_group_status
        else if NT_STATUS_IS_OK G.query_status = false then leave G.query_status
        else if G.rids = none ∨ G.rids = some [] then
          -- the four parameters are set to 0 and the function leaves through `error`
          leave NT_STATUS_OK
        else
          let rid_mem := G.rids.getD []
          let num_names := rid_mem.length
          if G.names_ok = false ∨ G.name_types_ok = false ∨ G.sid_mem_ok = false then
            leave NT_STATUS_NO_MEMORY
          else
            let names : List (Option String) := List.replicate num_names none
            let name_types : List Nat := List.replicate num_names 0
            let sid_mem : List dom_sid := rid_mem.map (fun rid => G.sid_compose G.domain_sid rid)
            if NT_STATUS_IS_OK G.lookup_status = false ∧
                NT_STATUS_EQUAL G.lookup_status STATUS_SOME_UNMAPPED = false then
              leave G.lookup_status
            else if G.tmp_names.length ≠ G.tmp_types.length then leave NT_STATUS_UNSUCCESSFUL
            else
              match sam_lookup_groupmem_copy G (G.tmp_names.zip G.tmp_types) names name_types 0 with
              | none => none
              | some (names1, name_types1, total_names) =>
                some { status := G.lookup_status
                       num_names := if pnum_names then some total_names else none
                       names := if P.pnames then some names1 else none
                       name_types := if P.pname_types then some name_types1 else none
                       sid_mem := if P.psid_mem then some sid_mem else none
                       cli := c.2.1 }

/-! ## Concrete environments -/

/-- A pipe environment in which both calls succeed and pipe `p` is stored. -/
def sample_pipe_env (p : Nat) : pipe_env :=
  { server_info_status := NT_STATUS_OK, open_status := NT_STATUS_OK, open_cli := some p }

/-- A connection environment in which every call succeeds. -/
def sample_conn_env : conn_env :=
  { pipe := sample_pipe_env 1, connect_status := NT_STATUS_OK, open_status := NT_STATUS_OK }

/-- The SID S-1-5-21-1-2-3 of the sample domain, as its list of authorities. -/
def sample_domain_sid : dom_sid :=
  { auths := [5, 21, 1, 2, 3] }

/-- A trusted domain with the given name, whose SID ends in `n`. -/
def sample_trust (name : String) (n : Nat) : lsa_DomainInfo :=
  { name := some name, sid := { auths := [5, 21, n] } }

/-- A slot of a trust array whose memory holds zero bytes. -/
def zero_trust : netr_DomainTrust :=
  { netbios_name := none, dns_name := none, trust_flags := 0, parent_index := 0,
    trust_type := 0, trust_attributes := 0, sid := none, guid := 0 }

/-- An environment of `sam_trusted_domains` in which the enumeration answers with
`pages`, every allocation succeeds and fresh memory holds zero bytes. -/
def sample_trusted_env (pages : List trust_page) : trusted_env :=
  { tmp_ctx_ok := true
    conn := sample_conn_env
    pages := pages
    realloc_ok := fun _ => true
    junk := fun _ _ => zero_trust
    sid_ok := fun _ _ => true
    trusts_ptr := true }

/-- An environment of `sam_lookup_groupmem` for the domain `DOM`: the group has the
members `rids`, whose lookup returned `lookup` (name and type of each) with the status
`lookup_status`; every other call succeeds. A SID is composed by appending the RID and
a user name is qualified with the domain name and a backslash. -/
def sample_groupmem_env (rids : List Nat) (lookup : List (Option String × Nat))
    (lookup_status : NTSTATUS) : groupmem_env :=
  { domain_sid := sample_domain_sid
    domain_name := "DOM"
    group_rid := some 513
    tmp_ctx_ok := true
    conn := sample_conn_env
    open_group_status := NT_STATUS_OK
    query_status := NT_STATUS_OK
    rids := some rids
    names_ok := true
    name_types_ok := true
    sid_mem_ok := true
    sid_compose := fun sid rid => { auths := sid.auths ++ [rid] }
    lookup_status := lookup_status
    tmp_names := lookup.map Prod.fst
    tmp_types := lookup.map Prod.snd
    fill_domain_username := fun dom user => some (dom ++ "\\" ++ user.getD "") }

/-- A caller that passes all four output parameters. -/
def all_ptrs : groupmem_ptrs :=
  { pnum_names := true, psid_mem := true, pnames := true, pname_types := true }

end WinbinddSamr

/-! # Theorems on the DNS server -/

namespace DnsServer

open NTSTATUS

/-! ## Lemmas on the query processor -/

/-- A successful `talloc_realloc` returns an array of exactly `count` elements. -/
theorem talloc_realloc_length (E : dns_env) (i : Nat) (ptr : Option (List dns_res_rec))
    (count : Nat) (l : List dns_res_rec) (h : talloc_realloc E i ptr count = some l) :
    l.length = count ∧ count ≠ 0 := by
  unfold talloc_realloc at h
  split at h
  · simp at h
  · split at h
    · simp only [Option.some.injEq] at h
      subst h
      refine ⟨?_, by assumption⟩
      simp only [List.length_append, List.length_map, List.length_range, List.length_take]
      omega
    · simp at h

/-- After a successful `handle_question` the count equals the length of the array. -/
theorem handle_question_ok (E : dns_env) (i : Nat) (q : Option dns_name_question)
    (answers : Option (List dns_res_rec)) (ancount : Nat) (ans1 : Option (List dns_res_rec))
    (num1 : Nat) (h : handle_question E i q answers ancount = (NT_STATUS_OK, ans1, num1)) :
    array_length ans1 = num1 := by
  unfold handle_question at h
  cases hre : talloc_realloc E i answers ((ancount + 1) % 65536) with
  | none => simp [hre] at h
  | some ans =>
    simp only [hre, Prod.mk.injEq, true_and] at h
    obtain ⟨h1, h2⟩ := h
    subst h1 h2
    simp [array_length, (talloc_realloc_length E i answers _ ans hre).1]

/-- The loop of `compute_reply` keeps the count equal to the length of the array. -/
theorem compute_reply_loop_ok (E : dns_env) (inp : dns_name_packet) (todo : Nat) :
    ∀ (i : Nat) (ans : Option (List dns_res_rec)) (num : Nat)
      (ans1 : Option (List dns_res_rec)) (num1 : Nat),
      array_length ans = num →
      compute_reply_loop E inp todo i ans num = (NT_STATUS_OK, ans1, num1) →
      array_length ans1 = num1 := by
  induction todo with
  | zero =>
    intro i ans num ans1 num1 h0 h
    simp only [compute_reply_loop, Prod.mk.injEq, true_and] at h
    obtain ⟨h1, h2⟩ := h
    subst h1 h2
    exact h0
  | succ n ih =>
    intro i ans num ans1 num1 _ h
    rw [compute_reply_loop] at h
    rcases hq : handle_question E i ((inp.questions.getD [])[i]?) ans num with ⟨st, a, c⟩
    rw [hq] at h
    cases st with
    | NT_STATUS_OK =>
      simp only at h
      exact ih (i + 1) a c ans1 num1 (handle_question_ok E i _ ans num a c hq) h
    | _ => simp at h

/-- What a successful `compute_reply` stores: an answers array of `ancount` elements and
empty authority and additional sections. -/
theorem compute_reply_ok (E : dns_env) (p : dns_name_packet) (s : reply_sections)
    (h : compute_reply E p = Except.ok s) :
    array_length s.answers = s.ancount ∧ s.nsrecs = none ∧ s.nscount = 0 ∧
      s.additional = none ∧ s.arcount = 0 := by
  unfold compute_reply at h
  simp only [Bool.false_eq_true, if_false] at h
  rcases hl : compute_reply_loop E p p.qdcount 0 (if E.array_ok then some [] else none) 0
    with ⟨st, a, c⟩
  rw [hl] at h
  cases st with
  | NT_STATUS_OK =>
    simp only [Except.ok.injEq] at h
    subst h
    refine ⟨?_, rfl, rfl, rfl, rfl⟩
    refine compute_reply_loop_ok E p p.qdcount 0 _ 0 a c ?_ hl
    cases E.array_ok <;> rfl
  | _ => simp at h

/-- The run of `dns_process` on a buffer that decodes into `p`, with both packets
allocated. -/
theorem dns_process_decoded (E : dns_env) (inp : DATA_BLOB) (p : dns_name_packet)
    (hin : E.in_packet_ok = true) (hout : E.out_packet_ok = true)
    (hp : E.ndr_pull inp = some p) :
    ∃ r pk, dns_process E inp = some r ∧ r.pulled = some inp ∧
      r.reply = some (compute_reply E p) ∧
      r.pushed = some pk ∧
      pk.id = p.id ∧ pk.operation = DNS_FLAG_REPLY ||| DNS_FLAG_AUTHORITATIVE ∧
      pk.qdcount = p.qdcount ∧ pk.questions = p.questions ∧
      (∀ s, compute_reply E p = Except.ok s →
        pk.ancount = s.ancount ∧ pk.answers = s.answers ∧ pk.nscount = s.nscount ∧
        pk.nsrecs = s.nsrecs ∧ pk.arcount = s.arcount ∧ pk.additional = s.additional) ∧
      (∀ st, compute_reply E p = Except.error st →
        pk.ancount = 0 ∧ pk.answers = none ∧ pk.nscount = 0 ∧
        pk.nsrecs = none ∧ pk.arcount = 0 ∧ pk.additional = none) ∧
      (∀ bytes, E.ndr_push pk = some bytes →
        r.status = NT_STATUS_OK ∧ r.out = some { data := bytes, length := bytes.length }) ∧
      (E.ndr_push pk = none → r.status = NT_STATUS_INTERNAL_ERROR ∧ r.out = none) := by
  unfold dns_process
  simp only [hin, hout, hp, Bool.true_eq_false, if_false]
  cases hc : compute_reply E p with
  | error st =>
    simp only
    split
    · rename_i hpush
      exact ⟨_, _, rfl, rfl, rfl, rfl, rfl, rfl, rfl, rfl, by simp, by simp, by simp [hpush], by simp⟩
    · rename_i bytes hpush
      exact ⟨_, _, rfl, rfl, rfl, rfl, rfl, rfl, rfl, rfl, by simp, by simp, by simp [hpush], by simp [hpush]⟩
  | ok s =>
    simp only
    split
    · rename_i hpush
      exact ⟨_, _, rfl, rfl, rfl, rfl, rfl, rfl, rfl, rfl, by simp, by simp, by simp [hpush], by simp⟩
    · rename_i bytes hpush
      exact ⟨_, _, rfl, rfl, rfl, rfl, rfl, rfl, rfl, rfl, by simp, by simp, by simp [hpush], by simp [hpush]⟩

/-- One call of `handle_question` when its allocations succeed and the array holds
`i` records: the array grows by the slot found in memory and slot 0 is overwritten. -/
theorem handle_question_all_ok (E : dns_env) (i : Nat) (q : Option dns_name_question)
    (l : List dns_res_rec) (hl : l.length = i) (hi : i + 1 < 65536)
    (hre : E.realloc_ok i = true) (hn : E.strdup_name_ok i = true)
    (hr : E.strdup_rdata_ok i = true) :
    handle_question E i q (some l) i =
      (NT_STATUS_OK, some (fixed_record :: (l ++ [E.junk i i]).tail), i + 1) := by
  subst hl
  have hmod : (l.length + 1) % 65536 = l.length + 1 := Nat.mod_eq_of_lt hi
  have htake : List.take (l.length + 1) l = l := List.take_of_length_le (by omega)
  have hsub : l.length + 1 - l.length = 1 := by omega
  have hrange : List.range 1 = [0] := rfl
  unfold handle_question
  simp only [hmod, talloc_realloc, hre, hn, hr, talloc_strdup, if_true, Option.getD_some,
    htake, hsub, Nat.succ_ne_zero, if_false, hrange, List.map_cons, List.map_nil,
    Nat.add_zero]
  cases l <;> rfl

/-- The loop of `compute_reply` when no allocation fails: after the first iteration
slot 0 holds the fixed record, and every slot added later keeps what was in memory. -/
theorem compute_reply_loop_answers (E : dns_env) (p : dns_name_packet)
    (hre : ∀ j, E.realloc_ok j = true) (hn : ∀ j, E.strdup_name_ok j = true)
    (hr : ∀ j, E.strdup_rdata_ok j = true) (todo : Nat) :
    ∀ (i : Nat) (l : List dns_res_rec), l.length = i → i + todo < 65536 →
      compute_reply_loop E p todo i (some l) i =
        (NT_STATUS_OK,
         some (if todo = 0 then l else
           fixed_record :: (l ++ (List.range todo).map (fun k => E.junk (i + k) (i + k))).tail),
         i + todo) := by
  induction todo with
  | zero => intro i l _ _; simp [compute_reply_loop]
  | succ n ih =>
    intro i l hl hi
    rw [compute_reply_loop,
      handle_question_all_ok E i _ l hl (by omega) (hre i) (hn i) (hr i)]
    simp only
    rw [ih (i + 1) _ (by cases l <;> simp at hl ⊢ <;> omega) (by omega)]
    have hrange : (List.range (n + 1)).map (fun k => E.junk (i + k) (i + k)) =
        E.junk i i :: (List.range n).map (fun k => E.junk (i + 1 + k) (i + 1 + k)) := by
      rw [List.range_succ_eq_map]
      simp only [List.map_cons, List.map_map, Nat.add_zero, List.cons.injEq, true_and]
      apply List.map_congr_left
      intro k _
      simp only [Function.comp, Nat.succ_eq_add_one]
      rw [show i + (k + 1) = i + 1 + k by omega]
    rw [hrange]
    simp only [Nat.succ_ne_zero, if_false, Prod.mk.injEq, true_and, Option.some.injEq]
    refine ⟨?_, by omega⟩
    by_cases hn0 : n = 0
    · subst hn0
      simp
    · simp only [hn0, if_false, List.cons.injEq, true_and]
      cases l <;> simp

/-- The answers that `compute_reply` returns when no allocation fails: as many records
as questions, the fixed record in slot 0, and in every slot `k` above 0 the content
`junk k k` of the memory that the realloc for question `k` added. -/
theorem compute_reply_answers (E : dns_env) (p : dns_name_packet)
    (harr : E.array_ok = true) (hre : ∀ j, E.realloc_ok j = true)
    (hn : ∀ j, E.strdup_name_ok j = true) (hr : ∀ j, E.strdup_rdata_ok j = true)
    (hq : p.qdcount < 65536) :
    compute_reply E p = Except.ok
      { answers := some (if p.qdcount = 0 then [] else
          fixed_record :: ((List.range p.qdcount).map (fun k => E.junk k k)).tail)
        ancount := p.qdcount
        nsrecs := none, nscount := 0, additional := none, arcount := 0 } := by
  unfold compute_reply
  simp only [harr, if_true, Bool.false_eq_true, if_false]
  rw [compute_reply_loop_answers E p hre hn hr p.qdcount 0 [] rfl (by omega)]
  simp

/-- The result of `compute_reply` for one question when its allocations succeed. -/
theorem compute_reply_single (E : dns_env) (p : dns_name_packet) (hq : p.qdcount = 1)
    (hre : E.realloc_ok 0 = true) (hn : E.strdup_name_ok 0 = true)
    (hr : E.strdup_rdata_ok 0 = true) :
    compute_reply E p = Except.ok
      { answers := some [fixed_record], ancount := 1, nsrecs := none, nscount := 0,
        additional := none, arcount := 0 } := by
  unfold compute_reply
  cases ha : E.array_ok <;>
    simp [hq, compute_reply_loop, handle_question, talloc_realloc, hre, hn, hr, talloc_strdup,
      fixed_record, List.range_succ]

/-! ## The query processor: header echo, answers, counts, errors -/

/-- C1: when the input buffer decodes into a request `p`, `dns_process` hands the
encoder a response with the id of `p`, the operation flags
`DNS_FLAG_REPLY | DNS_FLAG_AUTHORITATIVE`, the question count of `p` and the question
list of `p`. -/
theorem dns_process_echoes_header (E : dns_env) (inp : DATA_BLOB) (p : dns_name_packet)
    (hin : E.in_packet_ok = true) (hout : E.out_packet_ok = true)
    (hp : E.ndr_pull inp = some p) :
    ∃ r pk, dns_process E inp = some r ∧ r.pushed = some pk ∧
      pk.id = p.id ∧ pk.operation = DNS_FLAG_REPLY ||| DNS_FLAG_AUTHORITATIVE ∧
      pk.qdcount = p.qdcount ∧ pk.questions = p.questions := by
  obtain ⟨r, pk, h1, _, _, h3, h4, h5, h6, h7, _⟩ := dns_process_decoded E inp p hin hout hp
  exact ⟨r, pk, h1, h3, h4, h5, h6, h7⟩

/-- Witness of C1: the sample request with three questions. -/
theorem dns_process_echoes_header_witness :
    (sample_env (fun _ => true)).ndr_pull (sample_blob 3) = some (sample_request 3) ∧
    ∃ r pk, dns_process (sample_env (fun _ => true)) (sample_blob 3) = some r ∧
      r.pushed = some pk ∧ pk.id = (sample_request 3).id ∧
      pk.operation = DNS_FLAG_REPLY ||| DNS_FLAG_AUTHORITATIVE ∧
      pk.qdcount = (sample_request 3).qdcount ∧
      pk.questions = (sample_request 3).questions :=
  ⟨rfl, dns_process_echoes_header (sample_env (fun _ => true)) (sample_blob 3)
    (sample_request 3) rfl rfl rfl⟩

/-- C2, at the failing input: for a request with two questions and no allocation
failure the answer section has two records, the first is the fixed record and the
second is whatever the memory added by `talloc_realloc` held (here zero bytes), because
`handle_question` stores every record in slot 0. -/
theorem handle_question_overwrites_slot_zero :
    ∃ r pk, dns_process (sample_env (fun _ => true)) (sample_blob 2) = some r ∧
      r.pushed = some pk ∧ pk.ancount = 2 ∧
      pk.answers = some [fixed_record, zero_record] ∧ zero_record ≠ fixed_record :=
  ⟨_, _, rfl, rfl, rfl, rfl, by decide⟩

/-- C3: for a request with exactly one question, when the allocations of
`handle_question` succeed, the response handed to the encoder has the id of the
request, the reply and authoritative flags set, question count 1 with the question
echoed, answer count 1 with the single record `example.com`, type A, class IN, ttl 0,
address 127.0.0.1, and empty authority and additional sections. -/
theorem dns_process_single_question (E : dns_env) (inp : DATA_BLOB) (p : dns_name_packet)
    (q : dns_name_question)
    (hin : E.in_packet_ok = true) (hout : E.out_packet_ok = true)
    (hp : E.ndr_pull inp = some p) (hq : p.qdcount = 1) (hqs : p.questions = some [q])
    (hre : E.realloc_ok 0 = true) (hn : E.strdup_name_ok 0 = true)
    (hr : E.strdup_rdata_ok 0 = true) :
    ∃ r pk, dns_process E inp = some r ∧ r.pushed = some pk ∧
      pk.id = p.id ∧
      pk.operation &&& DNS_FLAG_REPLY = DNS_FLAG_REPLY ∧
      pk.operation &&& DNS_FLAG_AUTHORITATIVE = DNS_FLAG_AUTHORITATIVE ∧
      pk.qdcount = 1 ∧ pk.questions = some [q] ∧
      pk.ancount = 1 ∧
      pk.answers = some [{ name := some "example.com", rr_type := DNS_QTYPE_A,
                           rr_class := DNS_QCLASS_IP, ttl := 0,
                           rdata := dns_rdata.ipv4_record (some "127.0.0.1") }] ∧
      pk.nscount = 0 ∧ pk.nsrecs = none ∧ pk.arcount = 0 ∧ pk.additional = none := by
  obtain ⟨r, pk, h1, _, _, h3, h4, h5, h6, h7, hok, _⟩ :=
    dns_process_decoded E inp p hin hout hp
  obtain ⟨a1, a2, a3, a4, a5, a6⟩ := hok _ (compute_reply_single E p hq hre hn hr)
  refine ⟨r, pk, h1, h3, h4, ?_, ?_, by rw [h6, hq], by rw [h7, hqs], a1, ?_, a3, a4, a5, a6⟩
  · rw [h5]; decide
  · rw [h5]; decide
  · rw [a2]; rfl

/-- Witness of C3: transaction id 0x1234 and one question for `example.com`, type A,
class IN. -/
theorem dns_process_single_question_witness :
    (sample_env (fun _ => true)).ndr_pull (sample_blob 1) = some (sample_request 1) ∧
    (sample_request 1).id = 0x1234 ∧
    (sample_request 1).questions = some [sample_question] ∧
    ∃ r pk, dns_process (sample_env (fun _ => true)) (sample_blob 1) = some r ∧
      r.pushed = some pk ∧
      pk.id = (sample_request 1).id ∧
      pk.operation &&& DNS_FLAG_REPLY = DNS_FLAG_REPLY ∧
      pk.operation &&& DNS_FLAG_AUTHORITATIVE = DNS_FLAG_AUTHORITATIVE ∧
      pk.qdcount = 1 ∧ pk.questions = some [sample_question] ∧
      pk.ancount = 1 ∧
      pk.answers = some [{ name := some "example.com", rr_type := DNS_QTYPE_A,
                           rr_class := DNS_QCLASS_IP, ttl := 0,
                           rdata := dns_rdata.ipv4_record (some "127.0.0.1") }] ∧
      pk.nscount = 0 ∧ pk.nsrecs = none ∧ pk.arcount = 0 ∧ pk.additional = none :=
  ⟨rfl, rfl, rfl, dns_process_single_question (sample_env (fun _ => true)) (sample_blob 1)
    (sample_request 1) sample_question rfl rfl rfl rfl rfl rfl rfl rfl⟩

/-- C4: for every decoded request the response handed to the encoder has `nscount = 0`
and `arcount = 0` with `NULL` authority and additional arrays, whatever `compute_reply`
returns. -/
theorem dns_process_no_authority_no_additional (E : dns_env) (inp : DATA_BLOB)
    (p : dns_name_packet)
    (hin : E.in_packet_ok = true) (hout : E.out_packet_ok = true)
    (hp : E.ndr_pull inp = some p) :
    ∃ r pk, dns_process E inp = some r ∧ r.reply = some (compute_reply E p) ∧
      r.pushed = some pk ∧
      pk.nscount = 0 ∧ pk.nsrecs = none ∧ pk.arcount = 0 ∧ pk.additional = none := by
  obtain ⟨r, pk, h1, _, h2, h3, _, _, _, _, hok, herr, _⟩ :=
    dns_process_decoded E inp p hin hout hp
  refine ⟨r, pk, h1, h2, h3, ?_⟩
  cases hc : compute_reply E p with
  | error st =>
    obtain ⟨_, _, a3, a4, a5, a6⟩ := herr st hc
    exact ⟨a3, a4, a5, a6⟩
  | ok s =>
    obtain ⟨_, _, a3, a4, a5, a6⟩ := hok s hc
    obtain ⟨_, b2, b3, b4, b5⟩ := compute_reply_ok E p s hc
    exact ⟨a3.trans b3, a4.trans b2, a5.trans b5, a6.trans b4⟩

/-- Witness of C4: three questions, the realloc for the second one fails. -/
theorem dns_process_no_authority_no_additional_witness :
    (sample_env (fun i => decide (i ≠ 1))).ndr_pull (sample_blob 3) = some (sample_request 3) ∧
    ∃ r pk, dns_process (sample_env (fun i => decide (i ≠ 1))) (sample_blob 3) = some r ∧
      r.reply = some (compute_reply (sample_env (fun i => decide (i ≠ 1))) (sample_request 3)) ∧
      r.pushed = some pk ∧
      pk.nscount = 0 ∧ pk.nsrecs = none ∧ pk.arcount = 0 ∧ pk.additional = none :=
  ⟨rfl, dns_process_no_authority_no_additional (sample_env (fun i => decide (i ≠ 1)))
    (sample_blob 3) (sample_request 3) rfl rfl rfl⟩

/-- C5: the response handed to the encoder satisfies the count invariant: `ancount`,
`nscount` and `arcount` are the numbers of elements of the answers, authority and
additional arrays (a `NULL` array counting as empty), whether `compute_reply` succeeds
or fails. -/
theorem dns_process_count_invariant (E : dns_env) (inp : DATA_BLOB) (p : dns_name_packet)
    (hin : E.in_packet_ok = true) (hout : E.out_packet_ok = true)
    (hp : E.ndr_pull inp = some p) :
    ∃ r pk, dns_process E inp = some r ∧ r.pushed = some pk ∧
      pk.ancount = array_length pk.answers ∧
      pk.nscount = array_length pk.nsrecs ∧
      pk.arcount = array_length pk.additional := by
  obtain ⟨r, pk, h1, _, _, h3, _, _, _, _, hok, herr, _⟩ :=
    dns_process_decoded E inp p hin hout hp
  refine ⟨r, pk, h1, h3, ?_⟩
  cases hc : compute_reply E p with
  | error st =>
    obtain ⟨a1, a2, a3, a4, a5, a6⟩ := herr st hc
    rw [a1, a2, a3, a4, a5, a6]
    exact ⟨rfl, rfl, rfl⟩
  | ok s =>
    obtain ⟨a1, a2, a3, a4, a5, a6⟩ := hok s hc
    obtain ⟨b1, b2, b3, b4, b5⟩ := compute_reply_ok E p s hc
    rw [a1, a2, a3, a4, a5, a6, b1, b2, b3, b4, b5]
    exact ⟨rfl, rfl, rfl⟩

/-- Witness of C5: two questions, every allocation succeeds. -/
theorem dns_process_count_invariant_witness :
    (sample_env (fun _ => true)).ndr_pull (sample_blob 2) = some (sample_request 2) ∧
    ∃ r pk, dns_process (sample_env (fun _ => true)) (sample_blob 2) = some r ∧
      r.pushed = some pk ∧
      pk.ancount = array_length pk.answers ∧
      pk.nscount = array_length pk.nsrecs ∧
      pk.arcount = array_length pk.additional :=
  ⟨rfl, dns_process_count_invariant (sample_env (fun _ => true)) (sample_blob 2)
    (sample_request 2) rfl rfl rfl⟩

/-- C6: when `compute_reply` returns an error for a decoded request, `dns_process` still
hands the encoder a response with the echoed header and questions and with
`ancount = nscount = arcount = 0` and no records, and returns `NT_STATUS_OK` with the
encoded bytes in the output buffer whenever the encoder succeeds. -/
theorem dns_process_reply_error_zero_answers (E : dns_env) (inp : DATA_BLOB)
    (p : dns_name_packet) (st : NTSTATUS)
    (hin : E.in_packet_ok = true) (hout : E.out_packet_ok = true)
    (hp : E.ndr_pull inp = some p) (herr : compute_reply E p = Except.error st) :
    ∃ r, dns_process E inp = some r ∧ r.reply = some (Except.error st) ∧
      r.pushed = some
        { id := p.id, operation := DNS_FLAG_REPLY ||| DNS_FLAG_AUTHORITATIVE,
          qdcount := p.qdcount, questions := p.questions,
          ancount := 0, answers := none, nscount := 0, nsrecs := none,
          arcount := 0, additional := none } ∧
      ∀ bytes, E.ndr_push
          { id := p.id, operation := DNS_FLAG_REPLY ||| DNS_FLAG_AUTHORITATIVE,
            qdcount := p.qdcount, questions := p.questions,
            ancount := 0, answers := none, nscount := 0, nsrecs := none,
            arcount := 0, additional := none } = some bytes →
        r.status = NT_STATUS_OK ∧ r.out = some { data := bytes, length := bytes.length } := by
  obtain ⟨r, pk, h1, _, h2, h3, h4, h5, h6, h7, _, he, hpush, _⟩ :=
    dns_process_decoded E inp p hin hout hp
  obtain ⟨a1, a2, a3, a4, a5, a6⟩ := he st herr
  have hpk : pk = ⟨p.id, DNS_FLAG_REPLY ||| DNS_FLAG_AUTHORITATIVE, p.qdcount, 0, 0, 0,
      p.questions, none, none, none⟩ := by
    cases pk
    simp only [dns_name_packet.mk.injEq] at *
    exact ⟨h4, h5, h6, a1, a3, a5, h7, a2, a4, a6⟩
  subst hpk
  exact ⟨r, h1, by rw [h2, herr], h3, hpush⟩

/-- Witness of C6: three questions, the realloc for the second one fails, so that
`compute_reply` returns `NT_STATUS_NO_MEMORY` after one answer was built. -/
theorem dns_process_reply_error_zero_answers_witness :
    compute_reply (sample_env (fun i => decide (i ≠ 1))) (sample_request 3)
      = Except.error NT_STATUS_NO_MEMORY ∧
    ∃ r, dns_process (sample_env (fun i => decide (i ≠ 1))) (sample_blob 3) = some r ∧
      r.reply = some (Except.error NT_STATUS_NO_MEMORY) ∧
      r.pushed = some
        { id := (sample_request 3).id,
          operation := DNS_FLAG_REPLY ||| DNS_FLAG_AUTHORITATIVE,
          qdcount := (sample_request 3).qdcount, questions := (sample_request 3).questions,
          ancount := 0, answers := none, nscount := 0, nsrecs := none,
          arcount := 0, additional := none } ∧
      ∀ bytes, (sample_env (fun i => decide (i ≠ 1))).ndr_push
          { id := (sample_request 3).id,
            operation := DNS_FLAG_REPLY ||| DNS_FLAG_AUTHORITATIVE,
            qdcount := (sample_request 3).qdcount,
            questions := (sample_request 3).questions,
            ancount := 0, answers := none, nscount := 0, nsrecs := none,
            arcount := 0, additional := none } = some bytes →
        r.status = NT_STATUS_OK ∧ r.out = some { data := bytes, length := bytes.length } :=
  ⟨rfl, dns_process_reply_error_zero_answers (sample_env (fun i => decide (i ≠ 1)))
    (sample_blob 3) (sample_request 3) NT_STATUS_NO_MEMORY rfl rfl rfl rfl⟩

/-- C7: when the decoder reports an error on the input buffer, `dns_process` returns
the failure status `NT_STATUS_COULD_NOT_INTERPRET`, does not call `compute_reply`,
does not call the encoder and does not write the output buffer. -/
theorem dns_process_decode_error (E : dns_env) (inp : DATA_BLOB)
    (hin : E.in_packet_ok = true) (hp : E.ndr_pull inp = none) :
    ∃ r, dns_process E inp = some r ∧ r.pulled = some inp ∧
      r.status = NT_STATUS_COULD_NOT_INTERPRET ∧ NT_STATUS_IS_OK r.status = false ∧
      r.reply = none ∧ r.pushed = none ∧ r.out = none := by
  refine ⟨{ status := NT_STATUS_COULD_NOT_INTERPRET, pulled := some inp, reply := none,
            pushed := none, out := none }, ?_, rfl, rfl, rfl, rfl, rfl, rfl⟩
  unfold dns_process
  simp [hin, hp]

/-- Witness of C7: an empty buffer, which the decoder of `sample_env` rejects. -/
theorem dns_process_decode_error_witness :
    (sample_env (fun _ => true)).ndr_pull { data := [], length := 0 } = none ∧
    ∃ r, dns_process (sample_env (fun _ => true)) { data := [], length := 0 } = some r ∧
      r.pulled = some { data := [], length := 0 } ∧
      r.status = NT_STATUS_COULD_NOT_INTERPRET ∧ NT_STATUS_IS_OK r.status = false ∧
      r.reply = none ∧ r.pushed = none ∧ r.out = none :=
  ⟨rfl, dns_process_decode_error (sample_env (fun _ => true)) { data := [], length := 0 }
    rfl rfl⟩

/-! ## Lemmas on the stream handler -/

/-- With `out_packet` allocated, `dns_process` has defined behaviour. -/
theorem dns_process_defined (E : dns_env) (inp : DATA_BLOB) (hout : E.out_packet_ok = true) :
    ∃ r, dns_process E inp = some r := by
  unfold dns_process
  split
  · exact ⟨_, rfl⟩
  · split
    · exact ⟨_, rfl⟩
    · simp only [hout, Bool.true_eq_false, if_false]
      split <;> exact ⟨_, rfl⟩

/-- The decoder of `dns_process` sees the input blob, and a successful run wrote the
output blob with a length equal to the number of its bytes. -/
theorem dns_process_cases (E : dns_env) (inp : DATA_BLOB) (r : dns_process_result)
    (h : dns_process E inp = some r) :
    (r.pulled = none ∨ r.pulled = some inp) ∧
    (r.status = NT_STATUS_OK →
      ∃ bytes, r.out = some { data := bytes, length := bytes.length }) := by
  cases hin : E.in_packet_ok with
  | false =>
    simp only [dns_process, hin, if_true, Option.some.injEq] at h
    subst h
    exact ⟨Or.inl rfl, by simp⟩
  | true =>
    cases hp : E.ndr_pull inp with
    | none =>
      simp only [dns_process, hin, hp, Bool.true_eq_false, if_false, Option.some.injEq] at h
      subst h
      exact ⟨Or.inr rfl, by simp⟩
    | some p =>
      cases hout : E.out_packet_ok with
      | false => simp [dns_process, hin, hp, hout] at h
      | true =>
        obtain ⟨r1, pk, h1, h2, _, _, _, _, _, _, _, _, hpush, hnone⟩ :=
          dns_process_decoded E inp p hin hout hp
        rw [h] at h1
        simp only [Option.some.injEq] at h1
        subst h1
        refine ⟨Or.inr h2, fun hst => ?_⟩
        cases hb : E.ndr_push pk with
        | none =>
          rw [(hnone hb).1] at hst
          simp at hst
        | some bytes => exact ⟨bytes, (hpush bytes hb).2⟩

/-- For a value below 2^32, `RSIVAL` stores four bytes that denote it in big-endian order. -/
theorem RSIVAL_big_endian (L : Nat) (hL : L < 2 ^ 32) :
    (RSIVAL L).length = 4 ∧ (∀ b ∈ RSIVAL L, b < 256) ∧ big_endian_value (RSIVAL L) = L := by
  refine ⟨rfl, ?_, ?_⟩
  · intro b hb
    simp only [RSIVAL, List.mem_cons, List.mem_singleton, List.not_mem_nil, or_false] at hb
    omega
  · simp only [RSIVAL, big_endian_value, List.foldl]
    norm_num at hL ⊢
    omega

/-- The calls of `dns_tcp_call_loop` after a successful `dns_process`. -/
theorem dns_tcp_call_loop_ok (T : tcp_env) (r : dns_process_result) (out : DATA_BLOB)
    (hcall : T.call_ok = true) (hrecv : T.recv_status = NT_STATUS_OK)
    (hproc : dns_process T.dns (skip_length_header T.recv_blob) = some r)
    (hst : r.status = NT_STATUS_OK) (hout : r.out = some out) :
    ∃ tail, dns_tcp_call_loop T = some
        (tcp_action.process (skip_length_header T.recv_blob) ::
          tcp_action.writev_queue_send
            [{ iov_base := RSIVAL out.length, iov_len := 4 },
             { iov_base := out.data, iov_len := out.length }] :: tail) ∧
      writev_calls tail = [] := by
  unfold dns_tcp_call_loop
  simp only [hcall, hrecv, hproc, hst, hout, NT_STATUS_IS_OK, decide_True, Bool.true_eq_false,
    if_false, List.take]
  cases T.writev_send_ok with
  | false => exact ⟨_, rfl, rfl⟩
  | true =>
    cases T.read_send_ok with
    | false => exact ⟨_, rfl, rfl⟩
    | true => exact ⟨_, rfl, rfl⟩

/-- The calls of `dns_tcp_call_loop` after a failed `dns_process`. -/
theorem dns_tcp_call_loop_failed (T : tcp_env) (r : dns_process_result)
    (hcall : T.call_ok = true) (hrecv : T.recv_status = NT_STATUS_OK)
    (hproc : dns_process T.dns (skip_length_header T.recv_blob) = some r)
    (hst : r.status ≠ NT_STATUS_OK) :
    dns_tcp_call_loop T = some
      [tcp_action.process (skip_length_header T.recv_blob),
       tcp_action.terminate_connection "dns_tcp_call_loop: process function failed"] := by
  unfold dns_tcp_call_loop
  simp [hcall, hrecv, hproc, hst, NT_STATUS_IS_OK]

/-! ## The stream handler: framing and failure -/

/-- C8: when `dns_process` succeeds on a stream connection with a response body of
length `L` (below 2^32, as every NDR buffer is), `dns_tcp_call_loop` makes exactly one
`tstream_writev_queue_send` call, with exactly two segments totalling `4 + L` bytes: the
first is the 4 bytes of the big-endian encoding of `L`, the second is the `L` bytes of
the encoded message. -/
theorem dns_tcp_call_loop_frames_response (T : tcp_env) (r : dns_process_result)
    (out : DATA_BLOB)
    (hcall : T.call_ok = true) (hrecv : T.recv_status = NT_STATUS_OK)
    (hproc : dns_process T.dns (skip_length_header T.recv_blob) = some r)
    (hst : r.status = NT_STATUS_OK) (hout : r.out = some out)
    (hL : out.length < 2 ^ 32) :
    ∃ acts hdr, dns_tcp_call_loop T = some acts ∧
      writev_calls acts =
        [[{ iov_base := hdr, iov_len := 4 }, { iov_base := out.data, iov_len := out.length }]] ∧
      hdr.length = 4 ∧ (∀ b ∈ hdr, b < 256) ∧ big_endian_value hdr = out.length ∧
      out.data.length = out.length ∧
      (∀ iov ∈ writev_calls acts,
        iov.length = 2 ∧ (iov.map iovec.iov_len).sum = 4 + out.length) := by
  obtain ⟨tail, hloop, htail⟩ := dns_tcp_call_loop_ok T r out hcall hrecv hproc hst hout
  obtain ⟨h1, h2, h3⟩ := RSIVAL_big_endian out.length hL
  obtain ⟨bytes, hb⟩ := (dns_process_cases T.dns _ r hproc).2 hst
  have hw : writev_calls (tcp_action.process (skip_length_header T.recv_blob) ::
          tcp_action.writev_queue_send
            [{ iov_base := RSIVAL out.length, iov_len := 4 },
             { iov_base := out.data, iov_len := out.length }] :: tail) =
        [[{ iov_base := RSIVAL out.length, iov_len := 4 },
             { iov_base := out.data, iov_len := out.length }]] := by
    simp [writev_calls, htail]
  refine ⟨_, RSIVAL out.length, hloop, hw, h1, h2, h3, ?_, ?_⟩
  · rw [hout] at hb
    simp only [Option.some.injEq] at hb
    rw [hb]
  · intro iov hiov
    rw [hw] at hiov
    simp only [List.mem_singleton] at hiov
    subst hiov
    simp

/-- Witness of C8: the request with one question arrives in a PDU; the encoded
response has 6 bytes and is written after the header 00 00 00 06. -/
theorem dns_tcp_call_loop_frames_response_witness :
    dns_process (sample_tcp_env [0, 0, 0, 2, 1, 0]).dns
        (skip_length_header (sample_tcp_env [0, 0, 0, 2, 1, 0]).recv_blob)
      = some { status := NT_STATUS_OK, pulled := some { data := [1, 0], length := 2 },
               reply := some (compute_reply (sample_env (fun _ => true)) (sample_request 1)),
               pushed := some { sample_request 1 with
                 operation := DNS_FLAG_REPLY ||| DNS_FLAG_AUTHORITATIVE,
                 ancount := 1, answers := some [fixed_record] },
               out := some { data := [0x12, 0x34, 1, 1, 0, 0], length := 6 } } ∧
    ∃ acts hdr, dns_tcp_call_loop (sample_tcp_env [0, 0, 0, 2, 1, 0]) = some acts ∧
      writev_calls acts =
        [[{ iov_base := hdr, iov_len := 4 },
          { iov_base := [0x12, 0x34, 1, 1, 0, 0], iov_len := 6 }]] ∧
      hdr.length = 4 ∧ (∀ b ∈ hdr, b < 256) ∧ big_endian_value hdr = 6 ∧
      [0x12, 0x34, 1, 1, 0, 0].length = 6 ∧
      (∀ iov ∈ writev_calls acts,
        iov.length = 2 ∧ (iov.map iovec.iov_len).sum = 4 + 6) :=
  ⟨rfl, dns_tcp_call_loop_frames_response (sample_tcp_env [0, 0, 0, 2, 1, 0]) _
    { data := [0x12, 0x34, 1, 1, 0, 0], length := 6 } rfl rfl rfl rfl rfl (by decide)⟩

/-- C9: for a PDU blob of at least 4 bytes delivered by the stream read,
`dns_tcp_call_loop` calls `dns_process` exactly once, on the blob with its first 4 bytes
removed and the length reduced by 4, and the decoder, when it runs, is given that same
blob: the length prefix does not reach it. -/
theorem dns_tcp_call_loop_skips_length_prefix (T : tcp_env)
    (hcall : T.call_ok = true) (hrecv : T.recv_status = NT_STATUS_OK)
    (hwf : T.recv_blob.length = T.recv_blob.data.length)
    (h4 : 4 ≤ T.recv_blob.length) (hsz : T.recv_blob.length < SIZE_T_RANGE)
    (hout : T.dns.out_packet_ok = true) :
    ∃ acts cin r, dns_tcp_call_loop T = some acts ∧ process_calls acts = [cin] ∧
      cin.data = T.recv_blob.data.drop 4 ∧ cin.length = T.recv_blob.length - 4 ∧
      cin.length = cin.data.length ∧
      dns_process T.dns cin = some r ∧ (r.pulled = none ∨ r.pulled = some cin) := by
  obtain ⟨r, hproc⟩ := dns_process_defined T.dns (skip_length_header T.recv_blob) hout
  have hlen : (skip_length_header T.recv_blob).length = T.recv_blob.length - 4 := by
    simp only [skip_length_header, SIZE_T_RANGE] at hsz ⊢
    omega
  have hacts : ∃ acts, dns_tcp_call_loop T = some acts ∧
      process_calls acts = [skip_length_header T.recv_blob] := by
    by_cases hst : r.status = NT_STATUS_OK
    · obtain ⟨bytes, hb⟩ := (dns_process_cases T.dns _ r hproc).2 hst
      unfold dns_tcp_call_loop
      simp only [hcall, hrecv, hproc, hst, hb, NT_STATUS_IS_OK, decide_True,
        Bool.true_eq_false, if_false, List.take]
      cases T.writev_send_ok with
      | false => exact ⟨_, rfl, rfl⟩
      | true =>
        cases T.read_send_ok with
        | false => exact ⟨_, rfl, rfl⟩
        | true => exact ⟨_, rfl, rfl⟩
    · exact ⟨_, dns_tcp_call_loop_failed T r hcall hrecv hproc hst, rfl⟩
  obtain ⟨acts, ha, hpc⟩ := hacts
  refine ⟨acts, skip_length_header T.recv_blob, r, ha, hpc, rfl, hlen, ?_, hproc,
    (dns_process_cases T.dns _ r hproc).1⟩
  rw [hlen]
  simp only [skip_length_header, List.length_drop]
  omega

/-- Witness of C9: a PDU of six bytes, of which the last two are the body. -/
theorem dns_tcp_call_loop_skips_length_prefix_witness :
    4 ≤ (sample_tcp_env [0, 0, 0, 2, 1, 0]).recv_blob.length ∧
    (sample_tcp_env [0, 0, 0, 2, 1, 0]).recv_blob.length
      = (sample_tcp_env [0, 0, 0, 2, 1, 0]).recv_blob.data.length ∧
    ∃ acts cin r, dns_tcp_call_loop (sample_tcp_env [0, 0, 0, 2, 1, 0]) = some acts ∧
      process_calls acts = [cin] ∧
      cin.data = (sample_tcp_env [0, 0, 0, 2, 1, 0]).recv_blob.data.drop 4 ∧
      cin.length = (sample_tcp_env [0, 0, 0, 2, 1, 0]).recv_blob.length - 4 ∧
      cin.length = cin.data.length ∧
      dns_process (sample_tcp_env [0, 0, 0, 2, 1, 0]).dns cin = some r ∧
      (r.pulled = none ∨ r.pulled = some cin) :=
  ⟨by decide, rfl,
    dns_tcp_call_loop_skips_length_prefix (sample_tcp_env [0, 0, 0, 2, 1, 0]) rfl rfl rfl
      (by decide) (by decide) rfl⟩

/-- C10: when `dns_process` fails on a message received on a stream connection (in
particular when the decoder rejects it), `dns_tcp_call_loop` terminates the connection
and does nothing else: no write is enqueued and no further read is started. -/
theorem dns_tcp_call_loop_process_failure (T : tcp_env)
    (hcall : T.call_ok = true) (hrecv : T.recv_status = NT_STATUS_OK)
    (hfail : (∃ r, dns_process T.dns (skip_length_header T.recv_blob) = some r ∧
                r.status ≠ NT_STATUS_OK) ∨
             (T.dns.in_packet_ok = true ∧
                T.dns.ndr_pull (skip_length_header T.recv_blob) = none)) :
    ∃ acts, dns_tcp_call_loop T = some acts ∧
      acts = [tcp_action.process (skip_length_header T.recv_blob),
              tcp_action.terminate_connection "dns_tcp_call_loop: process function failed"] ∧
      terminate_calls acts = 1 ∧ writev_calls acts = [] ∧ read_calls acts = 0 := by
  have hr : ∃ r, dns_process T.dns (skip_length_header T.recv_blob) = some r ∧
      r.status ≠ NT_STATUS_OK := by
    rcases hfail with h | ⟨hin, hp⟩
    · exact h
    · refine ⟨{ status := NT_STATUS_COULD_NOT_INTERPRET,
                pulled := some (skip_length_header T.recv_blob), reply := none,
                pushed := none, out := none }, ?_, by simp⟩
      simp [dns_process, hin, hp]
  obtain ⟨r, hproc, hst⟩ := hr
  exact ⟨_, dns_tcp_call_loop_failed T r hcall hrecv hproc hst, rfl, rfl, rfl, rfl⟩

/-- Witness of C10: the body announces three questions and carries the byte of one, so
the decoder rejects it. -/
theorem dns_tcp_call_loop_process_failure_witness :
    (sample_tcp_env [0, 0, 0, 2, 3, 0]).dns.ndr_pull
        (skip_length_header (sample_tcp_env [0, 0, 0, 2, 3, 0]).recv_blob) = none ∧
    ∃ acts, dns_tcp_call_loop (sample_tcp_env [0, 0, 0, 2, 3, 0]) = some acts ∧
      acts = [tcp_action.process
                (skip_length_header (sample_tcp_env [0, 0, 0, 2, 3, 0]).recv_blob),
              tcp_action.terminate_connection "dns_tcp_call_loop: process function failed"] ∧
      terminate_calls acts = 1 ∧ writev_calls acts = [] ∧ read_calls acts = 0 :=
  ⟨rfl, dns_tcp_call_loop_process_failure (sample_tcp_env [0, 0, 0, 2, 3, 0]) rfl rfl
    (Or.inr ⟨rfl, rfl⟩)⟩

/-! ## The stream handler: transport errors and the order of reads and writes -/

/-- C11: when the PDU read completes with an error, `dns_tcp_call_loop` only terminates
the connection: it does not call `dns_process`, enqueues no write and starts no read;
and when a queued write completes with an error (`rc = -1`),
`dns_tcp_call_writev_done` terminates the connection. -/
theorem tcp_transport_error_terminates (T : tcp_env) (W : writev_done_env)
    (hrecv : T.recv_status ≠ NT_STATUS_OK) (hrc : W.rc = -1) :
    (∃ acts reason, dns_tcp_call_loop T = some acts ∧
      acts = [tcp_action.terminate_connection reason] ∧
      process_calls acts = [] ∧ writev_calls acts = [] ∧ read_calls acts = 0 ∧
      terminate_calls acts = 1) ∧
    (∃ reason, dns_tcp_call_writev_done W = [tcp_action.terminate_connection reason] ∧
      terminate_calls (dns_tcp_call_writev_done W) = 1) := by
  constructor
  · unfold dns_tcp_call_loop
    cases hc : T.call_ok with
    | false =>
      simp only [if_true]
      exact ⟨_, _, rfl, rfl, rfl, rfl, rfl, rfl⟩
    | true =>
      have hok : NT_STATUS_IS_OK T.recv_status = false := by simp [NT_STATUS_IS_OK, hrecv]
      simp only [hok, Bool.true_eq_false, if_false, if_true]
      exact ⟨_, _, rfl, rfl, rfl, rfl, rfl, rfl⟩
  · unfold dns_tcp_call_writev_done
    simp only [hrc, if_true]
    exact ⟨_, rfl, rfl⟩

/-- Witness of C11: a read that failed with status 0xC000020C, and a write that failed
with error number 104. -/
theorem tcp_transport_error_terminates_witness :
    (sample_tcp_read_error (NTSTATUS.other 0xC000020C)).recv_status ≠ NT_STATUS_OK ∧
    (sample_writev_done (-1)).rc = -1 ∧
    (∃ acts reason,
      dns_tcp_call_loop (sample_tcp_read_error (NTSTATUS.other 0xC000020C)) = some acts ∧
      acts = [tcp_action.terminate_connection reason] ∧
      process_calls acts = [] ∧ writev_calls acts = [] ∧ read_calls acts = 0 ∧
      terminate_calls acts = 1) ∧
    (∃ reason, dns_tcp_call_writev_done (sample_writev_done (-1))
        = [tcp_action.terminate_connection reason] ∧
      terminate_calls (dns_tcp_call_writev_done (sample_writev_done (-1))) = 1) :=
  ⟨by decide, rfl,
    tcp_transport_error_terminates (sample_tcp_read_error (NTSTATUS.other 0xC000020C))
      (sample_writev_done (-1)) (by decide) rfl⟩

/-- The calls of a run of `dns_tcp_call_loop` in which nothing fails. -/
theorem dns_tcp_call_loop_success (T : tcp_env) (h : tcp_run_succeeds T = true) :
    ∃ out : DATA_BLOB, dns_tcp_call_loop T = some
      [tcp_action.process (skip_length_header T.recv_blob),
       tcp_action.writev_queue_send
         [{ iov_base := RSIVAL out.length, iov_len := 4 },
          { iov_base := out.data, iov_len := out.length }],
       tcp_action.set_callback_writev_done,
       tcp_action.read_pdu_blob_send 4,
       tcp_action.set_callback_call_loop] := by
  unfold tcp_run_succeeds at h
  simp only [Bool.and_eq_true] at h
  obtain ⟨⟨⟨⟨hcall, hrecv⟩, hproc⟩, hsend⟩, hread⟩ := h
  cases hp : dns_process T.dns (skip_length_header T.recv_blob) with
  | none => simp [hp] at hproc
  | some r =>
    simp only [hp] at hproc
    have hst : r.status = NT_STATUS_OK := by simpa [NT_STATUS_IS_OK] using hproc
    obtain ⟨bytes, hb⟩ := (dns_process_cases T.dns _ r hp).2 hst
    refine ⟨{ data := bytes, length := bytes.length }, ?_⟩
    unfold dns_tcp_call_loop
    simp only [hcall, hrecv, hp, hproc, hb, hsend, hread, Bool.true_eq_false, if_false,
      List.take, List.cons_append, List.nil_append]

/-- The effect on the connection of a run of `dns_tcp_call_loop` in which nothing
fails: the write is appended to the send queue and one read is pending again. -/
theorem tcp_connection_run_step (c : tcp_connection) (T : tcp_env) (rest : List tcp_env)
    (hterm : c.terminated = false) (hpend : c.reads_pending = 1)
    (h : tcp_run_succeeds T = true) :
    tcp_connection_run c (T :: rest) =
      tcp_connection_run { c with send_queue := c.send_queue ++ tcp_writes T } rest := by
  obtain ⟨out, hloop⟩ := dns_tcp_call_loop_success T h
  rw [tcp_connection_run]
  simp only [hterm, hpend, hloop, Bool.false_eq_true, false_or, one_ne_zero, if_false,
    tcp_writes, writev_calls, List.foldl, tcp_connection.after_call]

/-- The connection after a sequence of runs in which nothing fails. -/
theorem tcp_connection_run_success (Ts : List tcp_env) :
    ∀ c : tcp_connection, c.terminated = false → c.reads_pending = 1 →
      (∀ T ∈ Ts, tcp_run_succeeds T = true) →
      tcp_connection_run c Ts =
        some { c with send_queue := c.send_queue ++ (Ts.map tcp_writes).flatten } := by
  induction Ts with
  | nil => intro c _ _ _; simp [tcp_connection_run]
  | cons T rest ih =>
    intro c hterm hpend hall
    rw [tcp_connection_run_step c T rest hterm hpend (hall T (List.mem_cons_self _ _))]
    rw [ih { c with send_queue := c.send_queue ++ tcp_writes T } hterm hpend
      (fun T1 h1 => hall T1 (List.mem_cons_of_mem _ h1))]
    simp [List.append_assoc]

/-- What a FIFO queue writes for two queues in a row. -/
theorem fifo_wire_append (q1 q2 : List (List iovec)) :
    fifo_wire (q1 ++ q2) = fifo_wire q1 ++ fifo_wire q2 := by
  simp [fifo_wire]

/-- The connection that a successful `dns_tcp_accept` sets up. -/
theorem tcp_connection_accepted_success (A : accept_env) (h : accept_succeeds A = true) :
    tcp_connection_accepted A =
      { queues_created := 1, send_queue := [], reads_pending := 1, terminated := false } := by
  unfold accept_succeeds at h
  simp only [Bool.and_eq_true, decide_eq_true_eq] at h
  obtain ⟨⟨⟨h1, h2⟩, h3⟩, h4⟩ := h
  have h3' : ¬ A.existing_socket_rc < 0 := by omega
  simp [tcp_connection_accepted, dns_tcp_accept, h1, h2, h3', h4,
    tcp_connection.after_accept]

/-- A run of `dns_tcp_call_loop` in which nothing fails hands to
`tstream_writev_queue_send` the output blob of `dns_process` for the request it read,
behind the four bytes of its length. -/
theorem tcp_writes_response (T : tcp_env) (h : tcp_run_succeeds T = true) :
    ∃ r out, dns_process T.dns (skip_length_header T.recv_blob) = some r ∧
      r.status = NT_STATUS_OK ∧ r.out = some out ∧ out.data.length = out.length ∧
      tcp_writes T = [[{ iov_base := RSIVAL out.length, iov_len := 4 },
                       { iov_base := out.data, iov_len := out.length }]] := by
  unfold tcp_run_succeeds at h
  simp only [Bool.and_eq_true] at h
  obtain ⟨⟨⟨⟨hcall, hrecv⟩, hproc⟩, hsend⟩, hread⟩ := h
  cases hp : dns_process T.dns (skip_length_header T.recv_blob) with
  | none => simp [hp] at hproc
  | some r =>
    simp only [hp] at hproc
    have hst : r.status = NT_STATUS_OK := by simpa [NT_STATUS_IS_OK] using hproc
    obtain ⟨bytes, hb⟩ := (dns_process_cases T.dns _ r hp).2 hst
    refine ⟨r, { data := bytes, length := bytes.length }, rfl, hst, hb, rfl, ?_⟩
    unfold tcp_writes dns_tcp_call_loop
    simp only [hcall, hrecv, hp, hproc, hb, hsend, hread, Bool.true_eq_false, if_false,
      List.take, List.cons_append, List.nil_append, writev_calls]

/-- What a FIFO queue writes for one response: the four bytes of the length, then the
bytes of the response. -/
theorem fifo_wire_response (out : DATA_BLOB) (h : out.data.length = out.length)
    (rest : List (List iovec)) :
    fifo_wire ([{ iov_base := RSIVAL out.length, iov_len := 4 },
                { iov_base := out.data, iov_len := out.length }] :: rest) =
      RSIVAL out.length ++ out.data ++ fifo_wire rest := by
  simp [fifo_wire, iovec.bytes, RSIVAL, ← h]

/-- The writes of a sequence of runs in which nothing fails are the responses to the
requests read, one by one and in that order. -/
theorem tcp_writes_responses (Ts : List tcp_env)
    (hall : ∀ T ∈ Ts, tcp_run_succeeds T = true) :
    ∃ outs : List DATA_BLOB,
      List.Forall₂ (fun T out =>
        ∃ r, dns_process T.dns (skip_length_header T.recv_blob) = some r ∧
          r.status = NT_STATUS_OK ∧ r.out = some out ∧ out.data.length = out.length)
        Ts outs ∧
      (Ts.map tcp_writes).flatten = outs.map (fun out =>
        [{ iov_base := RSIVAL out.length, iov_len := 4 },
         { iov_base := out.data, iov_len := out.length }]) ∧
      ∀ o ∈ outs, o.data.length = o.length := by
  induction Ts with
  | nil => exact ⟨[], List.Forall₂.nil, rfl, by simp⟩
  | cons T rest ih =>
    obtain ⟨outs, h1, h2, h3⟩ := ih (fun T1 h1 => hall T1 (List.mem_cons_of_mem _ h1))
    obtain ⟨r, out, hp, hst, ho, hl, hw⟩ := tcp_writes_response T (hall T (List.mem_cons_self _ _))
    refine ⟨out :: outs, List.Forall₂.cons ⟨r, hp, hst, ho, hl⟩ h1, ?_, ?_⟩
    · simp only [List.map_cons, List.flatten_cons, hw, h2, List.cons_append, List.nil_append]
    · intro o ho1
      rcases List.mem_cons.mp ho1 with h5 | h5
      · rw [h5]; exact hl
      · exact h3 o h5

/-- What a FIFO queue writes for a sequence of responses. -/
theorem fifo_wire_responses (outs : List DATA_BLOB)
    (h : ∀ o ∈ outs, o.data.length = o.length) :
    fifo_wire (outs.map (fun out =>
        [{ iov_base := RSIVAL out.length, iov_len := 4 },
         { iov_base := out.data, iov_len := out.length }])) =
      (outs.map (fun out => RSIVAL out.length ++ out.data)).flatten := by
  induction outs with
  | nil => rfl
  | cons o rest ih =>
    rw [List.map_cons, fifo_wire_response o (h o (List.mem_cons_self _ _)),
      ih (fun o1 h1 => h o1 (List.mem_cons_of_mem _ h1))]
    simp

/-- C13: on a connection set up by `dns_tcp_accept`, which creates its one send queue,
for every sequence of requests that are read and processed without failure the send
queue receives one entry per request, in the order in which the requests were read, and
the entry for a request is the output blob of `dns_process` for that request as one
unit of two segments, the four bytes of its length and its bytes; so a FIFO queue
writes the length-prefixed responses one after the other in that order, all bytes of the
response to an earlier request before every byte of the response to a later one. -/
theorem tcp_responses_enqueued_in_order (A : accept_env) (Ts : List tcp_env)
    (hacc : accept_succeeds A = true) (hall : ∀ T ∈ Ts, tcp_run_succeeds T = true) :
    ∃ (c : tcp_connection) (outs : List DATA_BLOB),
      tcp_connection_run (tcp_connection_accepted A) Ts = some c ∧
      c.queues_created = 1 ∧ c.terminated = false ∧
      List.Forall₂ (fun T out =>
        ∃ r, dns_process T.dns (skip_length_header T.recv_blob) = some r ∧
          r.status = NT_STATUS_OK ∧ r.out = some out ∧ out.data.length = out.length)
        Ts outs ∧
      c.send_queue = outs.map (fun out =>
        [{ iov_base := RSIVAL out.length, iov_len := 4 },
         { iov_base := out.data, iov_len := out.length }]) ∧
      c.send_queue = (Ts.map tcp_writes).flatten ∧
      fifo_wire c.send_queue =
        (outs.map (fun out => RSIVAL out.length ++ out.data)).flatten ∧
      (∀ pre o1 mid o2 post, outs = pre ++ o1 :: mid ++ o2 :: post →
        fifo_wire c.send_queue =
          (pre.map (fun out => RSIVAL out.length ++ out.data)).flatten ++
          (RSIVAL o1.length ++ o1.data) ++
          (mid.map (fun out => RSIVAL out.length ++ out.data)).flatten ++
          (RSIVAL o2.length ++ o2.data) ++
          (post.map (fun out => RSIVAL out.length ++ out.data)).flatten) := by
  obtain ⟨outs, h1, h2, h3⟩ := tcp_writes_responses Ts hall
  have hw := fifo_wire_responses outs h3
  rw [tcp_connection_accepted_success A hacc,
    tcp_connection_run_success Ts _ rfl rfl hall]
  refine ⟨_, outs, rfl, rfl, rfl, h1, ?_, ?_, ?_, ?_⟩
  · simp only [List.nil_append]
    exact h2
  · simp
  · simp only [List.nil_append]
    rw [h2]
    exact hw
  · intro pre o1 mid o2 post ho
    simp only [List.nil_append]
    rw [h2, hw, ho]
    simp [List.append_assoc]

/-- Witness of C13: two requests on one connection, with one and with two questions. -/
theorem tcp_responses_enqueued_in_order_witness :
    ∃ (c : tcp_connection) (outs : List DATA_BLOB),
      tcp_connection_run (tcp_connection_accepted sample_accept)
        [sample_tcp_env [0, 0, 0, 2, 1, 0], sample_tcp_env [0, 0, 0, 3, 2, 0, 0]] = some c ∧
      c.queues_created = 1 ∧ c.terminated = false ∧
      List.Forall₂ (fun T out =>
        ∃ r, dns_process T.dns (skip_length_header T.recv_blob) = some r ∧
          r.status = NT_STATUS_OK ∧ r.out = some out ∧ out.data.length = out.length)
        [sample_tcp_env [0, 0, 0, 2, 1, 0], sample_tcp_env [0, 0, 0, 3, 2, 0, 0]] outs ∧
      c.send_queue = outs.map (fun out =>
        [{ iov_base := RSIVAL out.length, iov_len := 4 },
         { iov_base := out.data, iov_len := out.length }]) ∧
      c.send_queue =
        ([sample_tcp_env [0, 0, 0, 2, 1, 0], sample_tcp_env [0, 0, 0, 3, 2, 0, 0]].map
          tcp_writes).flatten ∧
      fifo_wire c.send_queue =
        (outs.map (fun out => RSIVAL out.length ++ out.data)).flatten ∧
      (∀ pre o1 mid o2 post, outs = pre ++ o1 :: mid ++ o2 :: post →
        fifo_wire c.send_queue =
          (pre.map (fun out => RSIVAL out.length ++ out.data)).flatten ++
          (RSIVAL o1.length ++ o1.data) ++
          (mid.map (fun out => RSIVAL out.length ++ out.data)).flatten ++
          (RSIVAL o2.length ++ o2.data) ++
          (post.map (fun out => RSIVAL out.length ++ out.data)).flatten) :=
  tcp_responses_enqueued_in_order sample_accept
    [sample_tcp_env [0, 0, 0, 2, 1, 0], sample_tcp_env [0, 0, 0, 3, 2, 0, 0]] rfl
    (by
      intro T hT
      simp only [List.mem_cons, List.mem_singleton, List.not_mem_nil, or_false] at hT
      rcases hT with h | h <;> subst h <;> rfl)

/-! ## Lemmas on the datagram handler -/

/-- A successful `dns_process` decoded the blob it was given. -/
theorem dns_process_ok_pulled (E : dns_env) (inp : DATA_BLOB) (r : dns_process_result)
    (h : dns_process E inp = some r) (hst : r.status = NT_STATUS_OK) :
    r.pulled = some inp := by
  cases hin : E.in_packet_ok with
  | false =>
    simp only [dns_process, hin, if_true, Option.some.injEq] at h
    subst h
    simp at hst
  | true =>
    rcases (dns_process_cases E inp r h).1 with hn | hs
    · cases hp : E.ndr_pull inp with
      | none =>
        simp only [dns_process, hin, hp, Bool.true_eq_false, if_false,
          Option.some.injEq] at h
        subst h
        simp at hst
      | some p =>
        cases hout : E.out_packet_ok with
        | false => simp [dns_process, hin, hp, hout] at h
        | true =>
          obtain ⟨r1, pk, h1, h2, _⟩ := dns_process_decoded E inp p hin hout hp
          rw [h] at h1
          simp only [Option.some.injEq] at h1
          subst h1
          exact h2
    · exact hs

/-- The paths through `dns_udp_call_loop`: whatever happens to the datagram, the
function ends with the statements after the label `done`, and before them it has
requested no receive and terminated nothing. -/
theorem dns_udp_call_loop_paths (U : udp_env) (acts : List udp_action)
    (h : dns_udp_call_loop U = some acts) :
    ∃ pre, acts = pre ++ dns_udp_call_loop_done U ∧
      recvfrom_calls pre = [] ∧ task_terminate_calls pre = 0 ∧
      callback_call_loop_calls pre = 0 ∧
      (sendto_calls pre = [] ∨
        ∃ r out, U.call_ok = true ∧ U.recv_len ≠ -1 ∧
          dns_process U.dns (udp_call_in U) = some r ∧ r.status = NT_STATUS_OK ∧
          r.out = some out ∧ sendto_calls pre = [(out.data, out.length, U.recv_src)] ∧
          udp_process_calls pre = [udp_call_in U]) := by
  unfold dns_udp_call_loop at h
  cases hc : U.call_ok with
  | false =>
    simp only [hc, if_true, Option.some.injEq] at h
    exact ⟨_, h.symm, rfl, rfl, rfl, Or.inl rfl⟩
  | true =>
    by_cases hl : U.recv_len = -1
    · simp only [hc, hl, Bool.true_eq_false, if_false, if_true, Option.some.injEq] at h
      exact ⟨_, h.symm, rfl, rfl, rfl, Or.inl rfl⟩
    · simp only [hc, hl, Bool.true_eq_false, if_false] at h
      cases hp : dns_process U.dns (udp_call_in U) with
      | none => simp [hp] at h
      | some r =>
        simp only [hp] at h
        by_cases hst : r.status = NT_STATUS_OK
        · cases ho : r.out with
          | none => simp [hst, ho, NT_STATUS_IS_OK] at h
          | some out =>
            simp only [hst, ho, NT_STATUS_IS_OK, decide_True, Bool.true_eq_false,
              if_false] at h
            cases hs : U.sendto_ok with
            | false =>
              simp only [hs, if_true, Option.some.injEq] at h
              exact ⟨_, h.symm, rfl, rfl, rfl,
                Or.inr ⟨r, out, rfl, hl, rfl, hst, ho, rfl, rfl⟩⟩
            | true =>
              simp only [hs, Bool.true_eq_false, if_false, Option.some.injEq] at h
              exact ⟨_, h.symm, rfl, rfl, rfl,
                Or.inr ⟨r, out, rfl, hl, rfl, hst, ho, rfl, rfl⟩⟩
        · have hno : NT_STATUS_IS_OK r.status = false := by simp [NT_STATUS_IS_OK, hst]
          simp only [hno, if_true, Option.some.injEq] at h
          exact ⟨_, h.symm, rfl, rfl, rfl, Or.inl rfl⟩

/-- With `out_packet` allocated, `dns_udp_call_loop` has defined behaviour. -/
theorem dns_udp_call_loop_defined (U : udp_env) (hout : U.dns.out_packet_ok = true) :
    ∃ acts, dns_udp_call_loop U = some acts := by
  obtain ⟨r, hp⟩ := dns_process_defined U.dns (udp_call_in U) hout
  unfold dns_udp_call_loop
  simp only [hp]
  split
  · exact ⟨_, rfl⟩
  · split
    · exact ⟨_, rfl⟩
    · split
      · exact ⟨_, rfl⟩
      · rename_i hst
        have hst1 : r.status = NT_STATUS_OK := by simpa [NT_STATUS_IS_OK] using hst
        obtain ⟨bytes, hb⟩ := (dns_process_cases U.dns _ r hp).2 hst1
        simp only [hb]
        split <;> exact ⟨_, rfl⟩

/-- The receive requests among the calls of a list followed by another. -/
theorem recvfrom_calls_append (a b : List udp_action) :
    recvfrom_calls (a ++ b) = recvfrom_calls a ++ recvfrom_calls b := by
  induction a with
  | nil => rfl
  | cons x xs ih => cases x <;> simp [recvfrom_calls, ih]

/-- The task terminations among the calls of a list followed by another. -/
theorem task_terminate_calls_append (a b : List udp_action) :
    task_terminate_calls (a ++ b) = task_terminate_calls a + task_terminate_calls b := by
  induction a with
  | nil => simp [task_terminate_calls]
  | cons x xs ih =>
    cases x <;> simp [task_terminate_calls, ih]
    omega

/-- The callback registrations among the calls of a list followed by another. -/
theorem callback_call_loop_calls_append (a b : List udp_action) :
    callback_call_loop_calls (a ++ b)
      = callback_call_loop_calls a + callback_call_loop_calls b := by
  induction a with
  | nil => simp [callback_call_loop_calls]
  | cons x xs ih =>
    cases x <;> simp [callback_call_loop_calls, ih]
    omega

/-- The sends among the calls of a list followed by another. -/
theorem sendto_calls_append (a b : List udp_action) :
    sendto_calls (a ++ b) = sendto_calls a ++ sendto_calls b := by
  induction a with
  | nil => rfl
  | cons x xs ih => cases x <;> simp [sendto_calls, ih]

/-- The statements after the label `done` send nothing and request one receive. -/
theorem dns_udp_call_loop_done_calls (U : udp_env) :
    sendto_calls (dns_udp_call_loop_done U) = [] ∧
    recvfrom_calls (dns_udp_call_loop_done U) = [U.dgram] ∧
    (U.recvfrom_ok = true →
      task_terminate_calls (dns_udp_call_loop_done U) = 0 ∧
      callback_call_loop_calls (dns_udp_call_loop_done U) = 1) ∧
    (U.recvfrom_ok = false →
      task_terminate_calls (dns_udp_call_loop_done U) = 1 ∧
      callback_call_loop_calls (dns_udp_call_loop_done U) = 0) := by
  unfold dns_udp_call_loop_done
  cases U.recvfrom_ok <;> simp [sendto_calls, recvfrom_calls, task_terminate_calls,
    callback_call_loop_calls]

/-! ## The datagram handler: dropped datagrams, re-arming, sending -/

/-- C14, as stated, fails: the receive fails and the request for the next receive
cannot be allocated; `dns_udp_call_loop` sends nothing but terminates the task. -/
theorem udp_receive_failure_can_terminate_task :
    dns_udp_call_loop (sample_udp_env [] (-1) false) = some
      [udp_action.talloc_free_call, udp_action.recvfrom_send 7,
       udp_action.task_server_terminate "no memory for tdgram_recvfrom_send" true] ∧
    (sample_udp_env [] (-1) false).recv_len = -1 :=
  ⟨rfl, rfl⟩

/-- C14, amended: for every datagram on which the receive fails or `dns_process` fails,
`dns_udp_call_loop` enqueues no send at all, and it does not terminate the task when
the request for the next receive is allocated. -/
theorem udp_failed_datagram_no_send (U : udp_env)
    (hout : U.dns.out_packet_ok = true)
    (hfail : U.recv_len = -1 ∨
      ∃ r, dns_process U.dns (udp_call_in U) = some r ∧ r.status ≠ NT_STATUS_OK) :
    ∃ acts, dns_udp_call_loop U = some acts ∧ sendto_calls acts = [] ∧
      (U.recvfrom_ok = true → task_terminate_calls acts = 0) := by
  obtain ⟨acts, hacts⟩ := dns_udp_call_loop_defined U hout
  obtain ⟨pre, hpre, _, h2, _, h4⟩ := dns_udp_call_loop_paths U acts hacts
  obtain ⟨d1, _, d3, _⟩ := dns_udp_call_loop_done_calls U
  refine ⟨acts, hacts, ?_, ?_⟩
  · rw [hpre, sendto_calls_append, d1]
    rcases h4 with h4 | ⟨r, out, _, hl, hp, hst, _⟩
    · rw [h4]
      rfl
    · rcases hfail with hf | ⟨r1, hp1, hst1⟩
      · exact absurd hf hl
      · rw [hp] at hp1
        simp only [Option.some.injEq] at hp1
        subst hp1
        exact absurd hst hst1
  · intro hre
    rw [hpre, task_terminate_calls_append, h2, (d3 hre).1]

/-- Witness of C14, amended: an empty datagram, which the decoder rejects. -/
theorem udp_failed_datagram_no_send_witness :
    (∃ r, dns_process (sample_udp_env [] 0 true).dns (udp_call_in (sample_udp_env [] 0 true))
        = some r ∧ r.status ≠ NT_STATUS_OK) ∧
    ∃ acts, dns_udp_call_loop (sample_udp_env [] 0 true) = some acts ∧
      sendto_calls acts = [] ∧
      ((sample_udp_env [] 0 true).recvfrom_ok = true → task_terminate_calls acts = 0) :=
  ⟨⟨_, rfl, by decide⟩,
    udp_failed_datagram_no_send (sample_udp_env [] 0 true) rfl
      (Or.inr ⟨_, rfl, by decide⟩)⟩

/-- C15, as stated, fails: a datagram is answered and the request for the next receive
cannot be allocated; `dns_udp_call_loop` is not set as a callback and the task is
terminated, so no receive is pending on the socket. -/
theorem udp_receive_not_always_rearmed :
    ∃ acts, dns_udp_call_loop (sample_udp_env [1, 0] 2 false) = some acts ∧
      sendto_calls acts = [([0x12, 0x34, 1, 1, 0, 0], 6, "192.0.2.1")] ∧
      callback_call_loop_calls acts = 0 ∧ task_terminate_calls acts = 1 :=
  ⟨_, rfl, rfl, rfl, rfl⟩

/-- C15, amended: on every path through `dns_udp_call_loop` the handler calls
`tdgram_recvfrom_send` exactly once, on the same datagram socket; when that call
returns a request, `dns_udp_call_loop` is set once as its completion callback and the
task is not terminated; when it returns `NULL`, no callback is set and the task is
terminated. -/
theorem udp_requests_one_receive (U : udp_env) (hout : U.dns.out_packet_ok = true) :
    ∃ acts, dns_udp_call_loop U = some acts ∧ recvfrom_calls acts = [U.dgram] ∧
      (U.recvfrom_ok = true →
        callback_call_loop_calls acts = 1 ∧ task_terminate_calls acts = 0 ∧
        acts.getLast? = some udp_action.set_callback_call_loop) ∧
      (U.recvfrom_ok = false →
        callback_call_loop_calls acts = 0 ∧ task_terminate_calls acts = 1) := by
  obtain ⟨acts, hacts⟩ := dns_udp_call_loop_defined U hout
  obtain ⟨pre, hpre, h1, h2, h3, _⟩ := dns_udp_call_loop_paths U acts hacts
  obtain ⟨_, d2, d3, d4⟩ := dns_udp_call_loop_done_calls U
  refine ⟨acts, hacts, ?_, ?_, ?_⟩
  · rw [hpre, recvfrom_calls_append, h1, d2]
    rfl
  · intro hre
    refine ⟨?_, ?_, ?_⟩
    · rw [hpre, callback_call_loop_calls_append, h3, (d3 hre).2]
    · rw [hpre, task_terminate_calls_append, h2, (d3 hre).1]
    · rw [hpre]
      simp [dns_udp_call_loop_done, hre]
  · intro hre
    refine ⟨?_, ?_⟩
    · rw [hpre, callback_call_loop_calls_append, h3, (d4 hre).2]
    · rw [hpre, task_terminate_calls_append, h2, (d4 hre).1]

/-- Witness of C15, amended: a datagram that is answered, with the next receive
request allocated. -/
theorem udp_requests_one_receive_witness :
    ∃ acts, dns_udp_call_loop (sample_udp_env [1, 0] 2 true) = some acts ∧
      recvfrom_calls acts = [(sample_udp_env [1, 0] 2 true).dgram] ∧
      ((sample_udp_env [1, 0] 2 true).recvfrom_ok = true →
        callback_call_loop_calls acts = 1 ∧ task_terminate_calls acts = 0 ∧
        acts.getLast? = some udp_action.set_callback_call_loop) ∧
      ((sample_udp_env [1, 0] 2 true).recvfrom_ok = false →
        callback_call_loop_calls acts = 0 ∧ task_terminate_calls acts = 1) :=
  udp_requests_one_receive (sample_udp_env [1, 0] 2 true) rfl

/-- C16: for a datagram that is received and processed successfully,
`dns_udp_call_loop` calls `tdgram_sendto_queue_send` exactly once, with the source
address of the datagram as destination and the output blob of `dns_process` as payload
(its bytes and its length, no length prefix), and the decoder was given exactly the
received payload. -/
theorem udp_sends_response_to_source (U : udp_env) (r : dns_process_result)
    (out : DATA_BLOB)
    (hcall : U.call_ok = true)
    (hlen : U.recv_len = (U.recv_buf.length : Int))
    (hsz : U.recv_buf.length < SIZE_T_RANGE)
    (hproc : dns_process U.dns (udp_call_in U) = some r)
    (hst : r.status = NT_STATUS_OK) (hout : r.out = some out) :
    ∃ acts, dns_udp_call_loop U = some acts ∧
      sendto_calls acts = [(out.data, out.length, U.recv_src)] ∧
      out.data.length = out.length ∧
      udp_process_calls acts = [udp_call_in U] ∧
      r.pulled = some (udp_call_in U) ∧
      (udp_call_in U).data = U.recv_buf ∧
      (udp_call_in U).length = U.recv_buf.length := by
  have hl : U.recv_len ≠ -1 := by omega
  obtain ⟨bytes, hb⟩ := (dns_process_cases U.dns _ r hproc).2 hst
  have hacts : ∃ acts, dns_udp_call_loop U = some acts ∧
      sendto_calls acts = [(out.data, out.length, U.recv_src)] ∧
      udp_process_calls acts = [udp_call_in U] := by
    unfold dns_udp_call_loop
    simp only [hcall, hl, hproc, hst, hout, NT_STATUS_IS_OK, decide_True, Bool.true_eq_false,
      if_false]
    unfold dns_udp_call_loop_done
    cases U.sendto_ok <;> cases U.recvfrom_ok <;> exact ⟨_, rfl, rfl, rfl⟩
  obtain ⟨acts, ha, hs, hpc⟩ := hacts
  refine ⟨acts, ha, hs, ?_, hpc, dns_process_ok_pulled U.dns _ r hproc hst, rfl, ?_⟩
  · rw [hout] at hb
    simp only [Option.some.injEq] at hb
    rw [hb]
  · simp only [udp_call_in, hlen, SIZE_T_RANGE] at hsz ⊢
    omega

/-- Witness of C16: a datagram of two bytes that asks one question. -/
theorem udp_sends_response_to_source_witness :
    ∃ acts, dns_udp_call_loop (sample_udp_env [1, 0] 2 true) = some acts ∧
      sendto_calls acts = [([0x12, 0x34, 1, 1, 0, 0], 6, "192.0.2.1")] ∧
      [0x12, 0x34, 1, 1, 0, 0].length = 6 ∧
      udp_process_calls acts = [udp_call_in (sample_udp_env [1, 0] 2 true)] ∧
      some (udp_call_in (sample_udp_env [1, 0] 2 true))
        = some (udp_call_in (sample_udp_env [1, 0] 2 true)) ∧
      (udp_call_in (sample_udp_env [1, 0] 2 true)).data = [1, 0] ∧
      (udp_call_in (sample_udp_env [1, 0] 2 true)).length = 2 :=
  udp_sends_response_to_source (sample_udp_env [1, 0] 2 true)
    { status := NT_STATUS_OK, pulled := some (udp_call_in (sample_udp_env [1, 0] 2 true)),
      reply := some (compute_reply (sample_env (fun _ => true)) (sample_request 1)),
      pushed := some { sample_request 1 with
        operation := DNS_FLAG_REPLY ||| DNS_FLAG_AUTHORITATIVE,
        ancount := 1, answers := some [fixed_record] },
      out := some { data := [0x12, 0x34, 1, 1, 0, 0], length := 6 } }
    { data := [0x12, 0x34, 1, 1, 0, 0], length := 6 } rfl rfl (by decide) rfl rfl rfl

/-- C17, as stated, fails: the allocation of the per-datagram call fails and then the
allocation of the next receive request fails; `dns_udp_call_loop` terminates the DNS
server task, with the fatal flag set. -/
theorem udp_allocation_failure_terminates_task :
    dns_udp_call_loop { sample_udp_env [1, 0] 2 false with call_ok := false } = some
      [udp_action.talloc_free_call, udp_action.recvfrom_send 7,
       udp_action.task_server_terminate "no memory for tdgram_recvfrom_send" true] :=
  rfl

/-- C17, amended: an allocation failure of the per-datagram call, of `in_packet` in
`dns_process` (or any other failure status of `dns_process`), or of the send request is
confined to the datagram: `dns_udp_call_loop` releases the call, requests the next
receive on the same socket with itself as callback, and calls nothing else after its
last successful step; in particular it does not terminate the task. Whatever failed
before, when the next receive request is allocated the task is not terminated, and when
it cannot be allocated the last call of `dns_udp_call_loop` terminates the task with the
fatal flag set. -/
theorem udp_allocation_failure_confined (U : udp_env) (hout : U.dns.out_packet_ok = true) :
    ∃ acts, dns_udp_call_loop U = some acts ∧
      (U.recvfrom_ok = true →
        task_terminate_calls acts = 0 ∧ recvfrom_calls acts = [U.dgram] ∧
        callback_call_loop_calls acts = 1) ∧
      (U.call_ok = false → U.recvfrom_ok = true →
        acts = [udp_action.talloc_free_call, udp_action.recvfrom_send U.dgram,
                udp_action.set_callback_call_loop]) ∧
      (U.call_ok = true → U.recv_len ≠ -1 → U.dns.in_packet_ok = false →
        U.recvfrom_ok = true →
        acts = [udp_action.process (udp_call_in U), udp_action.talloc_free_call,
                udp_action.recvfrom_send U.dgram, udp_action.set_callback_call_loop]) ∧
      (∀ r, U.call_ok = true → U.recv_len ≠ -1 →
        dns_process U.dns (udp_call_in U) = some r → r.status ≠ NT_STATUS_OK →
        U.recvfrom_ok = true →
        acts = [udp_action.process (udp_call_in U), udp_action.talloc_free_call,
                udp_action.recvfrom_send U.dgram, udp_action.set_callback_call_loop]) ∧
      (∀ r out, U.call_ok = true → U.recv_len ≠ -1 →
        dns_process U.dns (udp_call_in U) = some r → r.status = NT_STATUS_OK →
        r.out = some out → U.sendto_ok = false → U.recvfrom_ok = true →
        acts = [udp_action.process (udp_call_in U),
                udp_action.sendto_queue_send out.data out.length U.recv_src,
                udp_action.talloc_free_call,
                udp_action.recvfrom_send U.dgram, udp_action.set_callback_call_loop]) ∧
      (U.recvfrom_ok = false →
        acts.getLast? = some
          (udp_action.task_server_terminate "no memory for tdgram_recvfrom_send" true)) := by
  obtain ⟨acts, hacts⟩ := dns_udp_call_loop_defined U hout
  obtain ⟨pre, hpre, h1, h2, h3, _⟩ := dns_udp_call_loop_paths U acts hacts
  obtain ⟨_, d2, d3, _⟩ := dns_udp_call_loop_done_calls U
  have hfail : ∀ r, U.call_ok = true → U.recv_len ≠ -1 →
      dns_process U.dns (udp_call_in U) = some r → r.status ≠ NT_STATUS_OK →
      U.recvfrom_ok = true →
      acts = [udp_action.process (udp_call_in U), udp_action.talloc_free_call,
              udp_action.recvfrom_send U.dgram, udp_action.set_callback_call_loop] := by
    intro r hc hl hp hst hre
    have hno : NT_STATUS_IS_OK r.status = false := by simp [NT_STATUS_IS_OK, hst]
    have hval : dns_udp_call_loop U = some
        [udp_action.process (udp_call_in U), udp_action.talloc_free_call,
         udp_action.recvfrom_send U.dgram, udp_action.set_callback_call_loop] := by
      unfold dns_udp_call_loop dns_udp_call_loop_done
      simp only [hc, hl, hp, hno, hre, Bool.true_eq_false, if_false, if_true,
        List.cons_append, List.nil_append]
    rw [hacts] at hval
    exact Option.some.inj hval
  refine ⟨acts, hacts, ?_, ?_, ?_, hfail, ?_, ?_⟩
  · intro hre
    refine ⟨?_, ?_, ?_⟩
    · rw [hpre, task_terminate_calls_append, h2, (d3 hre).1]
    · rw [hpre, recvfrom_calls_append, h1, d2]
      rfl
    · rw [hpre, callback_call_loop_calls_append, h3, (d3 hre).2]
  · intro hc hre
    have hval : dns_udp_call_loop U = some
        [udp_action.talloc_free_call, udp_action.recvfrom_send U.dgram,
         udp_action.set_callback_call_loop] := by
      unfold dns_udp_call_loop dns_udp_call_loop_done
      simp only [hc, hre, Bool.true_eq_false, if_false, if_true, List.cons_append,
        List.nil_append]
    rw [hacts] at hval
    exact Option.some.inj hval
  · intro hc hl hin hre
    refine hfail { status := NT_STATUS_INVALID_PARAMETER, pulled := none, reply := none,
                   pushed := none, out := none } hc hl ?_ (by decide) hre
    unfold dns_process
    simp only [hin, if_true]
  · intro r out hc hl hp hst ho hs hre
    have hval : dns_udp_call_loop U = some
        [udp_action.process (udp_call_in U),
         udp_action.sendto_queue_send out.data out.length U.recv_src,
         udp_action.talloc_free_call,
         udp_action.recvfrom_send U.dgram, udp_action.set_callback_call_loop] := by
      unfold dns_udp_call_loop dns_udp_call_loop_done
      simp only [hc, hl, hp, hst, ho, hs, hre, NT_STATUS_IS_OK, decide_True,
        Bool.true_eq_false, if_false, if_true, List.cons_append, List.nil_append]
    rw [hacts] at hval
    exact Option.some.inj hval
  · intro hre
    rw [hpre]
    simp [dns_udp_call_loop_done, hre]

/-- Witness of C17, amended: the allocation of the send request fails, the next
receive request is allocated; the call is released after the refused send and the
receive is requested again. -/
theorem udp_allocation_failure_confined_witness :
    dns_udp_call_loop { sample_udp_env [1, 0] 2 true with sendto_ok := false } = some
      [udp_action.process (udp_call_in (sample_udp_env [1, 0] 2 true)),
       udp_action.sendto_queue_send [0x12, 0x34, 1, 1, 0, 0] 6 "192.0.2.1",
       udp_action.talloc_free_call,
       udp_action.recvfrom_send 7, udp_action.set_callback_call_loop] ∧
    ∃ acts, dns_udp_call_loop { sample_udp_env [1, 0] 2 true with sendto_ok := false }
        = some acts ∧
      (({ sample_udp_env [1, 0] 2 true with sendto_ok := false } : udp_env).recvfrom_ok = true →
        task_terminate_calls acts = 0 ∧
        recvfrom_calls acts
          = [({ sample_udp_env [1, 0] 2 true with sendto_ok := false } : udp_env).dgram] ∧
        callback_call_loop_calls acts = 1) ∧
      (({ sample_udp_env [1, 0] 2 true with sendto_ok := false } : udp_env).call_ok = false →
        ({ sample_udp_env [1, 0] 2 true with sendto_ok := false } : udp_env).recvfrom_ok = true →
        acts = [udp_action.talloc_free_call,
                udp_action.recvfrom_send
                  ({ sample_udp_env [1, 0] 2 true with sendto_ok := false } : udp_env).dgram,
                udp_action.set_callback_call_loop]) ∧
      (({ sample_udp_env [1, 0] 2 true with sendto_ok := false } : udp_env).call_ok = true →
        ({ sample_udp_env [1, 0] 2 true with sendto_ok := false } : udp_env).recv_len ≠ -1 →
        ({ sample_udp_env [1, 0] 2 true with sendto_ok := false } : udp_env).dns.in_packet_ok
          = false →
        ({ sample_udp_env [1, 0] 2 true with sendto_ok := false } : udp_env).recvfrom_ok = true →
        acts = [udp_action.process
                  (udp_call_in { sample_udp_env [1, 0] 2 true with sendto_ok := false }),
                udp_action.talloc_free_call,
                udp_action.recvfrom_send
                  ({ sample_udp_env [1, 0] 2 true with sendto_ok := false } : udp_env).dgram,
                udp_action.set_callback_call_loop]) ∧
      (∀ r, ({ sample_udp_env [1, 0] 2 true with sendto_ok := false } : udp_env).call_ok = true →
        ({ sample_udp_env [1, 0] 2 true with sendto_ok := false } : udp_env).recv_len ≠ -1 →
        dns_process ({ sample_udp_env [1, 0] 2 true with sendto_ok := false } : udp_env).dns
          (udp_call_in { sample_udp_env [1, 0] 2 true with sendto_ok := false }) = some r →
        r.status ≠ NT_STATUS_OK →
        ({ sample_udp_env [1, 0] 2 true with sendto_ok := false } : udp_env).recvfrom_ok = true →
        acts = [udp_action.process
                  (udp_call_in { sample_udp_env [1, 0] 2 true with sendto_ok := false }),
                udp_action.talloc_free_call,
                udp_action.recvfrom_send
                  ({ sample_udp_env [1, 0] 2 true with sendto_ok := false } : udp_env).dgram,
                udp_action.set_callback_call_loop]) ∧
      (∀ r out,
        ({ sample_udp_env [1, 0] 2 true with sendto_ok := false } : udp_env).call_ok = true →
        ({ sample_udp_env [1, 0] 2 true with sendto_ok := false } : udp_env).recv_len ≠ -1 →
        dns_process ({ sample_udp_env [1, 0] 2 true with sendto_ok := false } : udp_env).dns
          (udp_call_in { sample_udp_env [1, 0] 2 true with sendto_ok := false }) = some r →
        r.status = NT_STATUS_OK → r.out = some out →
        ({ sample_udp_env [1, 0] 2 true with sendto_ok := false } : udp_env).sendto_ok = false →
        ({ sample_udp_env [1, 0] 2 true with sendto_ok := false } : udp_env).recvfrom_ok = true →
        acts = [udp_action.process
                  (udp_call_in { sample_udp_env [1, 0] 2 true with sendto_ok := false }),
                udp_action.sendto_queue_send out.data out.length
                  ({ sample_udp_env [1, 0] 2 true with sendto_ok := false } : udp_env).recv_src,
                udp_action.talloc_free_call,
                udp_action.recvfrom_send
                  ({ sample_udp_env [1, 0] 2 true with sendto_ok := false } : udp_env).dgram,
                udp_action.set_callback_call_loop]) ∧
      (({ sample_udp_env [1, 0] 2 true with sendto_ok := false } : udp_env).recvfrom_ok = false →
        acts.getLast? = some
          (udp_action.task_server_terminate "no memory for tdgram_recvfrom_send" true)) :=
  ⟨rfl,
    udp_allocation_failure_confined { sample_udp_env [1, 0] 2 true with sendto_ok := false } rfl⟩

/-- C18: whatever `tdgram_sendto_queue_recv` returned, `dns_udp_call_sendto_done` only
releases the per-datagram call: it terminates nothing, sends nothing, requests no
receive and sets no callback. -/
theorem udp_sendto_done_only_frees (ret sys_errno : Int) :
    dns_udp_call_sendto_done ret sys_errno = [udp_action.talloc_free_call] ∧
    task_terminate_calls (dns_udp_call_sendto_done ret sys_errno) = 0 ∧
    sendto_calls (dns_udp_call_sendto_done ret sys_errno) = [] ∧
    recvfrom_calls (dns_udp_call_sendto_done ret sys_errno) = [] ∧
    callback_call_loop_calls (dns_udp_call_sendto_done ret sys_errno) = 0 :=
  ⟨rfl, rfl, rfl, rfl, rfl⟩

/-! ## Socket setup: calls and statuses -/

/-- The loop of `dns_startup_interfaces`: the calls made are the calls for the first
interfaces in index order; the status is OK exactly when all interfaces were served and
every call returned OK; otherwise the last call made is the first one that failed and
its status is returned. -/
theorem dns_startup_interfaces_loop_calls (E : startup_env) (l : List String) :
    ∀ i : Nat,
      (dns_startup_interfaces_loop E l i).2 =
        ((l.enumFrom i).map (fun p => startup_call E p.1 p.2)).take
          (dns_startup_interfaces_loop E l i).2.length ∧
      ((dns_startup_interfaces_loop E l i).1 = NT_STATUS_OK →
        (dns_startup_interfaces_loop E l i).2 =
          (l.enumFrom i).map (fun p => startup_call E p.1 p.2) ∧
        ∀ c ∈ (dns_startup_interfaces_loop E l i).2, c.status = NT_STATUS_OK) ∧
      ((dns_startup_interfaces_loop E l i).1 ≠ NT_STATUS_OK →
        ∃ c, (dns_startup_interfaces_loop E l i).2.getLast? = some c ∧
          c.status = (dns_startup_interfaces_loop E l i).1 ∧
          ∀ c1 ∈ (dns_startup_interfaces_loop E l i).2.dropLast, c1.status = NT_STATUS_OK) := by
  induction l with
  | nil => intro i; simp [dns_startup_interfaces_loop]
  | cons ip rest ih =>
    intro i
    obtain ⟨h1, h2, h3⟩ := ih (i + 1)
    by_cases hst : (startup_call E i ip).status = NT_STATUS_OK
    · have hok : NT_STATUS_IS_OK (startup_call E i ip).status = true := by
        simp [NT_STATUS_IS_OK, hst]
      simp only [dns_startup_interfaces_loop, hok, Bool.true_eq_false, if_false,
        List.enumFrom_cons, List.map_cons, List.length_cons, List.take_succ_cons,
        List.cons.injEq, true_and, List.mem_cons, forall_eq_or_imp]
      refine ⟨h1, fun h => ⟨(h2 h).1, hst, (h2 h).2⟩, fun h => ?_⟩
      obtain ⟨c, hc1, hc2, hc3⟩ := h3 h
      refine ⟨c, ?_, hc2, ?_⟩
      · rw [List.getLast?_cons, hc1]
        rfl
      · intro c1 hc1m
        cases hr : (dns_startup_interfaces_loop E rest (i + 1)).2 with
        | nil => rw [hr] at hc1; simp at hc1
        | cons x xs =>
          rw [hr, List.dropLast_cons₂] at hc1m
          rw [hr] at hc3
          rcases List.mem_cons.mp hc1m with h5 | h5
          · rw [h5]; exact hst
          · exact hc3 c1 h5
    · have hno : NT_STATUS_IS_OK (startup_call E i ip).status = false := by
        simp [NT_STATUS_IS_OK, hst]
      simp only [dns_startup_interfaces_loop, hno, if_true, List.enumFrom_cons,
        List.map_cons, List.length_singleton, List.take_succ_cons, List.take_zero]
      refine ⟨trivial, fun h => absurd h hst, fun _ => ⟨_, rfl, rfl, by simp⟩⟩


/-- C19, as stated, fails: three interface addresses are configured and every socket
could be set up, but the `single` process model is not found; `dns_startup_interfaces`
makes no call of `dns_add_socket` and returns `NT_STATUS_INTERNAL_ERROR`. -/
theorem startup_without_process_model_makes_no_call :
    dns_startup_interfaces (sample_startup_env false 3) = (NT_STATUS_INTERNAL_ERROR, []) ∧
    (sample_startup_env false 3).ifaces.length = 3 ∧
    (∀ c ∈ startup_calls_all (sample_startup_env false 3), c.status = NT_STATUS_OK) :=
  ⟨rfl, rfl, by decide⟩

/-- C19, amended: when the `single` process model is found, `dns_startup_interfaces`
calls `dns_add_socket` for the interface addresses in index order, always with port
`DNS_SERVICE_PORT`; it returns `NT_STATUS_OK` if and only if every call returned OK, and
then it has made one call per address; otherwise the last call it made is the first
that failed, its status is returned, and nothing is called after it. When the process
model is not found, it returns `NT_STATUS_INTERNAL_ERROR` and makes no call of
`dns_add_socket`, whatever the interfaces are. -/
theorem dns_startup_interfaces_calls (E : startup_env) :
    (E.model_ops_found = true →
      (dns_startup_interfaces E).2 =
        (startup_calls_all E).take (dns_startup_interfaces E).2.length ∧
      (∀ c ∈ startup_calls_all E, c.port = DNS_SERVICE_PORT) ∧
      ((dns_startup_interfaces E).1 = NT_STATUS_OK ↔
        ∀ c ∈ (dns_startup_interfaces E).2, c.status = NT_STATUS_OK) ∧
      ((dns_startup_interfaces E).1 = NT_STATUS_OK →
        (dns_startup_interfaces E).2 = startup_calls_all E ∧
        (dns_startup_interfaces E).2.length = E.ifaces.length) ∧
      ((dns_startup_interfaces E).1 ≠ NT_STATUS_OK →
        ∃ c, (dns_startup_interfaces E).2.getLast? = some c ∧
          c.status = (dns_startup_interfaces E).1 ∧
          ∀ c1 ∈ (dns_startup_interfaces E).2.dropLast, c1.status = NT_STATUS_OK)) ∧
    (E.model_ops_found = false →
      dns_startup_interfaces E = (NT_STATUS_INTERNAL_ERROR, [])) := by
  constructor
  · intro hm
    obtain ⟨h1, h2, h3⟩ := dns_startup_interfaces_loop_calls E E.ifaces 0
    have hdef : dns_startup_interfaces E = dns_startup_interfaces_loop E E.ifaces 0 := by
      simp [dns_startup_interfaces, hm]
    rw [hdef]
    refine ⟨h1, ?_, ⟨fun h => (h2 h).2, fun h => ?_⟩, fun h => ⟨(h2 h).1, ?_⟩, h3⟩
    · intro c hc
      simp only [startup_calls_all, List.mem_map] at hc
      obtain ⟨p, _, hp⟩ := hc
      rw [← hp]
      rfl
    · by_contra hne
      obtain ⟨c, hc1, hc2, _⟩ := h3 hne
      exact hne (hc2 ▸ h c (List.mem_of_getLast?_eq_some hc1))
    · rw [(h2 h).1]
      simp
  · intro hm
    unfold dns_startup_interfaces
    rw [if_pos hm]

/-- Witness of C19, amended: three addresses, the stream listener of the second cannot
be set up; two calls are made and the status of the second is returned. -/
theorem dns_startup_interfaces_calls_witness :
    dns_startup_interfaces (sample_startup_env true 1) =
      (NTSTATUS.other 0xC000000A,
       [startup_call (sample_startup_env true 1) 0 "192.0.2.1",
        startup_call (sample_startup_env true 1) 1 "192.0.2.2"]) ∧
    (sample_startup_env true 1).model_ops_found = true ∧
    (((sample_startup_env true 1).model_ops_found = true →
      (dns_startup_interfaces (sample_startup_env true 1)).2 =
        (startup_calls_all (sample_startup_env true 1)).take
          (dns_startup_interfaces (sample_startup_env true 1)).2.length ∧
      (∀ c ∈ startup_calls_all (sample_startup_env true 1), c.port = DNS_SERVICE_PORT) ∧
      ((dns_startup_interfaces (sample_startup_env true 1)).1 = NT_STATUS_OK ↔
        ∀ c ∈ (dns_startup_interfaces (sample_startup_env true 1)).2,
          c.status = NT_STATUS_OK) ∧
      ((dns_startup_interfaces (sample_startup_env true 1)).1 = NT_STATUS_OK →
        (dns_startup_interfaces (sample_startup_env true 1)).2
          = startup_calls_all (sample_startup_env true 1) ∧
        (dns_startup_interfaces (sample_startup_env true 1)).2.length
          = (sample_startup_env true 1).ifaces.length) ∧
      ((dns_startup_interfaces (sample_startup_env true 1)).1 ≠ NT_STATUS_OK →
        ∃ c, (dns_startup_interfaces (sample_startup_env true 1)).2.getLast? = some c ∧
          c.status = (dns_startup_interfaces (sample_startup_env true 1)).1 ∧
          ∀ c1 ∈ (dns_startup_interfaces (sample_startup_env true 1)).2.dropLast,
            c1.status = NT_STATUS_OK)) ∧
    ((sample_startup_env true 1).model_ops_found = false →
      dns_startup_interfaces (sample_startup_env true 1) = (NT_STATUS_INTERNAL_ERROR, []))) :=
  ⟨rfl, rfl, dns_startup_interfaces_calls (sample_startup_env true 1)⟩

/-- C20: provided `map_nt_error_from_unix` maps the error numbers to failure statuses,
`dns_add_socket` returns `NT_STATUS_OK` only when every step succeeded (the allocation
of the socket structures, the local address, the stream listener, the datagram bind,
the creation of the send queue and the receive request), and then it has set up one
stream listener and one datagram socket for the given address and port, created the
datagram send queue and requested one receive with `dns_udp_call_loop` as callback, in
that order and with nothing else; conversely it returns `NT_STATUS_OK` whenever every
step succeeded. When the stream listener setup fails it returns that status without
creating a datagram socket; when the datagram bind fails it returns a failure status
without requesting a receive. -/
theorem dns_add_socket_sets_up_both (S : add_socket_env) (address : Option String)
    (port : Nat)
    (hmap1 : S.map_nt_error_from_unix S.address_errno ≠ NT_STATUS_OK)
    (hmap2 : S.map_nt_error_from_unix S.bind_errno ≠ NT_STATUS_OK) :
    ((dns_add_socket S address port).1 = NT_STATUS_OK →
      (S.dns_socket_ok = true ∧ S.address_ret = 0 ∧ S.stream_status = NT_STATUS_OK ∧
        S.udp_socket_ok = true ∧ S.bind_ret = 0 ∧ S.queue_ok = true ∧
        S.recvfrom_ok = true) ∧
      (dns_add_socket S address port).2 =
        [add_socket_action.address_inet_from_strings address port,
         add_socket_action.stream_setup_socket address port,
         add_socket_action.inet_udp_socket (address, port),
         add_socket_action.queue_create "dns_udp_send_queue",
         add_socket_action.recvfrom_send,
         add_socket_action.set_callback_udp_call_loop]) ∧
    (S.dns_socket_ok = true → S.address_ret = 0 → S.stream_status = NT_STATUS_OK →
      S.udp_socket_ok = true → S.bind_ret = 0 → S.queue_ok = true → S.recvfrom_ok = true →
      (dns_add_socket S address port).1 = NT_STATUS_OK) ∧
    (S.dns_socket_ok = true → S.address_ret = 0 → S.stream_status ≠ NT_STATUS_OK →
      dns_add_socket S address port =
        (S.stream_status,
         [add_socket_action.address_inet_from_strings address port,
          add_socket_action.stream_setup_socket address port,
          add_socket_action.talloc_free_dns_socket])) ∧
    (S.dns_socket_ok = true → S.address_ret = 0 → S.stream_status = NT_STATUS_OK →
      S.udp_socket_ok = true → S.bind_ret ≠ 0 →
      (dns_add_socket S address port).1 ≠ NT_STATUS_OK ∧
      dns_add_socket S address port =
        (S.map_nt_error_from_unix S.bind_errno,
         [add_socket_action.address_inet_from_strings address port,
          add_socket_action.stream_setup_socket address port,
          add_socket_action.inet_udp_socket (address, port)])) := by
  refine ⟨?_, ?_, ?_, ?_⟩
  · intro h
    unfold dns_add_socket at h ⊢
    cases h1 : S.dns_socket_ok with
    | false => simp [h1] at h
    | true =>
      by_cases h2 : S.address_ret = 0
      · by_cases h3 : S.stream_status = NT_STATUS_OK
        · cases h4 : S.udp_socket_ok with
          | false => simp [h1, h2, h3, h4, NT_STATUS_IS_OK] at h
          | true =>
            by_cases h5 : S.bind_ret = 0
            · cases h6 : S.queue_ok with
              | false => simp [h1, h2, h3, h4, h5, h6, NT_STATUS_IS_OK] at h
              | true =>
                cases h7 : S.recvfrom_ok with
                | false => simp [h1, h2, h3, h4, h5, h6, h7, NT_STATUS_IS_OK] at h
                | true => simp [h2, h3, h5, NT_STATUS_IS_OK]
            · simp [h1, h2, h3, h4, h5, NT_STATUS_IS_OK] at h
              exact absurd h hmap2
        · simp [h1, h2, h3, NT_STATUS_IS_OK] at h
      · simp [h1, h2] at h
        exact absurd h hmap1
  · intro h1 h2 h3 h4 h5 h6 h7
    simp [dns_add_socket, h1, h2, h3, h4, h5, h6, h7, NT_STATUS_IS_OK]
  · intro h1 h2 h3
    simp [dns_add_socket, h1, h2, h3, NT_STATUS_IS_OK]
  · intro h1 h2 h3 h4 h5
    have hd : dns_add_socket S address port =
        (S.map_nt_error_from_unix S.bind_errno,
         [add_socket_action.address_inet_from_strings address port,
          add_socket_action.stream_setup_socket address port,
          add_socket_action.inet_udp_socket (address, port)]) := by
      simp [dns_add_socket, h1, h2, h3, h4, h5, NT_STATUS_IS_OK]
    rw [hd]
    exact ⟨hmap2, rfl⟩

/-- Witness of C20: a setup in which every step succeeds, for 192.0.2.1 and port 53. -/
theorem dns_add_socket_sets_up_both_witness :
    (dns_add_socket sample_add_socket_env (some "192.0.2.1") 53).1 = NT_STATUS_OK ∧
    (((dns_add_socket sample_add_socket_env (some "192.0.2.1") 53).1 = NT_STATUS_OK →
      (sample_add_socket_env.dns_socket_ok = true ∧ sample_add_socket_env.address_ret = 0 ∧
        sample_add_socket_env.stream_status = NT_STATUS_OK ∧
        sample_add_socket_env.udp_socket_ok = true ∧ sample_add_socket_env.bind_ret = 0 ∧
        sample_add_socket_env.queue_ok = true ∧ sample_add_socket_env.recvfrom_ok = true) ∧
      (dns_add_socket sample_add_socket_env (some "192.0.2.1") 53).2 =
        [add_socket_action.address_inet_from_strings (some "192.0.2.1") 53,
         add_socket_action.stream_setup_socket (some "192.0.2.1") 53,
         add_socket_action.inet_udp_socket (some "192.0.2.1", 53),
         add_socket_action.queue_create "dns_udp_send_queue",
         add_socket_action.recvfrom_send,
         add_socket_action.set_callback_udp_call_loop]) ∧
    (sample_add_socket_env.dns_socket_ok = true → sample_add_socket_env.address_ret = 0 →
      sample_add_socket_env.stream_status = NT_STATUS_OK →
      sample_add_socket_env.udp_socket_ok = true → sample_add_socket_env.bind_ret = 0 →
      sample_add_socket_env.queue_ok = true → sample_add_socket_env.recvfrom_ok = true →
      (dns_add_socket sample_add_socket_env (some "192.0.2.1") 53).1 = NT_STATUS_OK) ∧
    (sample_add_socket_env.dns_socket_ok = true → sample_add_socket_env.address_ret = 0 →
      sample_add_socket_env.stream_status ≠ NT_STATUS_OK →
      dns_add_socket sample_add_socket_env (some "192.0.2.1") 53 =
        (sample_add_socket_env.stream_status,
         [add_socket_action.address_inet_from_strings (some "192.0.2.1") 53,
          add_socket_action.stream_setup_socket (some "192.0.2.1") 53,
          add_socket_action.talloc_free_dns_socket])) ∧
    (sample_add_socket_env.dns_socket_ok = true → sample_add_socket_env.address_ret = 0 →
      sample_add_socket_env.stream_status = NT_STATUS_OK →
      sample_add_socket_env.udp_socket_ok = true → sample_add_socket_env.bind_ret ≠ 0 →
      (dns_add_socket sample_add_socket_env (some "192.0.2.1") 53).1 ≠ NT_STATUS_OK ∧
      dns_add_socket sample_add_socket_env (some "192.0.2.1") 53 =
        (sample_add_socket_env.map_nt_error_from_unix sample_add_socket_env.bind_errno,
         [add_socket_action.address_inet_from_strings (some "192.0.2.1") 53,
          add_socket_action.stream_setup_socket (some "192.0.2.1") 53,
          add_socket_action.inet_udp_socket (some "192.0.2.1", 53)]))) :=
  ⟨rfl, dns_add_socket_sets_up_both sample_add_socket_env (some "192.0.2.1") 53
    (by decide) (by decide)⟩

/-! ## Lemmas on the message codec -/

/-- A 16-bit field that was read is below 2^16. -/
theorem get_u16_lt (bytes : List Nat) (v : Nat) (rest : List Nat)
    (h : get_u16 bytes = some (v, rest)) : v < 65536 := by
  match bytes, h with
  | a :: b :: r, h =>
    simp only [get_u16, Option.some.injEq, Prod.mk.injEq] at h
    omega

/-- Reading back a 16-bit field that was written. -/
theorem get_u16_put_u16 (v : Nat) (hv : v < 65536) (rest : List Nat) :
    get_u16 (put_u16 v ++ rest) = some (v, rest) := by
  simp only [put_u16, get_u16, List.cons_append, List.nil_append, Option.some.injEq,
    Prod.mk.injEq, and_true]
  omega

/-- A 32-bit field that was read is below 2^32. -/
theorem get_u32_lt (bytes : List Nat) (v : Nat) (rest : List Nat)
    (h : get_u32 bytes = some (v, rest)) : v < 4294967296 := by
  match bytes, h with
  | a :: b :: c :: d :: r, h =>
    simp only [get_u32, Option.some.injEq, Prod.mk.injEq] at h
    omega

/-- Reading back a 32-bit field that was written. -/
theorem get_u32_put_u32 (v : Nat) (hv : v < 4294967296) (rest : List Nat) :
    get_u32 (put_u32 v ++ rest) = some (v, rest) := by
  simp only [put_u32, get_u32, List.cons_append, List.nil_append, Option.some.injEq,
    Prod.mk.injEq, and_true]
  norm_num
  omega

/-- A question that was read is read back from what is written for it. -/
theorem get_question_put_question (F : field_codec) (hn : name_round_trip F)
    (bytes : List Nat) (q : dns_name_question) (rest : List Nat)
    (h : get_question F bytes = some (q, rest)) (rest1 : List Nat) :
    get_question F (put_question F q ++ rest1) = some (q, rest1) := by
  unfold get_question at h
  cases h1 : F.get_name bytes with
  | none => simp [h1] at h
  | some p1 =>
    obtain ⟨name, b1⟩ := p1
    simp only [h1] at h
    cases h2 : get_u16 b1 with
    | none => simp [h2] at h
    | some p2 =>
      obtain ⟨qtype, b2⟩ := p2
      simp only [h2] at h
      cases h3 : get_u16 b2 with
      | none => simp [h3] at h
      | some p3 =>
        obtain ⟨qclass, b3⟩ := p3
        simp only [h3, Option.some.injEq, Prod.mk.injEq] at h
        obtain ⟨hq, _⟩ := h
        subst hq
        simp only [get_question, put_question, List.append_assoc,
          hn bytes name b1 h1, get_u16_put_u16 qtype (get_u16_lt b1 qtype b2 h2),
          get_u16_put_u16 qclass (get_u16_lt b2 qclass b3 h3)]

/-- A resource record that was read is read back from what is written for it. -/
theorem get_res_rec_put_res_rec (F : field_codec) (hn : name_round_trip F)
    (hr : rdata_round_trip F)
    (bytes : List Nat) (r : dns_res_rec) (rest : List Nat)
    (h : get_res_rec F bytes = some (r, rest)) (rest1 : List Nat) :
    get_res_rec F (put_res_rec F r ++ rest1) = some (r, rest1) := by
  unfold get_res_rec at h
  cases h1 : F.get_name bytes with
  | none => simp [h1] at h
  | some p1 =>
    obtain ⟨name, b1⟩ := p1
    simp only [h1] at h
    cases h2 : get_u16 b1 with
    | none => simp [h2] at h
    | some p2 =>
      obtain ⟨rtype, b2⟩ := p2
      simp only [h2] at h
      cases h3 : get_u16 b2 with
      | none => simp [h3] at h
      | some p3 =>
        obtain ⟨rclass, b3⟩ := p3
        simp only [h3] at h
        cases h4 : get_u32 b3 with
        | none => simp [h4] at h
        | some p4 =>
          obtain ⟨ttl, b4⟩ := p4
          simp only [h4] at h
          cases h5 : F.get_rdata rtype b4 with
          | none => simp [h5] at h
          | some p5 =>
            obtain ⟨rdata, b5⟩ := p5
            simp only [h5, Option.some.injEq, Prod.mk.injEq] at h
            obtain ⟨hq, _⟩ := h
            subst hq
            simp only [get_res_rec, put_res_rec, List.append_assoc, Option.getD_some,
              hn bytes name b1 h1, get_u16_put_u16 rtype (get_u16_lt b1 rtype b2 h2),
              get_u16_put_u16 rclass (get_u16_lt b2 rclass b3 h3),
              get_u32_put_u32 ttl (get_u32_lt b3 ttl b4 h4), hr rtype b4 rdata b5 h5]

/-- A section that was read has the declared number of elements and is read back from
what is written for it. -/
theorem get_many_put_many {α : Type} (put : α → List Nat)
    (get : List Nat → Option (α × List Nat))
    (hrt : ∀ bytes x rest, get bytes = some (x, rest) →
      ∀ rest1, get (put x ++ rest1) = some (x, rest1))
    (n : Nat) :
    ∀ (bytes : List Nat) (xs : List α) (rest : List Nat),
      get_many get n bytes = some (xs, rest) →
      xs.length = n ∧
      ∀ rest1, get_many get n (put_many put xs ++ rest1) = some (xs, rest1) := by
  induction n with
  | zero =>
    intro bytes xs rest h
    simp only [get_many, Option.some.injEq, Prod.mk.injEq] at h
    obtain ⟨hx, _⟩ := h
    subst hx
    exact ⟨rfl, fun rest1 => by simp [put_many, get_many]⟩
  | succ k ih =>
    intro bytes xs rest h
    rw [get_many] at h
    cases h1 : get bytes with
    | none => simp [h1] at h
    | some p1 =>
      obtain ⟨x, b1⟩ := p1
      simp only [h1] at h
      cases h2 : get_many get k b1 with
      | none => simp [h2] at h
      | some p2 =>
        obtain ⟨ys, b2⟩ := p2
        simp only [h2, Option.some.injEq, Prod.mk.injEq] at h
        obtain ⟨hx, _⟩ := h
        subst hx
        obtain ⟨hlen, hback⟩ := ih b1 ys b2 h2
        refine ⟨by simp [hlen], fun rest1 => ?_⟩
        have hput : put_many put (x :: ys) ++ rest1 = put x ++ (put_many put ys ++ rest1) := by
          simp [put_many, List.append_assoc]
        rw [hput, get_many, hrt bytes x b1 h1]
        simp only [hback rest1]

/-- The character of a byte has that byte as its code. -/
theorem char_code_back (x : Nat) (hx : x < 256) : (Char.ofNat x).toNat = x := by
  have hv : x.isValidChar := Or.inl (by omega)
  simp only [Char.ofNat, hv, dite_true, Char.toNat, Char.ofNatAux]
  simp [UInt32.toNat]

/-- Splitting never gives an empty list of pieces. -/
theorem split_on_ne_nil (sep : Nat) (xs : List Nat) : split_on sep xs ≠ [] := by
  cases xs with
  | nil => simp [split_on]
  | cons x xs =>
    simp only [split_on]
    split
    · simp
    · split <;> simp

/-- A sequence without the separator is one piece. -/
theorem split_on_no_sep (sep : Nat) (xs : List Nat) (h : sep ∉ xs) :
    split_on sep xs = [xs] := by
  induction xs with
  | nil => rfl
  | cons x xs ih =>
    simp only [List.mem_cons, not_or] at h
    have hx : ¬ x = sep := fun e => h.1 e.symm
    simp [split_on, hx, ih h.2]

/-- Splitting at the first separator. -/
theorem split_on_append (sep : Nat) (xs rest : List Nat) (h : sep ∉ xs) :
    split_on sep (xs ++ sep :: rest) = xs :: split_on sep rest := by
  induction xs with
  | nil => simp [split_on]
  | cons x xs ih =>
    simp only [List.mem_cons, not_or] at h
    have hx : ¬ x = sep := fun e => h.1 e.symm
    simp [split_on, hx, ih h.2]

/-- Splitting what was joined gives the pieces back, when none of them contains the
separator. -/
theorem split_on_join_with (sep : Nat) (ls : List (List Nat)) (hne : ls ≠ [])
    (h : ∀ l ∈ ls, sep ∉ l) : split_on sep (join_with sep ls) = ls := by
  induction ls with
  | nil => exact absurd rfl hne
  | cons l rest ih =>
    cases rest with
    | nil => simpa [join_with] using split_on_no_sep sep l (h l (List.mem_cons_self _ _))
    | cons l1 ls =>
      rw [join_with, split_on_append sep l _ (h l (List.mem_cons_self _ _)),
        ih (by simp) (fun x hx => h x (List.mem_cons_of_mem _ hx))]

set_option maxRecDepth 100000 in
/-- The digits of a byte denote that byte, contain no dot and are character codes
below 256. -/
theorem fmt_byte_facts : ∀ n : Fin 256,
    parse_dec (fmt_byte n.val) = some n.val ∧ 46 ∉ fmt_byte n.val ∧
    ∀ c ∈ fmt_byte n.val, c < 256 := by
  decide

/-- The characters of a sequence of bytes have those bytes as their codes. -/
theorem codes_back (l : List Nat) (h : ∀ c ∈ l, c < 256) :
    (l.map Char.ofNat).map Char.toNat = l := by
  induction l with
  | nil => rfl
  | cons x xs ih =>
    simp only [List.map_cons, List.cons.injEq]
    exact ⟨char_code_back x (h x (List.mem_cons_self _ _)),
      ih (fun c hc => h c (List.mem_cons_of_mem _ hc))⟩

/-- Reducing bytes modulo 256 changes nothing. -/
theorem mod_bytes_back (l : List Nat) (h : ∀ c ∈ l, c < 256) :
    l.map (fun b => b % 256) = l := by
  induction l with
  | nil => rfl
  | cons x xs ih =>
    simp only [List.map_cons, List.cons.injEq]
    exact ⟨Nat.mod_eq_of_lt (h x (List.mem_cons_self _ _)),
      ih (fun c hc => h c (List.mem_cons_of_mem _ hc))⟩

/-- Every label that `get_labels` returns is acceptable. -/
theorem get_labels_ok (fuel : Nat) :
    ∀ (bytes : List Nat) (ls : List (List Nat)) (r : List Nat),
      get_labels fuel bytes = some (ls, r) → ∀ l ∈ ls, label_ok l := by
  induction fuel with
  | zero => intro bytes ls r h; simp [get_labels] at h
  | succ f ih =>
    intro bytes ls r h
    cases bytes with
    | nil => simp [get_labels] at h
    | cons n rest =>
      rw [get_labels] at h
      by_cases h0 : n % 256 = 0
      · rw [if_pos h0] at h
        simp only [Option.some.injEq, Prod.mk.injEq] at h
        intro l hl
        rw [← h.1] at hl
        simp at hl
      · rw [if_neg h0] at h
        by_cases h1 : rest.length < n % 256
        · rw [if_pos h1] at h; simp at h
        · rw [if_neg h1] at h
          by_cases h2 : 46 ∈ (rest.take (n % 256)).map (fun b => b % 256)
          · rw [if_pos h2] at h; simp at h
          · rw [if_neg h2] at h
            cases h3 : get_labels f (rest.drop (n % 256)) with
            | none => rw [h3] at h; simp at h
            | some p =>
              obtain ⟨ls1, r1⟩ := p
              rw [h3] at h
              simp only [Option.some.injEq, Prod.mk.injEq] at h
              intro l hl
              rw [← h.1] at hl
              rcases List.mem_cons.mp hl with hl | hl
              · subst hl
                have hlen : ((rest.take (n % 256)).map (fun b => b % 256)).length = n % 256 := by
                  rw [List.length_map, List.length_take]; omega
                refine ⟨?_, ?_, h2, ?_⟩
                · intro he
                  rw [he] at hlen
                  simp at hlen
                  omega
                · rw [hlen]; exact Nat.mod_lt _ (by decide)
                · intro x hx
                  simp only [List.mem_map] at hx
                  obtain ⟨y, _, hy⟩ := hx
                  rw [← hy]
                  exact Nat.mod_lt _ (by decide)
              · exact ih _ ls1 r1 h3 l hl

/-- Writing a first label and then the others. -/
theorem put_labels_cons (l : List Nat) (ls : List (List Nat)) :
    put_labels (l :: ls) = l.length :: (l ++ put_labels ls) := by
  simp [put_labels]

/-- The written form of a name has more bytes than the name has labels. -/
theorem put_labels_length (ls : List (List Nat)) : ls.length < (put_labels ls).length := by
  induction ls with
  | nil => simp [put_labels]
  | cons l rest ih =>
    rw [put_labels_cons]
    simp only [List.length_cons, List.length_append]
    omega

/-- Acceptable labels are read back from what is written for them, with enough fuel. -/
theorem get_labels_put_labels (ls : List (List Nat)) :
    (∀ l ∈ ls, label_ok l) → ∀ (fuel : Nat), ls.length < fuel → ∀ r1 : List Nat,
      get_labels fuel (put_labels ls ++ r1) = some (ls, r1) := by
  induction ls with
  | nil =>
    intro _ fuel hf r1
    cases fuel with
    | zero => omega
    | succ f => simp [put_labels, get_labels]
  | cons l rest ih =>
    intro hok fuel hf r1
    cases fuel with
    | zero => omega
    | succ f =>
      obtain ⟨hne, hlt, hdot, hbytes⟩ := hok l (List.mem_cons_self _ _)
      have hpos : 0 < l.length := List.length_pos.mpr hne
      have hmod : l.length % 256 = l.length := Nat.mod_eq_of_lt hlt
      have h0 : ¬ l.length % 256 = 0 := by omega
      have htake : List.take l.length (l ++ (put_labels rest ++ r1)) = l :=
        List.take_left' rfl
      have hdrop : List.drop l.length (l ++ (put_labels rest ++ r1)) = put_labels rest ++ r1 :=
        List.drop_left' rfl
      have h1 : ¬ (l ++ (put_labels rest ++ r1)).length < l.length := by
        simp only [List.length_append]; omega
      rw [put_labels_cons, List.cons_append, List.append_assoc, get_labels, hmod,
        if_neg (by omega), if_neg h1, htake, hdrop, mod_bytes_back l hbytes, if_neg hdot,
        ih (fun x hx => hok x (List.mem_cons_of_mem _ hx)) f
          (by simp only [List.length_cons] at hf; omega) r1]

/-- The dotted form of acceptable labels is made of bytes. -/
theorem join_with_bytes (ls : List (List Nat)) (h : ∀ l ∈ ls, label_ok l) :
    ∀ x ∈ join_with 46 ls, x < 256 := by
  induction ls with
  | nil => intro x hx; simp [join_with] at hx
  | cons l rest ih =>
    cases rest with
    | nil =>
      intro x hx
      simp only [join_with] at hx
      exact (h l (List.mem_cons_self _ _)).2.2.2 x hx
    | cons l1 ls1 =>
      intro x hx
      simp only [join_with, List.mem_append, List.mem_cons] at hx
      rcases hx with hx | hx | hx
      · exact (h l (List.mem_cons_self _ _)).2.2.2 x hx
      · omega
      · exact ih (fun y hy => h y (List.mem_cons_of_mem _ hy)) x hx

/-- The dotted form of at least one acceptable label is not empty. -/
theorem join_with_ne_nil (ls : List (List Nat)) (hne : ls ≠ []) (h : ∀ l ∈ ls, label_ok l) :
    join_with 46 ls ≠ [] := by
  cases ls with
  | nil => exact absurd rfl hne
  | cons l rest =>
    have hl := (h l (List.mem_cons_self _ _)).1
    cases rest with
    | nil => simpa [join_with] using hl
    | cons l1 ls1 => simp [join_with, hl]

/-- The name codec of `sample_field_codec` satisfies the round-trip law. -/
theorem sample_name_round_trip : name_round_trip sample_field_codec := by
  intro bytes name rest h rest1
  simp only [sample_field_codec] at h
  cases hg : get_labels bytes.length bytes with
  | none => rw [hg] at h; simp at h
  | some p =>
    obtain ⟨ls, r⟩ := p
    rw [hg] at h
    simp only [Option.some.injEq, Prod.mk.injEq] at h
    obtain ⟨hname, _⟩ := h
    subst hname
    have hok := get_labels_ok bytes.length bytes ls r hg
    have hcodes : List.map Char.toNat (List.map Char.ofNat (join_with 46 ls)) = join_with 46 ls :=
      codes_back _ (join_with_bytes ls hok)
    by_cases hls : ls = []
    · subst hls
      simp [sample_field_codec, join_with, put_labels, get_labels, String.toList]
    · have hjoin := join_with_ne_nil ls hls hok
      have hnil : ¬ (List.map Char.ofNat (join_with 46 ls) = []) := by
        simpa using hjoin
      simp only [sample_field_codec, String.toList, hnil, if_false, hcodes,
        split_on_join_with 46 ls hls (fun l hl => (hok l hl).2.2.1)]
      rw [get_labels_put_labels ls hok _ (by
        simp only [List.length_append]
        have := put_labels_length ls
        omega) rest1]

/-- The dotted-quad text of four bytes denotes those bytes. -/
theorem parse_quad_fmt_quad (a b c d : Nat) (ha : a < 256) (hb : b < 256) (hc : c < 256)
    (hd : d < 256) : parse_quad (fmt_quad a b c d) = some [a, b, c, d] := by
  obtain ⟨pa, da, _⟩ := fmt_byte_facts ⟨a, ha⟩
  obtain ⟨pb, db, _⟩ := fmt_byte_facts ⟨b, hb⟩
  obtain ⟨pc, dc, _⟩ := fmt_byte_facts ⟨c, hc⟩
  obtain ⟨pd, dd, _⟩ := fmt_byte_facts ⟨d, hd⟩
  simp only at pa pb pc pd da db dc dd
  simp only [parse_quad, fmt_quad, split_on_append 46 _ _ da, split_on_append 46 _ _ db,
    split_on_append 46 _ _ dc, split_on_no_sep 46 _ dd, pa, pb, pc, pd, ha, hb, hc, hd,
    and_self, if_true]

/-- Dotted-quad text is made of character codes below 256. -/
theorem fmt_quad_bytes (a b c d : Nat) (ha : a < 256) (hb : b < 256) (hc : c < 256)
    (hd : d < 256) : ∀ x ∈ fmt_quad a b c d, x < 256 := by
  obtain ⟨_, _, ba⟩ := fmt_byte_facts ⟨a, ha⟩
  obtain ⟨_, _, bb⟩ := fmt_byte_facts ⟨b, hb⟩
  obtain ⟨_, _, bc⟩ := fmt_byte_facts ⟨c, hc⟩
  obtain ⟨_, _, bd⟩ := fmt_byte_facts ⟨d, hd⟩
  simp only at ba bb bc bd
  intro x hx
  simp only [fmt_quad, List.mem_append, List.mem_cons] at hx
  rcases hx with hx | hx | hx | hx | hx | hx | hx
  · exact ba x hx
  · omega
  · exact bb x hx
  · omega
  · exact bc x hx
  · omega
  · exact bd x hx

/-- The rdata codec of `sample_field_codec` satisfies the round-trip law. -/
theorem sample_rdata_round_trip : rdata_round_trip sample_field_codec := by
  intro rtype bytes rdata rest h rest1
  simp only [sample_field_codec] at h
  cases h1 : get_u16 bytes with
  | none => rw [h1] at h; simp at h
  | some p =>
    obtain ⟨len, r⟩ := p
    rw [h1] at h
    simp only at h
    by_cases hlen : r.length < len
    · rw [if_pos hlen] at h; simp at h
    · rw [if_neg hlen] at h
      have hk : (List.map (fun b => b % 256) (List.take len r)).length = len := by
        rw [List.length_map, List.length_take]; omega
      have hbytes : ∀ x ∈ List.map (fun b => b % 256) (List.take len r), x < 256 := by
        intro x hx
        simp only [List.mem_map] at hx
        obtain ⟨y, _, hy⟩ := hx
        rw [← hy]
        exact Nat.mod_lt _ (by decide)
      by_cases hA : rtype = DNS_QTYPE_A
      · rw [if_pos hA] at h
        cases hm : List.map (fun b => b % 256) (List.take len r) with
        | nil => rw [hm] at h; simp at h
        | cons a l1 =>
          cases l1 with
          | nil => rw [hm] at h; simp at h
          | cons b l2 =>
            cases l2 with
            | nil => rw [hm] at h; simp at h
            | cons c l3 =>
              cases l3 with
              | nil => rw [hm] at h; simp at h
              | cons d l4 =>
                cases l4 with
                | cons e l5 => rw [hm] at h; simp at h
                | nil =>
                  rw [hm] at h
                  simp only [Option.some.injEq, Prod.mk.injEq] at h
                  obtain ⟨hd1, _⟩ := h
                  subst hd1
                  rw [hm] at hbytes
                  have ha : a < 256 := hbytes a (by simp)
                  have hb : b < 256 := hbytes b (by simp)
                  have hc : c < 256 := hbytes c (by simp)
                  have hd : d < 256 := hbytes d (by simp)
                  have hcodes := codes_back _ (fmt_quad_bytes a b c d ha hb hc hd)
                  simp only [sample_field_codec, String.toList, hcodes,
                    parse_quad_fmt_quad a b c d ha hb hc hd, List.append_assoc,
                    get_u16_put_u16 4 (by decide), hA, if_true]
                  simp [Nat.mod_eq_of_lt ha, Nat.mod_eq_of_lt hb, Nat.mod_eq_of_lt hc,
                    Nat.mod_eq_of_lt hd]
      · rw [if_neg hA] at h
        simp only [Option.some.injEq, Prod.mk.injEq] at h
        obtain ⟨hd, _⟩ := h
        subst hd
        simp only [sample_field_codec, hk, List.append_assoc,
          get_u16_put_u16 len (get_u16_lt bytes len r h1), List.length_append, hA, if_false]
        have hnot : ¬ (len + rest1.length < len) := by omega
        simp only [hnot, if_false, Option.some.injEq, Prod.mk.injEq]
        refine ⟨?_, ?_⟩
        · rw [List.take_left' hk, List.map_map]
          congr 1
          apply List.map_congr_left
          intro b _
          simp
        · rw [List.drop_left' hk]

/-! ## The message codec: round trip -/

/-- C21: for a codec whose name and rdata fields satisfy the round-trip law, every
message `m` obtained by a successful decode is decoded again from its encoding, with
the same header, counts, question list and resource records. -/
theorem codec_round_trip (F : field_codec) (hn : name_round_trip F)
    (hr : rdata_round_trip F) (bytes : List Nat) (m : dns_name_packet)
    (h : ndr_pull_dns_name_packet F bytes = some m) :
    ndr_pull_dns_name_packet F (ndr_push_dns_name_packet F m) = some m := by
  unfold ndr_pull_dns_name_packet at h
  cases h1 : get_u16 bytes with
  | none => simp [h1] at h
  | some p1 =>
    obtain ⟨id, b1⟩ := p1
    simp only [h1] at h
    cases h2 : get_u16 b1 with
    | none => simp [h2] at h
    | some p2 =>
      obtain ⟨op, b2⟩ := p2
      simp only [h2] at h
      cases h3 : get_u16 b2 with
      | none => simp [h3] at h
      | some p3 =>
        obtain ⟨qd, b3⟩ := p3
        simp only [h3] at h
        cases h4 : get_u16 b3 with
        | none => simp [h4] at h
        | some p4 =>
          obtain ⟨an, b4⟩ := p4
          simp only [h4] at h
          cases h5 : get_u16 b4 with
          | none => simp [h5] at h
          | some p5 =>
            obtain ⟨ns, b5⟩ := p5
            simp only [h5] at h
            cases h6 : get_u16 b5 with
            | none => simp [h6] at h
            | some p6 =>
              obtain ⟨ar, b6⟩ := p6
              simp only [h6] at h
              cases h7 : get_many (get_question F) qd b6 with
              | none => simp [h7] at h
              | some p7 =>
                obtain ⟨qs, b7⟩ := p7
                simp only [h7] at h
                cases h8 : get_many (get_res_rec F) an b7 with
                | none => simp [h8] at h
                | some p8 =>
                  obtain ⟨as, b8⟩ := p8
                  simp only [h8] at h
                  cases h9 : get_many (get_res_rec F) ns b8 with
                  | none => simp [h9] at h
                  | some p9 =>
                    obtain ⟨nss, b9⟩ := p9
                    simp only [h9] at h
                    cases h10 : get_many (get_res_rec F) ar b9 with
                    | none => simp [h10] at h
                    | some p10 =>
                      obtain ⟨ars, b10⟩ := p10
                      simp only [h10, Option.some.injEq] at h
                      subst h
                      obtain ⟨lq, rq⟩ := get_many_put_many (put_question F) (get_question F)
                        (get_question_put_question F hn) qd b6 qs b7 h7
                      obtain ⟨la, ra⟩ := get_many_put_many (put_res_rec F) (get_res_rec F)
                        (get_res_rec_put_res_rec F hn hr) an b7 as b8 h8
                      obtain ⟨ln, rn⟩ := get_many_put_many (put_res_rec F) (get_res_rec F)
                        (get_res_rec_put_res_rec F hn hr) ns b8 nss b9 h9
                      obtain ⟨lr, rr⟩ := get_many_put_many (put_res_rec F) (get_res_rec F)
                        (get_res_rec_put_res_rec F hn hr) ar b9 ars b10 h10
                      have hlast := rr []
                      rw [List.append_nil] at hlast
                      simp only [ndr_pull_dns_name_packet, ndr_push_dns_name_packet,
                        array_length, Option.getD_some, lq, la, ln, lr,
                        get_u16_put_u16 id (get_u16_lt bytes id b1 h1),
                        get_u16_put_u16 op (get_u16_lt b1 op b2 h2),
                        get_u16_put_u16 qd (get_u16_lt b2 qd b3 h3),
                        get_u16_put_u16 an (get_u16_lt b3 an b4 h4),
                        get_u16_put_u16 ns (get_u16_lt b4 ns b5 h5),
                        get_u16_put_u16 ar (get_u16_lt b5 ar b6 h6),
                        rq, ra, rn, hlast]

/-- Witness of C21: the response with id 0x1234 that echoes the question for
`example.com`, type A, class IN, and answers it with the address 127.0.0.1, in the
uncompressed DNS wire form of `sample_field_codec`. -/
theorem codec_round_trip_witness :
    ndr_pull_dns_name_packet sample_field_codec sample_response_bytes =
      some { id := 0x1234, operation := 0x8400, qdcount := 1, ancount := 1, nscount := 0,
             arcount := 0, questions := some [sample_question],
             answers := some [fixed_record], nsrecs := some [], additional := some [] } ∧
    ndr_pull_dns_name_packet sample_field_codec
        (ndr_push_dns_name_packet sample_field_codec
          { id := 0x1234, operation := 0x8400, qdcount := 1, ancount := 1, nscount := 0,
            arcount := 0, questions := some [sample_question],
            answers := some [fixed_record], nsrecs := some [], additional := some [] }) =
      some { id := 0x1234, operation := 0x8400, qdcount := 1, ancount := 1, nscount := 0,
             arcount := 0, questions := some [sample_question],
             answers := some [fixed_record], nsrecs := some [], additional := some [] } :=
  ⟨by decide, codec_round_trip sample_field_codec sample_name_round_trip
    sample_rdata_round_trip sample_response_bytes _ (by decide)⟩

end DnsServer

/-! # Theorems on the internal SAM backend -/

namespace WinbinddSamr

open DnsServer DnsServer.NTSTATUS

/-! ## The pipe cache is a singleton -/

/-- With a pipe in the cache, an opener makes no call, keeps the cache and hands out
the cached pipe. -/
theorem open_internal_pipe_cached (interface : String) (p : Nat) (E : pipe_env)
    (out_ptr : Bool) :
    open_internal_pipe interface (some p) E out_ptr =
      { status := NT_STATUS_OK, cli := some p,
        out := if out_ptr then some (some p) else none, calls := [] } := rfl

/-- An opener that returns `NT_STATUS_OK` leaves a pipe in the cache and hands it out,
provided `rpc_pipe_open_internal` keeps its contract. -/
theorem open_internal_pipe_ok (interface : String) (cli : Option Nat) (E : pipe_env)
    (out_ptr : Bool) (hE : E.stores_pipe)
    (h : (open_internal_pipe interface cli E out_ptr).status = NT_STATUS_OK) :
    ∃ p, (open_internal_pipe interface cli E out_ptr).cli = some p ∧
      (out_ptr = true → (open_internal_pipe interface cli E out_ptr).out = some (some p)) := by
  cases cli with
  | some p => exact ⟨p, rfl, fun hw => by simp [open_internal_pipe, hw]⟩
  | none =>
    unfold open_internal_pipe at h ⊢
    by_cases h1 : E.server_info_status = NT_STATUS_OK
    · by_cases h2 : E.open_status = NT_STATUS_OK
      · cases hc : E.open_cli with
        | none => exact absurd hc (hE h2)
        | some p =>
          refine ⟨p, by simp [h1, h2, NT_STATUS_IS_OK, hc], fun hw => ?_⟩
          simp [h1, h2, NT_STATUS_IS_OK, hc, hw]
      · simp [h1, h2, NT_STATUS_IS_OK] at h
    · simp [h1, NT_STATUS_IS_OK] at h

/-- Every call made with a pipe in the cache, however many follow each other, returns
`NT_STATUS_OK`, makes no call, keeps the cache and hands out the cached pipe. -/
theorem pipe_calls_run_cached (interface : String) (p : Nat)
    (later : List (pipe_env × Bool)) :
    ∀ r ∈ pipe_calls_run (open_internal_pipe interface) (some p) later,
      r.status = NT_STATUS_OK ∧ r.calls = [] ∧ r.cli = some p ∧
      (r.out = none ∨ r.out = some (some p)) := by
  induction later with
  | nil => intro r hr; simp [pipe_calls_run] at hr
  | cons x rest ih =>
    obtain ⟨E, w⟩ := x
    intro r hr
    simp only [pipe_calls_run, open_internal_pipe_cached, List.mem_cons] at hr
    rcases hr with hr | hr
    · subst hr
      refine ⟨rfl, rfl, rfl, ?_⟩
      cases w
      · exact Or.inl rfl
      · exact Or.inr rfl
    · exact ih r hr

/-- C22: once `open_internal_samr_pipe` (likewise `open_internal_lsa_pipe`) has
returned `NT_STATUS_OK`, a pipe is cached, and every later call returns
`NT_STATUS_OK`, hands out that same pipe and calls neither `make_server_info_system`
nor `rpc_pipe_open_internal`; and an opener makes those calls only when it finds the
cache empty. -/
theorem pipe_cache_is_singleton (cli : Option Nat) (E : pipe_env) (out_ptr : Bool)
    (later : List (pipe_env × Bool)) (hE : E.stores_pipe) :
    ((open_internal_samr_pipe cli E out_ptr).status = NT_STATUS_OK →
      ∃ p, (open_internal_samr_pipe cli E out_ptr).cli = some p ∧
        (out_ptr = true → (open_internal_samr_pipe cli E out_ptr).out = some (some p)) ∧
        ∀ r ∈ pipe_calls_run open_internal_samr_pipe
            (open_internal_samr_pipe cli E out_ptr).cli later,
          r.status = NT_STATUS_OK ∧ r.calls = [] ∧ r.cli = some p ∧
          (r.out = none ∨ r.out = some (some p))) ∧
    ((open_internal_lsa_pipe cli E out_ptr).status = NT_STATUS_OK →
      ∃ p, (open_internal_lsa_pipe cli E out_ptr).cli = some p ∧
        (out_ptr = true → (open_internal_lsa_pipe cli E out_ptr).out = some (some p)) ∧
        ∀ r ∈ pipe_calls_run open_internal_lsa_pipe
            (open_internal_lsa_pipe cli E out_ptr).cli later,
          r.status = NT_STATUS_OK ∧ r.calls = [] ∧ r.cli = some p ∧
          (r.out = none ∨ r.out = some (some p))) ∧
    ((open_internal_samr_pipe cli E out_ptr).calls ≠ [] → cli = none) ∧
    ((open_internal_lsa_pipe cli E out_ptr).calls ≠ [] → cli = none) := by
  refine ⟨fun h => ?_, fun h => ?_, fun h => ?_, fun h => ?_⟩
  · obtain ⟨p, hp, hout⟩ := open_internal_pipe_ok "samr" cli E out_ptr hE h
    refine ⟨p, hp, hout, ?_⟩
    have hp1 : (open_internal_samr_pipe cli E out_ptr).cli = some p := hp
    rw [hp1]
    exact pipe_calls_run_cached "samr" p later
  · obtain ⟨p, hp, hout⟩ := open_internal_pipe_ok "lsarpc" cli E out_ptr hE h
    refine ⟨p, hp, hout, ?_⟩
    have hp1 : (open_internal_lsa_pipe cli E out_ptr).cli = some p := hp
    rw [hp1]
    exact pipe_calls_run_cached "lsarpc" p later
  · cases cli with
    | none => rfl
    | some p => exact absurd rfl h
  · cases cli with
    | none => rfl
    | some p => exact absurd rfl h

/-- Witness of C22: the first call opens pipe 1; of the two later calls, the second
would be given pipe 2 by `rpc_pipe_open_internal` if it asked. -/
theorem pipe_cache_is_singleton_witness :
    pipe_calls_run open_internal_samr_pipe none
        [(sample_pipe_env 1, true), (sample_pipe_env 1, false), (sample_pipe_env 2, true)] =
      [{ status := NT_STATUS_OK, cli := some 1, out := some (some 1),
         calls := [pipe_call.make_server_info_system,
                   pipe_call.rpc_pipe_open_internal "samr"] },
       { status := NT_STATUS_OK, cli := some 1, out := none, calls := [] },
       { status := NT_STATUS_OK, cli := some 1, out := some (some 1), calls := [] }] ∧
    (((open_internal_samr_pipe none (sample_pipe_env 1) true).status = NT_STATUS_OK →
      ∃ p, (open_internal_samr_pipe none (sample_pipe_env 1) true).cli = some p ∧
        (true = true →
          (open_internal_samr_pipe none (sample_pipe_env 1) true).out = some (some p)) ∧
        ∀ r ∈ pipe_calls_run open_internal_samr_pipe
            (open_internal_samr_pipe none (sample_pipe_env 1) true).cli
            [(sample_pipe_env 1, false), (sample_pipe_env 2, true)],
          r.status = NT_STATUS_OK ∧ r.calls = [] ∧ r.cli = some p ∧
          (r.out = none ∨ r.out = some (some p))) ∧
    ((open_internal_lsa_pipe none (sample_pipe_env 1) true).status = NT_STATUS_OK →
      ∃ p, (open_internal_lsa_pipe none (sample_pipe_env 1) true).cli = some p ∧
        (true = true →
          (open_internal_lsa_pipe none (sample_pipe_env 1) true).out = some (some p)) ∧
        ∀ r ∈ pipe_calls_run open_internal_lsa_pipe
            (open_internal_lsa_pipe none (sample_pipe_env 1) true).cli
            [(sample_pipe_env 1, false), (sample_pipe_env 2, true)],
          r.status = NT_STATUS_OK ∧ r.calls = [] ∧ r.cli = some p ∧
          (r.out = none ∨ r.out = some (some p))) ∧
    ((open_internal_samr_pipe none (sample_pipe_env 1) true).calls ≠ [] →
      (none : Option Nat) = none) ∧
    ((open_internal_lsa_pipe none (sample_pipe_env 1) true).calls ≠ [] →
      (none : Option Nat) = none)) :=
  ⟨rfl, pipe_cache_is_singleton none (sample_pipe_env 1) true
    [(sample_pipe_env 1, false), (sample_pipe_env 2, true)]
    (fun _ => by decide)⟩

/-! ## Trusted domains and group members -/

/-- C23, at the failing input: the enumeration answers with two pages of one domain
each, the first with `STATUS_MORE_ENTRIES`. `sam_trusted_domains` succeeds with
`trusts->count = 2`, but slot 0 of `trusts->array` holds the domain of the second page
and slot 1 holds what the memory added by `talloc_realloc` held (here zero bytes): every
page is stored from `&array[0]` on. The concatenation of the pages is `ALPHA`, `BETA`. -/
theorem sam_trusted_domains_pages_overwrite :
    sam_trusted_domains none
        (sample_trusted_env
          [{ status := STATUS_MORE_ENTRIES, domains := [sample_trust "ALPHA" 1] },
           { status := NT_STATUS_OK, domains := [sample_trust "BETA" 2] }]) =
      some { status := NT_STATUS_OK
             trusts := some (2, some
               [{ zero_trust with netbios_name := some "BETA",
                                  sid := some { auths := [5, 21, 2] } },
                zero_trust])
             cli := some 1 } :=
  rfl

/-- Whatever the environment and the caller, `sam_lookup_groupmem` stores nothing
through `pnum_names`. -/
theorem sam_lookup_groupmem_num_names (cli : Option Nat) (G : groupmem_env)
    (P : groupmem_ptrs) (r : groupmem_result)
    (h : sam_lookup_groupmem cli G P = some r) : r.num_names = none := by
  unfold sam_lookup_groupmem at h
  have hp : (if P.pnum_names = true then false else P.pnum_names) = false := by
    cases P.pnum_names <;> rfl
  simp only [hp] at h
  have key : ∀ (st : NTSTATUS) (c : Option Nat),
      some ({ status := st, num_names := none, sid_mem := none, names := none,
              name_types := none, cli := c } : groupmem_result) = some r →
      r.num_names = none := by
    intro st c hh
    rw [Option.some.injEq] at hh
    rw [← hh]
  split at h
  · exact key _ _ h
  · by_cases h1 : G.tmp_ctx_ok = false
    · rw [if_pos h1] at h; exact key _ _ h
    · rw [if_neg h1] at h
      cases hc : open_internal_samr_conn cli G.conn with
      | none => rw [hc] at h; exact absurd h (by simp)
      | some c =>
      rw [hc] at h
      simp only [] at h
      by_cases h2 : NT_STATUS_IS_OK c.1 = false
      · rw [if_pos h2] at h; exact key _ _ h
      · rw [if_neg h2] at h
        by_cases h3 : NT_STATUS_IS_OK G.open_group_status = false
        · rw [if_pos h3] at h; exact key _ _ h
        · rw [if_neg h3] at h
          by_cases h4 : NT_STATUS_IS_OK G.query_status = false
          · rw [if_pos h4] at h; exact key _ _ h
          · rw [if_neg h4] at h
            by_cases h5 : G.rids = none ∨ G.rids = some []
            · rw [if_pos h5] at h; exact key _ _ h
            · rw [if_neg h5] at h
              by_cases h6 : G.names_ok = false ∨ G.name_types_ok = false ∨ G.sid_mem_ok = false
              · rw [if_pos h6] at h; exact key _ _ h
              · rw [if_neg h6] at h
                by_cases h7 : NT_STATUS_IS_OK G.lookup_status = false ∧
                    NT_STATUS_EQUAL G.lookup_status STATUS_SOME_UNMAPPED = false
                · rw [if_pos h7] at h; exact key _ _ h
                · rw [if_neg h7] at h
                  by_cases h8 : G.tmp_names.length ≠ G.tmp_types.length
                  · rw [if_pos h8] at h; exact key _ _ h
                  · rw [if_neg h8] at h
                    cases h9 : sam_lookup_groupmem_copy G (G.tmp_names.zip G.tmp_types)
                        (List.replicate (G.rids.getD []).length none)
                        (List.replicate (G.rids.getD []).length 0) 0 with
                    | none => rw [h9] at h; exact absurd h (by simp)
                    | some t =>
                      obtain ⟨n1, t1, tot⟩ := t
                      rw [h9] at h
                      simp only [Option.some.injEq] at h
                      rw [← h]
                      rfl

/-- C24, at the failing input: a group with two members, both looked up with type 1
(user), and a caller that passes all output parameters. `sam_lookup_groupmem` returns
`NT_STATUS_OK` and the two names, but stores nothing through `pnum_names`: the statement
`pnum_names = 0` at its start has set the parameter itself to `NULL`. -/
theorem sam_lookup_groupmem_leaves_num_names_unset :
    sam_lookup_groupmem none
        (sample_groupmem_env [1000, 1001] [(some "alice", 1), (some "bob", 1)] NT_STATUS_OK)
        all_ptrs =
      some { status := NT_STATUS_OK
             num_names := none
             sid_mem := some [{ auths := [5, 21, 1, 2, 3, 1000] },
                              { auths := [5, 21, 1, 2, 3, 1001] }]
             names := some [some "DOM\\alice", some "DOM\\bob"]
             name_types := some [1, 1]
             cli := some 1 } ∧
    sam_lookup_groupmem none (sample_groupmem_env [] [] NT_STATUS_OK) all_ptrs =
      some { status := NT_STATUS_OK, num_names := none, sid_mem := none, names := none,
             name_types := none, cli := some 1 } :=
  ⟨rfl, rfl⟩

/-- C25, at the failing input: a group with the members 1000 and 1001, of which the
first resolves to `SID_NAME_UNKNOWN` and is skipped. The name and type of RID 1001 are
stored in slot 0 of `names` and `name_types`, while slot 0 of `sid_mem` is the SID
composed with RID 1000: the SIDs are stored for every RID, without skipping. -/
theorem sam_lookup_groupmem_sid_mem_not_aligned :
    sam_lookup_groupmem none
        (sample_groupmem_env [1000, 1001] [(none, SID_NAME_UNKNOWN), (some "bob", 1)]
          STATUS_SOME_UNMAPPED)
        all_ptrs =
      some { status := STATUS_SOME_UNMAPPED
             num_names := none
             sid_mem := some [{ auths := [5, 21, 1, 2, 3, 1000] },
                              { auths := [5, 21, 1, 2, 3, 1001] }]
             names := some [some "DOM\\bob", none]
             name_types := some [1, 0]
             cli := some 1 } :=
  rfl

end WinbinddSamr
